import Mathlib

/-!
# Dashboard client of the publishing backend (`src/main.js`)

A shallow embedding of the client's session handling, API client, push-channel
handlers, full sync and mutating handlers, followed by theorems about them.

Conventions of the embedding.

* JavaScript values are `JVal`; numbers are integers (`nan` stands for `NaN`),
  strings are Lean strings; `length` and `substring` count their UTF-16 code
  units (`codeUnits`), two for a character above U+FFFF.
* An `async` function is split at its `await fetch(...)`: the part before it
  returns the request it issues, the part after it takes the outcome of the
  fetch.  A reply's body is available together with its status.
* What the browser or a library computes and the script only calls (`new URL`,
  `Date`, `toUpperCase`) is a field of `Env`.
* DOM elements looked up by id exist; `localStorage` and the DOM setters do
  not raise.
-/

namespace Publishing

/-! ## JavaScript values -/

/-- A JavaScript value as the script meets it: JSON data, plus `undefined`
and `NaN`. -/
inductive JVal where
  | undefined
  | null
  | nan
  | bool (b : Bool)
  | num (n : Int)
  | str (s : String)
  | arr (xs : List JVal)
  | obj (kvs : List (String × JVal))
  deriving Repr

/-- An object literal or parsed JSON object: its properties in order. -/
abbrev Obj := List (String × JVal)

namespace JVal

mutual
/-- Decision procedure for equality of values. -/
def decEq : (a b : JVal) → Decidable (a = b)
  | undefined, undefined => isTrue rfl
  | null, null => isTrue rfl
  | nan, nan => isTrue rfl
  | bool a, bool b =>
    if h : a = b then isTrue (by rw [h]) else isFalse (by intro h'; cases h'; exact h rfl)
  | num a, num b =>
    if h : a = b then isTrue (by rw [h]) else isFalse (by intro h'; cases h'; exact h rfl)
  | str a, str b =>
    if h : a = b then isTrue (by rw [h]) else isFalse (by intro h'; cases h'; exact h rfl)
  | arr xs, arr ys =>
    match decEqList xs ys with
    | isTrue h => isTrue (by rw [h])
    | isFalse h => isFalse (by intro h'; cases h'; exact h rfl)
  | obj xs, obj ys =>
    match decEqKvs xs ys with
    | isTrue h => isTrue (by rw [h])
    | isFalse h => isFalse (by intro h'; cases h'; exact h rfl)
  | undefined, null | undefined, nan | undefined, bool _ | undefined, num _
  | undefined, str _ | undefined, arr _ | undefined, obj _
  | null, undefined | null, nan | null, bool _ | null, num _
  | null, str _ | null, arr _ | null, obj _
  | nan, undefined | nan, null | nan, bool _ | nan, num _
  | nan, str _ | nan, arr _ | nan, obj _
  | bool _, undefined | bool _, null | bool _, nan | bool _, num _
  | bool _, str _ | bool _, arr _ | bool _, obj _
  | num _, undefined | num _, null | num _, nan | num _, bool _
  | num _, str _ | num _, arr _ | num _, obj _
  | str _, undefined | str _, null | str _, nan | str _, bool _
  | str _, num _ | str _, arr _ | str _, obj _
  | arr _, undefined | arr _, null | arr _, nan | arr _, bool _
  | arr _, num _ | arr _, str _ | arr _, obj _
  | obj _, undefined | obj _, null | obj _, nan | obj _, bool _
  | obj _, num _ | obj _, str _ | obj _, arr _ => isFalse (by intro h; cases h)
/-- Decision procedure for equality of lists of values. -/
def decEqList : (xs ys : List JVal) → Decidable (xs = ys)
  | [], [] => isTrue rfl
  | [], _ :: _ => isFalse (by intro h; cases h)
  | _ :: _, [] => isFalse (by intro h; cases h)
  | x :: xs, y :: ys =>
    match decEq x y, decEqList xs ys with
    | isTrue h1, isTrue h2 => isTrue (by rw [h1, h2])
    | isFalse h1, _ => isFalse (by intro h; cases h; exact h1 rfl)
    | _, isFalse h2 => isFalse (by intro h; cases h; exact h2 rfl)
/-- Decision procedure for equality of property lists. -/
def decEqKvs : (xs ys : List (String × JVal)) → Decidable (xs = ys)
  | [], [] => isTrue rfl
  | [], _ :: _ => isFalse (by intro h; cases h)
  | _ :: _, [] => isFalse (by intro h; cases h)
  | (k, x) :: xs, (l, y) :: ys =>
    if hk : k = l then
      match decEq x y, decEqKvs xs ys with
      | isTrue h1, isTrue h2 => isTrue (by rw [hk, h1, h2])
      | isFalse h1, _ => isFalse (by intro h; cases h; exact h1 rfl)
      | _, isFalse h2 => isFalse (by intro h; cases h; exact h2 rfl)
    else isFalse (by intro h; cases h; exact hk rfl)
end

instance : DecidableEq JVal := decEq

/-- Truthiness (`ToBoolean`): `undefined`, `null`, `NaN`, `false`, `0` and `''`
are falsy, every other value is truthy. -/
def truthy : JVal → Bool
  | undefined => false
  | null => false
  | nan => false
  | bool b => b
  | num n => n != 0
  | str s => s != ""
  | arr _ => true
  | obj _ => true

/-- The operator `a || b`. -/
def or (a b : JVal) : JVal := if a.truthy then a else b

mutual
/-- String conversion (`ToString`), as a template literal or `new Error(v)`
applies it. -/
def toStr : JVal → String
  | undefined => "undefined"
  | null => "null"
  | nan => "NaN"
  | bool b => if b then "true" else "false"
  | num n => toString n
  | str s => s
  | arr xs => ",".intercalate (toStrElems xs)
  | obj _ => "[object Object]"
/-- The pieces `Array.prototype.join` puts together: `null` and `undefined`
elements give the empty string. -/
def toStrElems : List JVal → List String
  | [] => []
  | undefined :: xs => "" :: toStrElems xs
  | null :: xs => "" :: toStrElems xs
  | x :: xs => toStr x :: toStrElems xs
end

end JVal

/-- A raised JavaScript exception: the constructor's name and the message. -/
structure JsError where
  name : String
  message : String
  deriving DecidableEq, Repr

/-- The value of `new Error(message)`. -/
def JsError.error (message : String) : JsError := ⟨"Error", message⟩

/-- The `TypeError` the engine raises; the wording follows V8 and no theorem
depends on it. -/
def JsError.typeError (message : String) : JsError := ⟨"TypeError", message⟩

deriving instance DecidableEq for Except

/-- The UTF-16 code units of a character: the character itself up to U+FFFF,
a surrogate pair above. -/
def utf16Units (c : Char) : List Nat :=
  if c.toNat < 0x10000 then [c.toNat]
  else [0xD800 + (c.toNat - 0x10000) / 0x400, 0xDC00 + (c.toNat - 0x10000) % 0x400]

/-- The code units of a list of characters. -/
def codeUnitsOf : List Char → List Nat
  | [] => []
  | c :: cs => utf16Units c ++ codeUnitsOf cs

/-- A string of the script as the engine holds it: the sequence of its UTF-16
code units, which `length` counts and at which `substring` cuts. -/
def codeUnits (s : String) : List Nat := codeUnitsOf s.data

namespace Obj

/-- Property lookup in an object: the first binding of the key, `undefined`
when there is none. -/
def get : Obj → String → JVal
  | [], _ => .undefined
  | (k, v) :: rest, key => if k = key then v else get rest key

/-- Property assignment `o[key] = v`: the binding of the key is replaced, or
added when the object has none. -/
def set : Obj → String → JVal → Obj
  | [], key, v => [(key, v)]
  | (k, w) :: rest, key, v => if k = key then (k, v) :: rest else (k, w) :: set rest key v

end Obj

namespace JVal

/-- Property read `v.key` for a key that is not a built-in of the value:
raises on `undefined` and `null`, looks the key up in an object, and is
`undefined` on every other value. -/
def getProp (v : JVal) (key : String) : Except JsError JVal :=
  match v with
  | undefined =>
    .error (.typeError ("Cannot read properties of undefined (reading '" ++ key ++ "')"))
  | null => .error (.typeError ("Cannot read properties of null (reading '" ++ key ++ "')"))
  | obj kvs => .ok (Obj.get kvs key)
  | _ => .ok .undefined

/-- The property `v.length`: the number of code units of a string, of elements
of an array; an ordinary property elsewhere. -/
def length (v : JVal) : Except JsError JVal :=
  match v with
  | str s => .ok (.num (codeUnits s).length)
  | arr xs => .ok (.num xs.length)
  | _ => v.getProp "length"

end JVal

/-! ## Strings, and what the browser computes -/

/-- White space and line terminators, the characters `String.prototype.trim`
removes. -/
def isJsWhitespace (c : Char) : Bool :=
  let n := c.toNat
  n = 9 || n = 10 || n = 11 || n = 12 || n = 13 || n = 32 || n = 160 || n = 0x1680
    || (0x2000 ≤ n && n ≤ 0x200A) || n = 0x2028 || n = 0x2029 || n = 0x202F
    || n = 0x205F || n = 0x3000 || n = 0xFEFF

/-- The characters of `s.trim()`. -/
def trimChars (cs : List Char) : List Char :=
  ((cs.dropWhile isJsWhitespace).reverse.dropWhile isJsWhitespace).reverse

/-- The method `s.trim()`. -/
def jsTrim (s : String) : String := String.mk (trimChars s.data)

/-- What the browser computes for the script. -/
structure Env where
  /-- Whether `new URL(string)` returns rather than raises. -/
  isValidUrl : String → Bool
  /-- The value of `new Date(s).toISOString()`; `none` when the date is
  invalid and the call raises a `RangeError`. -/
  toISOString : String → Option String
  /-- The method `s.toUpperCase()`. -/
  toUpperCase : String → String
  /-- The comparison `v > n` for a value `v` that is a string, an array or an
  object, which the engine first converts to a number. -/
  coercedGreater : JVal → Int → Bool

/-! ## Requests and replies -/

/-- One part of a multipart `FormData` payload. -/
inductive FormPart where
  | file (name : String)
  | text (value : String)
  deriving DecidableEq, Repr

/-- A `FormData` payload: its parts in the order they were appended. -/
abbrev FormData := List (String × FormPart)

/-- The `body` argument of `apiRequest`. -/
inductive Body where
  | value (v : JVal)
  | formData (fd : FormData)
  deriving DecidableEq, Repr

/-- The body of an outgoing request: `json v` is the text `JSON.stringify(v)`,
`multipart fd` the payload `fd` handed to `fetch` as it is. -/
inductive ReqBody where
  | json (v : JVal)
  | multipart (fd : FormData)
  deriving DecidableEq, Repr

/-- An outgoing `fetch` call. -/
structure Request where
  url : String
  method : String
  headers : List (String × String)
  body : Option ReqBody
  deriving DecidableEq, Repr

/-- A reply: its status, its `content-length` header, and what
`response.json()` gives, the parsed body or the message of the error raised
while parsing. -/
structure Response (β : Type) where
  status : Nat
  contentLength : Option String
  json : Except String β

/-- The property `response.ok`: a status from 200 to 299. -/
def Response.ok {β : Type} (r : Response β) : Bool := 200 ≤ r.status && r.status ≤ 299

/-- How a `fetch` call settles: with a reply, or rejected (no connection) with
the message of the error. -/
inductive FetchOutcome (β : Type) where
  | reply (r : Response β)
  | failed (message : String)

/-! ## State -/

/-- The global `clientState`. -/
structure ClientState where
  id : JVal
  name : JVal
  token : JVal
  deriving DecidableEq, Repr

/-- The object `appState.ui`. -/
structure Ui where
  currentTab : String
  isGroupPublishing : JVal
  deriving DecidableEq, Repr

/-- The global `appState`; `data` is a JSON object, as the reply of
`GET /api/data/initial` is (§6). -/
structure AppState where
  data : Obj
  ui : Ui
  deriving DecidableEq, Repr

/-- The connection status of a socket.io socket: `socket.connected` holds in
`connected` only; `disconnected` is a socket on which `disconnect()` was
called; a socket is `connecting` from `io(...)` until its `connect` event and
again while the transport reconnects. -/
inductive SocketStatus where
  | connecting
  | connected
  | disconnected
  deriving DecidableEq, Repr

/-- The notification element after `Utils.showNotification(title, message, type)`. -/
structure Notification where
  title : String
  message : JVal
  type : String
  deriving DecidableEq, Repr

/-- The values of the form controls the handlers read. -/
structure Inputs where
  email : String
  password : String
  manualTextInput : String
  aiTopicInput : String
  aiCountInput : String
  imageTagsInput : String
  fileUploadFiles : List String
  groupUrlInput : String
  groupTagsSingleInput : String
  bulkGroupsInput : String
  bulkTagsInput : String
  pageNameInput : String
  pageUrlInput : String
  schedulePageSelect : String
  scheduleDatetime : String
  scheduleTextContent : String
  scheduleImageSelect : String
  groupTagsInput : String
  contentTagsInput : String
  deriving DecidableEq, Repr

/-- The part of the document the script writes outside the rendered tables. -/
structure Dom where
  loginContainerDisplay : String
  appContainerDisplay : String
  loginErrorText : JVal
  loginErrorDisplay : String
  loginButtonDisabled : Bool
  userName : JVal
  userAvatar : String
  startBtnDisplay : String
  stopBtnDisplay : String
  startBtnDisabled : Bool
  notification : Option Notification
  loading : Bool
  statusDot : String
  statusText : String
  logPanel : List (String × JVal)
  modalDisplay : String
  textEditTextarea : Option String
  scheduleImageOptions : List String
  inputs : Inputs
  deriving DecidableEq, Repr

/-- The state of the page: the script's globals, the stored token and the
document.  `socket` is the global of that name (`none` before the first
connection); `orphans` are the sockets created earlier that the global no
longer refers to. -/
structure State where
  socket : Option SocketStatus
  orphans : List SocketStatus
  clientState : ClientState
  appState : AppState
  jwtToken : Option String
  dom : Dom
  deriving DecidableEq, Repr

/-- The base URL of the backend. -/
def API_URL : String := "https://34.55.41.159.sslip.io"

/-! ## Utilities (`Utils`) -/

/-- The function `Utils.showLoading(show)`. -/
def showLoading (toShow : Bool) (s : State) : State :=
  { s with dom := { s.dom with loading := toShow } }

/-- The function `Utils.showNotification(title, message, type)`: the
notification element shows the title and the message. -/
def showNotification (title : String) (message : JVal) (type : String) (s : State) : State :=
  { s with dom := { s.dom with notification := some ⟨title, message, type⟩ } }

/-- A method call `v.method(...)` for a method of `String.prototype`: the
string it is called on; raises on every value that is not a string. -/
def strMethod (v : JVal) (method : String) : Except JsError String :=
  match v with
  | .str s => .ok s
  | .undefined =>
    .error (.typeError ("Cannot read properties of undefined (reading '" ++ method ++ "')"))
  | .null => .error (.typeError ("Cannot read properties of null (reading '" ++ method ++ "')"))
  | _ => .error (.typeError (method ++ " is not a function"))

/-- A method call `v.method(...)` for a method of `Array.prototype`: the
elements of the array it is called on; raises on every value that is not an
array. -/
def arrMethod (v : JVal) (method : String) : Except JsError (List JVal) :=
  match v with
  | .arr xs => .ok xs
  | .undefined =>
    .error (.typeError ("Cannot read properties of undefined (reading '" ++ method ++ "')"))
  | .null => .error (.typeError ("Cannot read properties of null (reading '" ++ method ++ "')"))
  | _ => .error (.typeError (method ++ " is not a function"))

/-- The comparison `v > n` with a number `n`. -/
def gtNumber (env : Env) (v : JVal) (n : Int) : Bool :=
  match v with
  | .num k => decide (k > n)
  | .undefined => false
  | .nan => false
  | .null => decide (0 > n)
  | .bool b => decide ((if b then 1 else 0) > n)
  | w => env.coercedGreater w n

/-- What `Utils.truncateText` returns: a value it was given or the empty
string, or a new string, given by its code units because `substring` may cut
between the two units of a character above U+FFFF. -/
inductive Truncated where
  | value (v : JVal)
  | units (us : List Nat)
  deriving DecidableEq, Repr

/-- The code units of the string `truncateText` returned; `none` when it
returned a value that is no string. -/
def Truncated.codeUnits : Truncated → Option (List Nat)
  | .value (.str s) => some (Publishing.codeUnits s)
  | .value _ => none
  | .units us => some us

/-- The function `Utils.truncateText(text, maxLength)`. -/
def truncateText (env : Env) (text : JVal) (maxLength : Int) : Except JsError Truncated :=
  if !text.truthy then .ok (.value (.str ""))
  else
    match text.length with
    | .error e => .error e
    | .ok len =>
      if gtNumber env len maxLength then
        match strMethod text "substring" with
        | .error e => .error e
        | .ok t => .ok (.units ((codeUnits t).take maxLength.toNat ++ codeUnits "..."))
      else .ok (.value text)

/-- The function `Utils.truncateText(text, maxLength)` on a string given by
its code units, any sequence of them: `!text` holds of the empty string only,
`text.length` is the number of units and `text.substring(0, maxLength)` the
first `maxLength` of them. -/
def truncateUnits (text : List Nat) (maxLength : Int) : List Nat :=
  if text = [] then []
  else if (text.length : Int) > maxLength then text.take maxLength.toNat ++ codeUnits "..."
  else text

/-- Value of a digit in the given radix. -/
def digitVal (radix : Nat) (c : Char) : Option Nat :=
  let d : Option Nat :=
    if '0' ≤ c ∧ c ≤ '9' then some (c.toNat - 48)
    else if 'a' ≤ c ∧ c ≤ 'z' then some (c.toNat - 87)
    else if 'A' ≤ c ∧ c ≤ 'Z' then some (c.toNat - 55)
    else none
  d.filter (fun k => k < radix)

/-- The longest run of digits at the front of the characters, as a number
(`none` when the first character is no digit). -/
def parseDigits (radix : Nat) : List Char → Option Nat → Option Nat
  | [], acc => acc
  | c :: cs, acc =>
    match digitVal radix c with
    | none => acc
    | some d => parseDigits radix cs (some (acc.getD 0 * radix + d))

/-- The global `parseInt(string)`, called without a radix. -/
def parseInt (s : String) : JVal :=
  let cs := s.data.dropWhile isJsWhitespace
  let signed : Bool × List Char :=
    match cs with
    | '-' :: r => (true, r)
    | '+' :: r => (false, r)
    | _ => (false, cs)
  let based : Nat × List Char :=
    match signed.2 with
    | '0' :: 'x' :: r => (16, r)
    | '0' :: 'X' :: r => (16, r)
    | _ => (10, signed.2)
  match parseDigits based.1 based.2 none with
  | none => .nan
  | some n => .num (if signed.1 then -(n : Int) else n)

/-! ## Push channel and session -/

/-- The function `connectWebSocket()`, up to the registration of the
handlers: a socket that is connected is disconnected, then `io(...)` creates a
new socket, which the global refers to from now on. -/
def connectWebSocket (s : State) : State :=
  let previous : List SocketStatus :=
    match s.socket with
    | some .connected => [.disconnected]
    | some st => [st]
    | none => []
  { s with socket := some .connecting, orphans := previous ++ s.orphans }

/-- The function `showApp()`; it raises when `clientState.name` is truthy and
no string (`substring` is then no function), before the socket is opened. -/
def showApp (env : Env) (s : State) : State × Except JsError Unit :=
  let s1 : State :=
    { s with dom := { s.dom with loginContainerDisplay := "none", appContainerDisplay := "grid" } }
  if s1.clientState.name.truthy then
    let s2 : State := { s1 with dom := { s1.dom with userName := s1.clientState.name } }
    match strMethod s1.clientState.name "substring" with
    | .error e => (s2, .error e)
    | .ok n =>
      (connectWebSocket { s2 with dom := { s2.dom with userAvatar := env.toUpperCase (n.take 2) } },
        .ok ())
  else (connectWebSocket s1, .ok ())

/-- The function `showLogin()`. -/
def showLogin (s : State) : State :=
  { s with
    clientState := { id := .null, name := .null, token := .null }
    jwtToken := none
    dom := { s.dom with
      loginContainerDisplay := "flex"
      appContainerDisplay := "none"
      inputs := { s.dom.inputs with email := "", password := "" } } }

/-- The statement `if (socket && socket.connected) socket.disconnect()`. -/
def disconnectIfConnected (s : State) : State :=
  match s.socket with
  | some .connected => { s with socket := some .disconnected }
  | _ => s

/-- The function `handleLogout()`. -/
def handleLogout (s : State) : State :=
  let s1 := showLogin (disconnectIfConnected s)
  { s1 with dom := { s1.dom with
      logPanel := [("log-info", .str "Sesión cerrada. Inicia sesión para continuar.")] } }

/-! ## API client -/

/-- The request `apiRequest(endpoint, method, body)` hands to `fetch`, built
from the current `clientState`. -/
def apiRequestConfig (cs : ClientState) (endpoint method : String) (body : Body) : Request :=
  let authorization : String × String := ("Authorization", "Bearer " ++ cs.token.toStr)
  match body with
  | .formData fd =>
    { url := API_URL ++ endpoint, method := method, headers := [authorization],
      body := some (.multipart fd) }
  | .value v =>
    if v.truthy then
      { url := API_URL ++ endpoint, method := method,
        headers := [authorization, ("Content-Type", "application/json")],
        body := some (.json v) }
    else
      { url := API_URL ++ endpoint, method := method, headers := [authorization], body := none }

/-- The value `{ success: true }` that `apiRequest` returns for an empty reply. -/
def successSentinel : JVal := .obj [("success", .bool true)]

/-- The session-expired handling of `apiRequest`: the warning notification,
then `handleLogout()`. -/
def sessionExpired (s : State) : State :=
  handleLogout
    (showNotification "Sesión Expirada" (.str "Por favor, inicia sesión de nuevo.") "warning" s)

/-- The function `apiRequest(endpoint, ...)` from the point where `fetch`
settles: the state it leaves and the value it returns or the error it
raises. -/
def apiRequestResume (endpoint : String) (out : FetchOutcome JVal) (s : State) :
    State × Except JsError JVal :=
  match out with
  | .failed message => (s, .error (.typeError message))
  | .reply r =>
    if !r.ok then
      let s1 := if r.status = 401 ∨ r.status = 422 then sessionExpired s else s
      match r.json with
      | .error m => (s1, .error ⟨"SyntaxError", m⟩)
      | .ok errorData =>
        match errorData.getProp "msg" with
        | .error e => (s1, .error e)
        | .ok msg =>
          (s1, .error (.error (msg.or (.str ("Error en la petición a " ++ endpoint))).toStr))
    else if r.status = 204 ∨ r.contentLength = some "0" then (s, .ok successSentinel)
    else
      match r.json with
      | .error m => (s, .error ⟨"SyntaxError", m⟩)
      | .ok v => (s, .ok v)

/-! ## Rendering (`DataManager.update...`)

The markup the rendering functions write is not part of `State`.  What the
callers observe of them is whether they return or raise, which is what the
definitions below compute, statement by statement.  `updateStats` reads
lengths with `?.` and `||` only and never raises, so it does not appear. -/

/-- A row callback applied to the elements in order (`map`, `forEach`): the
first error raised ends the loop. -/
def forEachRow (row : JVal → Except JsError Unit) : List JVal → Except JsError Unit
  | [] => .ok ()
  | x :: xs =>
    match row x with
    | .error e => .error e
    | .ok _ => forEachRow row xs

/-- The shape shared by the table functions: nothing to draw when the list is
falsy or its `length` is `0`, otherwise `rows.map(row)`. -/
def renderTable (rows : JVal) (row : JVal → Except JsError Unit) : Except JsError Unit :=
  if !rows.truthy then .ok ()
  else
    match rows.length with
    | .error e => .error e
    | .ok len =>
      if len = .num 0 then .ok ()
      else
        match arrMethod rows "map" with
        | .error e => .error e
        | .ok xs => forEachRow row xs

/-- The tags cell `(tags || '').split(',')...`. -/
def tagsCell (tags : JVal) : Except JsError Unit := do
  let _ ← strMethod (tags.or (.str "")) "split"
  pure ()

/-- The row callback of `updateTextsTable`. -/
def textRow (env : Env) (text : JVal) : Except JsError Unit := do
  let _ ← text.getProp "usage_count"
  let content ← text.getProp "content"
  let _ ← strMethod content "replace"
  let _ ← truncateText env content 100
  let aiTags ← text.getProp "ai_tags"
  tagsCell aiTags

/-- The function `DataManager.updateTextsTable()`. -/
def updateTextsTable (env : Env) (data : Obj) : Except JsError Unit :=
  renderTable (data.get "texts") (textRow env)

/-- The row callback of `updateImagesTable`. -/
def imageRow (image : JVal) : Except JsError Unit := do
  let _ ← image.getProp "usage_count"
  let path ← image.getProp "path"
  let _ ← strMethod path "split"
  let manualTags ← image.getProp "manual_tags"
  tagsCell manualTags

/-- The function `DataManager.updateImagesTable()`. -/
def updateImagesTable (data : Obj) : Except JsError Unit :=
  renderTable (data.get "images") imageRow

/-- The row callback of `updateGroupsTable`. -/
def groupRow (env : Env) (group : JVal) : Except JsError Unit := do
  let _ ← group.getProp "id"
  let url ← group.getProp "url"
  let _ ← truncateText env url 100
  let tags ← group.getProp "tags"
  tagsCell tags

/-- The function `DataManager.updateGroupsTable()`. -/
def updateGroupsTable (env : Env) (data : Obj) : Except JsError Unit :=
  renderTable (data.get "groups") (groupRow env)

/-- The row callback of `updatePagesTable`. -/
def pageRow (env : Env) (page : JVal) : Except JsError Unit := do
  let _ ← page.getProp "id"
  let pageUrl ← page.getProp "page_url"
  let _ ← truncateText env pageUrl 100
  pure ()

/-- The function `DataManager.updatePagesTable()`. -/
def updatePagesTable (env : Env) (data : Obj) : Except JsError Unit :=
  renderTable (data.get "pages") (pageRow env)

/-- The row callback of `updateScheduledPostsTable`. -/
def scheduledPostRow (env : Env) (post : JVal) : Except JsError Unit := do
  let _ ← post.getProp "status"
  let textContent ← post.getProp "text_content"
  let _ ← truncateText env textContent 100
  let imagePath ← post.getProp "image_path"
  if imagePath.truthy then
    let _ ← strMethod imagePath "split"
    pure ()
  else pure ()

/-- The function `DataManager.updateScheduledPostsTable()`. -/
def updateScheduledPostsTable (env : Env) (data : Obj) : Except JsError Unit :=
  renderTable (data.get "scheduled_posts") (scheduledPostRow env)

/-- One of the two loops of `updateSelects`: `if (list) list.forEach(row)`. -/
def selectOptions (list : JVal) (row : JVal → Except JsError Unit) : Except JsError Unit :=
  if list.truthy then
    match arrMethod list "forEach" with
    | .error e => .error e
    | .ok xs => forEachRow row xs
  else .ok ()

/-- The function `DataManager.updateSelects()`. -/
def updateSelects (data : Obj) : Except JsError Unit := do
  selectOptions (data.get "pages") (fun page => do
    let _ ← page.getProp "id"
    pure ())
  selectOptions (data.get "images") (fun image => do
    let path ← image.getProp "path"
    let _ ← strMethod path "split"
    pure ())

/-- The row callback of `updateHistoryTable`. -/
def historyRow (env : Env) (log : JVal) : Except JsError Unit := do
  let _ ← log.getProp "status"
  let targetUrl ← log.getProp "target_url"
  let _ ← truncateText env targetUrl 40
  pure ()

/-- The function `DataManager.updateHistoryTable()`. -/
def updateHistoryTable (env : Env) (data : Obj) : Except JsError Unit :=
  renderTable (data.get "publication_log") (historyRow env)

/-- The function `DataManager.updateUI()`. -/
def updateUI (env : Env) (data : Obj) : Except JsError Unit := do
  updateTextsTable env data
  updateImagesTable data
  updateGroupsTable env data
  updatePagesTable env data
  updateScheduledPostsTable env data
  updateSelects data
  updateHistoryTable env data

/-- The function `DataManager.updateStatus(connected)`. -/
def updateStatus (connected : Bool) (s : State) : State :=
  if connected then
    { s with dom := { s.dom with statusDot := "status-dot active", statusText := "Conectado" } }
  else
    { s with dom := { s.dom with statusDot := "status-dot inactive", statusText := "Desconectado" } }

/-- The assignment `appState.data[list] = value`. -/
def setList (list : String) (value : JVal) (s : State) : State :=
  { s with appState := { s.appState with data := s.appState.data.set list value } }

/-! ## Full sync (`DataManager.loadInitialData`) -/

/-- The request of the sync. -/
def initialDataRequest (cs : ClientState) : Request :=
  { url := API_URL ++ "/api/data/initial", method := "GET",
    headers := [("Authorization", "Bearer " ++ cs.token.toStr)], body := none }

/-- The function `loadInitialData()` up to its `fetch`: without a token it
calls `showLogin()` and returns, issuing no request. -/
def loadInitialData (s : State) : State × Option Request :=
  if !s.clientState.token.truthy then (showLogin s, none)
  else
    let s1 := showLoading true s
    (s1, some (initialDataRequest s1.clientState))

/-- The block `if (data.client_info && data.client_info.name) { ... }`. -/
def refreshIdentity (env : Env) (data : Obj) (s : State) : State × Except JsError Unit :=
  let info := data.get "client_info"
  if !info.truthy then (s, .ok ())
  else
    match info.getProp "name", info.getProp "id" with
    | .ok name, .ok id =>
      if !name.truthy then (s, .ok ())
      else
        let s1 : State :=
          { s with
            clientState := { s.clientState with name := name, id := id }
            dom := { s.dom with userName := name } }
        match strMethod name "substring" with
        | .error e => (s1, .error e)
        | .ok n => ({ s1 with dom := { s1.dom with userAvatar := env.toUpperCase (n.take 2) } }, .ok ())
    | .error e, _ => (s, .error e)
    | _, .error e => (s, .error e)

/-- The `try` block of `loadInitialData()` from the point where `fetch`
settles. -/
def loadInitialDataTry (env : Env) (out : FetchOutcome Obj) (s : State) :
    State × Except JsError Unit :=
  match out with
  | .failed message => (s, .error (.typeError message))
  | .reply r =>
    if r.ok then
      match r.json with
      | .error m => (s, .error ⟨"SyntaxError", m⟩)
      | .ok data =>
        let s1 : State := { s with appState := { s.appState with data := data } }
        match refreshIdentity env data s1 with
        | (s2, .error e) => (s2, .error e)
        | (s2, .ok _) =>
          match updateUI env s2.appState.data with
          | .error e => (s2, .error e)
          | .ok _ =>
            (showNotification "Datos Sincronizados"
              (.str "Tu información se ha cargado correctamente.") "success" (updateStatus true s2),
              .ok ())
    else if r.status = 401 ∨ r.status = 422 then (sessionExpired s, .ok ())
    else
      match r.json with
      | .error m => (s, .error ⟨"SyntaxError", m⟩)
      | .ok errorData =>
        (s, .error (.error
          ((errorData.get "msg").or (.str ("Error del servidor: " ++ toString r.status))).toStr))

/-- The `catch` block of `loadInitialData()`. -/
def loadInitialDataCatch (s : State) : State :=
  handleLogout
    (updateStatus false
      (showNotification "Error de Conexión"
        (.str "No se pudieron cargar los datos. Revisa tu conexión.") "error" s))

/-- The function `loadInitialData()` from the point where `fetch` settles. -/
def loadInitialDataResume (env : Env) (out : FetchOutcome Obj) (s : State) : State :=
  match loadInitialDataTry env out s with
  | (s1, .ok _) => showLoading false s1
  | (s1, .error _) => showLoading false (loadInitialDataCatch s1)

/-! ## Login and page load -/

/-- The `catch` block of `handleLogin()`. -/
def loginCatch (s : State) : State :=
  { s with dom := { s.dom with
      loginErrorText := .str "No se pudo conectar con el servidor. Inténtalo más tarde."
      loginErrorDisplay := "block" } }

/-- The `finally` block of `handleLogin()`. -/
def loginFinally (s : State) : State :=
  { s with dom := { s.dom with loginButtonDisabled := false } }

/-- The request of the login. -/
def loginRequest (email password : String) : Request :=
  { url := API_URL ++ "/api/auth/login", method := "POST",
    headers := [("Content-Type", "application/json")],
    body := some (.json (.obj [("email", .str email), ("password", .str password)])) }

/-- The function `handleLogin()` up to its `fetch`. -/
def handleLogin (s : State) : State × Option Request :=
  let email := jsTrim s.dom.inputs.email
  let password := jsTrim s.dom.inputs.password
  if email = "" ∨ password = "" then
    ({ s with dom := { s.dom with
        loginErrorText := .str "Por favor, introduce tu email y contraseña."
        loginErrorDisplay := "block" } }, none)
  else
    ({ s with dom := { s.dom with loginButtonDisabled := true, loginErrorDisplay := "none" } },
      some (loginRequest email password))

/-- The function `handleLogin()` from the point where `fetch` settles, up to
the `fetch` of the sync it awaits; when the sync issues no request the
`finally` block runs at once. -/
def handleLoginResume (env : Env) (out : FetchOutcome JVal) (s : State) :
    State × Option Request :=
  match out with
  | .failed _ => (loginFinally (loginCatch s), none)
  | .reply r =>
    match r.json with
    | .error _ => (loginFinally (loginCatch s), none)
    | .ok data =>
      if r.ok then
        match data.getProp "access_token", data.getProp "clientId", data.getProp "clientName" with
        | .ok accessToken, .ok clientId, .ok clientName =>
          let s1 : State :=
            { s with
              clientState := { token := accessToken, id := clientId, name := clientName }
              jwtToken := some accessToken.toStr }
          match showApp env s1 with
          | (s2, .error _) => (loginFinally (loginCatch s2), none)
          | (s2, .ok _) =>
            match loadInitialData s2 with
            | (s3, none) => (loginFinally s3, none)
            | (s3, some request) => (s3, some request)
        | _, _, _ => (loginFinally (loginCatch s), none)
      else
        match data.getProp "msg" with
        | .error _ => (loginFinally (loginCatch s), none)
        | .ok msg =>
          (loginFinally { s with dom := { s.dom with
              loginErrorText :=
                msg.or (.str "Error al iniciar sesión. Verifica tus credenciales.")
              loginErrorDisplay := "block" } }, none)

/-- The notification of the `unhandledrejection` hook, which an error leaving
an `async` handler reaches. -/
def unhandledRejection (s : State) : State :=
  showNotification "Error del sistema" (.str "Se ha producido un error de conexión") "error" s

/-- The globals as the script initialises them, with whatever the browser
holds in storage and in the document. -/
def initialState (stored : Option String) (dom : Dom) : State :=
  { socket := none
    orphans := []
    clientState := { id := .null, name := .null, token := .null }
    appState :=
      { data := [("texts", .arr []), ("images", .arr []), ("groups", .arr []), ("pages", .arr []),
          ("scheduled_posts", .arr []), ("publication_log", .arr [])]
        ui := { currentTab := "dashboard", isGroupPublishing := .bool false } }
    jwtToken := stored
    dom := dom }

/-- The `DOMContentLoaded` handler up to the `fetch` of the sync it awaits. -/
def domContentLoaded (env : Env) (s : State) : State × Option Request :=
  match s.jwtToken with
  | none => (showLogin s, none)
  | some token =>
    if token = "" then (showLogin s, none)
    else
      match showApp env { s with clientState := { s.clientState with token := .str token } } with
      | (s1, .error _) => (unhandledRejection s1, none)
      | (s1, .ok _) => loadInitialData s1

/-! ## Content handlers (`ContentManager`) -/

/-- The `catch` and `finally` blocks shared by the handlers that show the
loading overlay: an error notification with the error's message after the
handler's own words, then the overlay is hidden. -/
def catchFinally (words : String) (e : JsError) (s : State) : State :=
  showLoading false (showNotification "Error" (.str (words ++ e.message)) "error" s)

/-- The function `ContentManager.addManualText()` up to its `fetch`. -/
def addManualText (s : State) : State × Option Request :=
  let content := jsTrim s.dom.inputs.manualTextInput
  if content = "" then
    (showNotification "Entrada no válida" (.str "Por favor ingresa un texto.") "warning" s, none)
  else
    let s1 := showLoading true s
    (s1, some (apiRequestConfig s1.clientState "/api/texts" "POST"
      (.value (.obj [("content", .str content)]))))

/-- The function `ContentManager.addManualText()` from the point where
`fetch` settles. -/
def addManualTextResume (env : Env) (out : FetchOutcome JVal) (s : State) : State :=
  match apiRequestResume "/api/texts" out s with
  | (s1, .error e) => catchFinally "No se pudo añadir el texto: " e s1
  | (s1, .ok updatedTexts) =>
    let s2 := setList "texts" updatedTexts s1
    match updateTextsTable env s2.appState.data with
    | .error e => catchFinally "No se pudo añadir el texto: " e s2
    | .ok _ =>
      showLoading false
        (showNotification "Éxito" (.str "El texto se agregó correctamente.") "success"
          { s2 with dom := { s2.dom with inputs := { s2.dom.inputs with manualTextInput := "" } } })

/-- The function `ContentManager.generateAiTexts()` up to its `fetch`; the
second component is the `count` the continuation keeps. -/
def generateAiTexts (s : State) : State × Option (Request × JVal) :=
  let topic := jsTrim s.dom.inputs.aiTopicInput
  let count := (parseInt s.dom.inputs.aiCountInput).or (.num 5)
  if topic = "" then
    (showNotification "Entrada no válida" (.str "Por favor ingresa un tema para la IA.")
      "warning" s, none)
  else
    let s1 := showLoading true s
    (s1, some (apiRequestConfig s1.clientState "/api/texts/generate-ai" "POST"
      (.value (.obj [("topic", .str topic), ("count", count)])), count))

/-- The function `ContentManager.generateAiTexts()` from the point where
`fetch` settles. -/
def generateAiTextsResume (env : Env) (count : JVal) (out : FetchOutcome JVal) (s : State) :
    State :=
  match apiRequestResume "/api/texts/generate-ai" out s with
  | (s1, .error e) => catchFinally "No se pudieron generar los textos: " e s1
  | (s1, .ok updatedTexts) =>
    let s2 := setList "texts" updatedTexts s1
    match updateTextsTable env s2.appState.data with
    | .error e => catchFinally "No se pudieron generar los textos: " e s2
    | .ok _ =>
      showLoading false
        (showNotification "Éxito"
          (.str ("Se generaron y añadieron " ++ count.toStr ++ " textos con IA.")) "success"
          { s2 with dom := { s2.dom with inputs := { s2.dom.inputs with aiTopicInput := "" } } })

/-- The `finally` block of `uploadSelectedImages`: the file input is emptied
and the overlay hidden. -/
def uploadFinally (s : State) : State :=
  showLoading false
    { s with dom := { s.dom with inputs := { s.dom.inputs with fileUploadFiles := [] } } }

/-- The function `ContentManager.uploadSelectedImages(event)` up to its
`fetch`; the files are those of the file input. -/
def uploadSelectedImages (s : State) : State × Option Request :=
  let files := s.dom.inputs.fileUploadFiles
  if files = [] then (s, none)
  else
    let tags := jsTrim s.dom.inputs.imageTagsInput
    let formData : FormData :=
      files.map (fun f => ("images", FormPart.file f)) ++ [("tags", FormPart.text tags)]
    let s1 := showLoading true s
    (s1, some (apiRequestConfig s1.clientState "/api/images/upload" "POST" (.formData formData)))

/-- The function `ContentManager.uploadSelectedImages(event)` from the point
where `fetch` settles. -/
def uploadSelectedImagesResume (out : FetchOutcome JVal) (s : State) : State :=
  match apiRequestResume "/api/images/upload" out s with
  | (s1, .error e) =>
    uploadFinally
      (showNotification "Error" (.str ("No se pudieron subir las imágenes: " ++ e.message))
        "error" s1)
  | (s1, .ok updatedImages) =>
    let s2 := setList "images" updatedImages s1
    match (do updateImagesTable s2.appState.data; updateSelects s2.appState.data) with
    | .error e =>
      uploadFinally
        (showNotification "Error" (.str ("No se pudieron subir las imágenes: " ++ e.message))
          "error" s2)
    | .ok _ =>
      uploadFinally
        (showNotification "Éxito" (.str "Las imágenes se subieron y guardaron correctamente.")
          "success"
          { s2 with dom := { s2.dom with inputs := { s2.dom.inputs with imageTagsInput := "" } } })

/-! ## Destination handlers (`DestinationManager`) -/

/-- The function `DestinationManager.addSingleGroup()` up to its `fetch`. -/
def addSingleGroup (env : Env) (s : State) : State × Option Request :=
  let url := jsTrim s.dom.inputs.groupUrlInput
  let tags := jsTrim s.dom.inputs.groupTagsSingleInput
  if url = "" ∨ env.isValidUrl url = false then
    (showNotification "Entrada no válida" (.str "URL de grupo no válida.") "warning" s, none)
  else
    let s1 := showLoading true s
    (s1, some (apiRequestConfig s1.clientState "/api/groups" "POST"
      (.value (.obj [("url", .str url), ("tags", .str tags)]))))

/-- The function `DestinationManager.addSingleGroup()` from the point where
`fetch` settles. -/
def addSingleGroupResume (env : Env) (out : FetchOutcome JVal) (s : State) : State :=
  match apiRequestResume "/api/groups" out s with
  | (s1, .error e) => catchFinally "No se pudo añadir: " e s1
  | (s1, .ok updatedData) =>
    let s2 := setList "groups" updatedData s1
    match updateGroupsTable env s2.appState.data with
    | .error e => catchFinally "No se pudo añadir: " e s2
    | .ok _ =>
      showLoading false
        (showNotification "Éxito" (.str "Grupo agregado.") "success"
          { s2 with dom := { s2.dom with
              inputs := { s2.dom.inputs with groupUrlInput := "", groupTagsSingleInput := "" } } })

/-- The pieces of `cs.split(sep)` for a one-character separator. -/
def splitChars (sep : Char) : List Char → List (List Char)
  | [] => [[]]
  | c :: cs =>
    if c = sep then [] :: splitChars sep cs
    else
      match splitChars sep cs with
      | [] => [[c]]
      | piece :: pieces => (c :: piece) :: pieces

/-- The list `urlsText.split('\n').map(u => u.trim()).filter(Boolean)`. -/
def bulkUrls (urlsText : String) : List String :=
  ((splitChars '\n' urlsText.data).map (fun u => String.mk (trimChars u))).filter
    (fun u => u != "")

/-- The function `DestinationManager.importBulkGroups()` up to its `fetch`. -/
def importBulkGroups (s : State) : State × Option Request :=
  let urlsText := jsTrim s.dom.inputs.bulkGroupsInput
  let tags := jsTrim s.dom.inputs.bulkTagsInput
  if urlsText = "" then
    (showNotification "Entrada no válida" (.str "Ingresa al menos una URL.") "warning" s, none)
  else
    let urls := bulkUrls urlsText
    let s1 := showLoading true s
    (s1, some (apiRequestConfig s1.clientState "/api/groups/bulk" "POST"
      (.value (.obj [("urls", .arr (urls.map JVal.str)), ("tags", .str tags)]))))

/-- The function `DestinationManager.importBulkGroups()` from the point where
`fetch` settles. -/
def importBulkGroupsResume (env : Env) (out : FetchOutcome JVal) (s : State) : State :=
  match apiRequestResume "/api/groups/bulk" out s with
  | (s1, .error e) => catchFinally "Error al importar: " e s1
  | (s1, .ok updatedData) =>
    let s2 := setList "groups" updatedData s1
    match updateGroupsTable env s2.appState.data with
    | .error e => catchFinally "Error al importar: " e s2
    | .ok _ =>
      showLoading false
        (showNotification "Éxito" (.str "Grupos importados.") "success"
          { s2 with dom := { s2.dom with
              inputs := { s2.dom.inputs with bulkGroupsInput := "", bulkTagsInput := "" } } })

/-- The function `DestinationManager.addPage()` up to its `fetch`. -/
def addPage (env : Env) (s : State) : State × Option Request :=
  let name := jsTrim s.dom.inputs.pageNameInput
  let pageUrl := jsTrim s.dom.inputs.pageUrlInput
  if name = "" ∨ pageUrl = "" ∨ env.isValidUrl pageUrl = false then
    (showNotification "Entrada no válida" (.str "Datos de página no válidos.") "warning" s, none)
  else
    let s1 := showLoading true s
    (s1, some (apiRequestConfig s1.clientState "/api/pages" "POST"
      (.value (.obj [("name", .str name), ("page_url", .str pageUrl)]))))

/-- The function `DestinationManager.addPage()` from the point where `fetch`
settles. -/
def addPageResume (env : Env) (out : FetchOutcome JVal) (s : State) : State :=
  match apiRequestResume "/api/pages" out s with
  | (s1, .error e) => catchFinally "No se pudo añadir: " e s1
  | (s1, .ok updatedData) =>
    let s2 := setList "pages" updatedData s1
    match (do updatePagesTable env s2.appState.data; updateSelects s2.appState.data) with
    | .error e => catchFinally "No se pudo añadir: " e s2
    | .ok _ =>
      showLoading false
        (showNotification "Éxito" (.str "Página agregada.") "success"
          { s2 with dom := { s2.dom with
              inputs := { s2.dom.inputs with pageNameInput := "", pageUrlInput := "" } } })

/-! ## Scheduler (`SchedulerManager`) -/

/-- The string a text control holds after `control.value = v`: `null` gives
the empty string. -/
def controlValue (v : JVal) : String :=
  match v with
  | .null => ""
  | w => w.toStr

/-- The value a select holds after `select.value = v`: the string of `v` when
one of its options has that value, the empty string otherwise. -/
def selectValue (options : List String) (v : JVal) : String :=
  if v.toStr ∈ options then v.toStr else ""

/-- The function `SchedulerManager.getContentSuggestion()` up to its `fetch`. -/
def getContentSuggestion (s : State) : State × Option Request :=
  let pageId := s.dom.inputs.schedulePageSelect
  if pageId = "" then
    (showNotification "Acción requerida" (.str "Selecciona una página.") "warning" s, none)
  else
    let s1 := showLoading true s
    (s1, some (apiRequestConfig s1.clientState "/api/content/suggestion" "POST"
      (.value (.obj [("page_id", parseInt pageId)]))))

/-- The body of the `try` block of `getContentSuggestion` once `apiRequest`
has returned `suggestion`. -/
def applySuggestion (suggestion : JVal) (s : State) : State × Except JsError Unit :=
  match suggestion.getProp "success", suggestion.getProp "text", suggestion.getProp "image",
      suggestion.getProp "message" with
  | .ok success, .ok text, .ok image, .ok message =>
    if success.truthy ∧ text.truthy ∧ image.truthy then
      match text.getProp "content", image.getProp "id" with
      | .ok content, .ok id =>
        (showNotification "Sugerencia aplicada" (.str "Contenido cargado.") "success"
          { s with dom := { s.dom with inputs := { s.dom.inputs with
              scheduleTextContent := controlValue content
              scheduleImageSelect := selectValue s.dom.scheduleImageOptions id } } }, .ok ())
      | .error e, _ => (s, .error e)
      | _, .error e => (s, .error e)
    else
      (showNotification "Sin sugerencias" (message.or (.str "No se encontraron sugerencias."))
        "warning" s, .ok ())
  | .error e, _, _, _ => (s, .error e)
  | _, .error e, _, _ => (s, .error e)
  | _, _, .error e, _ => (s, .error e)
  | _, _, _, .error e => (s, .error e)

/-- The function `SchedulerManager.getContentSuggestion()` from the point
where `fetch` settles. -/
def getContentSuggestionResume (out : FetchOutcome JVal) (s : State) : State :=
  match apiRequestResume "/api/content/suggestion" out s with
  | (s1, .error e) => catchFinally "No se pudo sugerir: " e s1
  | (s1, .ok suggestion) =>
    match applySuggestion suggestion s1 with
    | (s2, .error e) => catchFinally "No se pudo sugerir: " e s2
    | (s2, .ok _) => showLoading false s2

/-- The function `SchedulerManager.schedulePost()` up to its `fetch`.  The
payload is built before the `try` block, so the `RangeError` of an invalid
date leaves the handler and reaches the `unhandledrejection` hook. -/
def schedulePost (env : Env) (s : State) : State × Option Request :=
  let pageId := s.dom.inputs.schedulePageSelect
  let publishAt := s.dom.inputs.scheduleDatetime
  let textContent := jsTrim s.dom.inputs.scheduleTextContent
  let imageId := s.dom.inputs.scheduleImageSelect
  if pageId = "" ∨ publishAt = "" ∨ textContent = "" then
    (showNotification "Campos requeridos" (.str "Página, fecha y texto son obligatorios.")
      "warning" s, none)
  else
    match env.toISOString publishAt with
    | none => (unhandledRejection s, none)
    | some iso =>
      let data : JVal :=
        .obj [("page_id", parseInt pageId), ("publish_at", .str iso),
          ("text_content", .str textContent),
          ("image_id", if imageId = "" then .null else parseInt imageId)]
      let s1 := showLoading true s
      (s1, some (apiRequestConfig s1.clientState "/api/scheduled_posts" "POST" (.value data)))

/-- The function `SchedulerManager.schedulePost()` from the point where
`fetch` settles. -/
def schedulePostResume (env : Env) (out : FetchOutcome JVal) (s : State) : State :=
  match apiRequestResume "/api/scheduled_posts" out s with
  | (s1, .error e) => catchFinally "No se pudo programar: " e s1
  | (s1, .ok updatedData) =>
    let s2 := setList "scheduled_posts" updatedData s1
    match updateScheduledPostsTable env s2.appState.data with
    | .error e => catchFinally "No se pudo programar: " e s2
    | .ok _ =>
      showLoading false
        (showNotification "Éxito" (.str "Publicación programada.") "success"
          { s2 with dom := { s2.dom with inputs := { s2.dom.inputs with
              schedulePageSelect := "", scheduleDatetime := "", scheduleTextContent := "",
              scheduleImageSelect := "" } } })

/-! ## Group publishing (`GroupPublishingManager`) -/

/-- The function `GroupPublishingManager.startGroupPublishing()` up to its
`fetch`. -/
def startGroupPublishing (s : State) : State × Option Request :=
  let groupTags := jsTrim s.dom.inputs.groupTagsInput
  let contentTags := jsTrim s.dom.inputs.contentTagsInput
  if groupTags = "" ∨ contentTags = "" then
    (showNotification "Campos requeridos"
      (.str "Por favor, define etiquetas para grupos y contenido.") "warning" s, none)
  else
    (s, some (apiRequestConfig s.clientState "/api/publishing/start" "POST"
      (.value (.obj [("group_tags", .str groupTags), ("content_tags", .str contentTags)]))))

/-- The continuation shared by `startGroupPublishing` and
`stopGroupPublishing`: the notification with `result.msg`, or the error
notification with the handler's own words. -/
def publishingResume (endpoint words : String) (out : FetchOutcome JVal) (s : State) : State :=
  match apiRequestResume endpoint out s with
  | (s1, .error e) => showNotification "Error" (.str (words ++ e.message)) "error" s1
  | (s1, .ok result) =>
    match result.getProp "msg" with
    | .error e => showNotification "Error" (.str (words ++ e.message)) "error" s1
    | .ok msg => showNotification "Solicitud Enviada" msg "success" s1

/-- The function `GroupPublishingManager.startGroupPublishing()` from the
point where `fetch` settles. -/
def startGroupPublishingResume (out : FetchOutcome JVal) (s : State) : State :=
  publishingResume "/api/publishing/start" "No se pudo iniciar la publicación: " out s

/-- The function `GroupPublishingManager.stopGroupPublishing()` up to its
`fetch`. -/
def stopGroupPublishing (s : State) : State × Option Request :=
  (s, some (apiRequestConfig s.clientState "/api/publishing/stop" "POST" (.value .null)))

/-- The function `GroupPublishingManager.stopGroupPublishing()` from the point
where `fetch` settles. -/
def stopGroupPublishingResume (out : FetchOutcome JVal) (s : State) : State :=
  publishingResume "/api/publishing/stop" "No se pudo detener la publicación: " out s

/-- The function `GroupPublishingManager.updatePublishingUI(isPublishing)`. -/
def updatePublishingUI (isPublishing : JVal) (s : State) : State :=
  if isPublishing.truthy then
    { s with dom := { s.dom with
        startBtnDisplay := "none", stopBtnDisplay := "inline-flex", startBtnDisabled := true } }
  else
    { s with dom := { s.dom with
        startBtnDisplay := "inline-flex", stopBtnDisplay := "none", startBtnDisabled := false } }

/-! ## Logs and push events -/

/-- The function `LogManager.addLog(message, type)`; `type` defaults to
`'info'` when it is `undefined`. -/
def addLog (message type : JVal) (s : State) : State :=
  let type1 := if type = .undefined then JVal.str "info" else type
  { s with dom := { s.dom with logPanel := s.dom.logPanel ++ [("log-" ++ type1.toStr, message)] } }

/-- The function `LogManager.clearLogs()`. -/
def clearLogs (s : State) : State :=
  { s with dom := { s.dom with logPanel := [("log-info", .str "Logs limpiados.")] } }

/-- The handler of the `log_message` event, for the event's `data` and `type`. -/
def onLogMessage (data type : JVal) (s : State) : State := addLog data type s

/-- The handler of the `publishing_status` event, for the event's
`isPublishing`. -/
def onPublishingStatus (isPublishing : JVal) (s : State) : State :=
  updatePublishingUI isPublishing
    { s with appState := { s.appState with
        ui := { s.appState.ui with isGroupPublishing := isPublishing } } }

/-- The handler of the `connect_error` event. -/
def onConnectError (s : State) : State :=
  addLog (.str "Error de conexión con la consola.") (.str "error") s

/-! ## Modal and text edit (`UIManager`) -/

/-- The function `UIManager.closeModal()`: the modal is hidden and its body,
the edit textarea included, removed. -/
def closeModal (s : State) : State :=
  { s with dom := { s.dom with modalDisplay := "none", textEditTextarea := none } }

/-- The function `UIManager.showTextEditModal(id, content)`; `shown` is the
text the textarea holds once the browser has parsed the markup the content was
interpolated into. -/
def showTextEditModal (shown : String) (s : State) : State :=
  { s with dom := { s.dom with modalDisplay := "block", textEditTextarea := some shown } }

/-- The function `UIManager.showImageModal(imageSrc)`. -/
def showImageModal (s : State) : State :=
  { s with dom := { s.dom with modalDisplay := "block", textEditTextarea := none } }

/-- The function `UIManager.saveTextUpdate(id)` up to its `fetch`; reading the
textarea raises when the modal does not hold one. -/
def saveTextUpdate (id : JVal) (s : State) : State × Option Request :=
  match s.dom.textEditTextarea with
  | none => (unhandledRejection s, none)
  | some value =>
    let newContent := jsTrim value
    if newContent = "" then
      (showNotification "Error" (.str "El contenido no puede estar vacío.") "warning" s, none)
    else
      let s1 := showLoading true s
      (s1, some (apiRequestConfig s1.clientState ("/api/texts/" ++ id.toStr) "PUT"
        (.value (.obj [("content", .str newContent)]))))

/-- The function `UIManager.saveTextUpdate(id)` from the point where `fetch`
settles. -/
def saveTextUpdateResume (env : Env) (id : JVal) (out : FetchOutcome JVal) (s : State) : State :=
  match apiRequestResume ("/api/texts/" ++ id.toStr) out s with
  | (s1, .error e) => catchFinally "No se pudo guardar el texto: " e s1
  | (s1, .ok updatedTexts) =>
    let s2 := setList "texts" updatedTexts s1
    match updateTextsTable env s2.appState.data with
    | .error e => catchFinally "No se pudo guardar el texto: " e s2
    | .ok _ =>
      showLoading false
        (showNotification "Texto actualizado" (.str "El texto se actualizó correctamente.")
          "success" (closeModal s2))

/-! ## Delete (`DataManager.deleteItem`) -/

/-- The endpoint of `deleteItem(type, id)`. -/
def deleteEndpoint (type : String) (id : JVal) : String :=
  "/api/items/" ++ type ++ "/" ++ id.toStr

/-- The function `DataManager.deleteItem(type, id)` up to its `fetch`, for
the answer the user gives to `confirm`. -/
def deleteItem (type : String) (id : JVal) (confirmed : Bool) (s : State) :
    State × Option Request :=
  if !confirmed then (s, none)
  else
    let s1 := showLoading true s
    (s1, some (apiRequestConfig s1.clientState (deleteEndpoint type id) "DELETE" (.value .null)))

/-- The rest of `deleteItem` once the sync it awaits has returned: the
notification with `result.msg`, then the `finally` block. -/
def deleteItemAfterSync (result : JVal) (s : State) : State :=
  match result.getProp "msg" with
  | .error e => catchFinally "No se pudo eliminar el elemento: " e s
  | .ok msg =>
    showLoading false
      (showNotification "Elemento eliminado" (msg.or (.str "El elemento fue eliminado."))
        "success" s)

/-- The function `DataManager.deleteItem(type, id)` from the point where the
`fetch` of the delete call settles, up to the `fetch` of the sync it awaits;
the second component is that request together with the `result` the rest of
the function keeps. -/
def deleteItemResume (type : String) (id : JVal) (out : FetchOutcome JVal) (s : State) :
    State × Option (Request × JVal) :=
  match apiRequestResume (deleteEndpoint type id) out s with
  | (s1, .error e) => (catchFinally "No se pudo eliminar el elemento: " e s1, none)
  | (s1, .ok result) =>
    match loadInitialData s1 with
    | (s2, none) => (deleteItemAfterSync result s2, none)
    | (s2, some request) => (s2, some (request, result))

/-! ## The page as a transition system

The script runs one handler at a time up to its next `await`; a request that
was issued stays pending until its `fetch` settles, and any other event may
occur in between. -/

/-- Who awaits a sync: the `DOMContentLoaded` handler or a refresh button
(nothing follows), `handleLogin` (its `finally` block follows), or `deleteItem`
(its notification follows). -/
inductive SyncCaller where
  | direct
  | login
  | deleteItem (result : JVal)
  deriving DecidableEq, Repr

/-- The continuation waiting for a `fetch` to settle. -/
inductive Pending where
  | login
  | sync (caller : SyncCaller)
  | addManualText
  | generateAiTexts (count : JVal)
  | uploadSelectedImages
  | addSingleGroup
  | importBulkGroups
  | addPage
  | getContentSuggestion
  | schedulePost
  | startGroupPublishing
  | stopGroupPublishing
  | saveTextUpdate (id : JVal)
  | deleteItem (type : String) (id : JVal)
  deriving DecidableEq, Repr

/-- The page between two handlers: the state and the requests in flight, each
with its continuation. -/
structure Config where
  state : State
  pending : List (Request × Pending)

/-- What can happen to the page. -/
inductive Event where
  /-- The user edits form controls, picks files, or the option list of the
  image select changes. -/
  | edit (inputs : Inputs) (imageOptions : List String)
  | loginClick
  | logoutClick
  | addManualTextClick
  | generateAiTextsClick
  | filesChosen
  | addSingleGroupClick
  | importBulkGroupsClick
  | addPageClick
  | getContentSuggestionClick
  | schedulePostClick
  | startGroupPublishingClick
  | stopGroupPublishingClick
  | refreshClick
  | deleteClick (type : String) (id : JVal) (confirmed : Bool)
  | editTextClick (shown : String)
  | imageClick
  | closeModalClick
  | saveTextClick (id : JVal)
  | tabClick (tab : String)
  | clearLogClick
  | notificationHidden
  /-- The current socket (`none`) or an earlier one completes its connection. -/
  | socketConnect (orphan : Option Nat)
  /-- The transport of a connected socket is lost; the library reconnects. -/
  | socketDrop (orphan : Option Nat)
  | connectError
  | logMessage (data type : JVal)
  | publishingStatus (isPublishing : JVal)
  /-- The `fetch` of the pending request at the index settles. -/
  | settle (index : Nat) (out : FetchOutcome JVal)
  /-- The `fetch` of the pending sync at the index settles. -/
  | settleSync (index : Nat) (out : FetchOutcome Obj)

/-- What the caller of a sync does once `loadInitialData()` has returned. -/
def afterSync (caller : SyncCaller) (s : State) : State :=
  match caller with
  | .direct => s
  | .login => loginFinally s
  | .deleteItem result => deleteItemAfterSync result s

/-- A handler has run up to its `await`: the request it issued, if any, is
added to those in flight. -/
def issue (pending : List (Request × Pending)) (k : Pending)
    (r : State × Option Request) : Config :=
  match r.2 with
  | none => { state := r.1, pending := pending }
  | some request => { state := r.1, pending := pending ++ [(request, k)] }

/-- The continuation `k` runs with the outcome of its `fetch`: the state it
leaves and the request it issues in turn, if any. -/
def resume (env : Env) (k : Pending) (out : FetchOutcome JVal) (s : State) :
    State × Option (Request × Pending) :=
  match k with
  | .login =>
    match handleLoginResume env out s with
    | (s1, none) => (s1, none)
    | (s1, some request) => (s1, some (request, .sync .login))
  | .sync _ => (s, none)
  | .addManualText => (addManualTextResume env out s, none)
  | .generateAiTexts count => (generateAiTextsResume env count out s, none)
  | .uploadSelectedImages => (uploadSelectedImagesResume out s, none)
  | .addSingleGroup => (addSingleGroupResume env out s, none)
  | .importBulkGroups => (importBulkGroupsResume env out s, none)
  | .addPage => (addPageResume env out s, none)
  | .getContentSuggestion => (getContentSuggestionResume out s, none)
  | .schedulePost => (schedulePostResume env out s, none)
  | .startGroupPublishing => (startGroupPublishingResume out s, none)
  | .stopGroupPublishing => (stopGroupPublishingResume out s, none)
  | .saveTextUpdate id => (saveTextUpdateResume env id out s, none)
  | .deleteItem type id =>
    match deleteItemResume type id out s with
    | (s1, none) => (s1, none)
    | (s1, some (request, result)) => (s1, some (request, .sync (.deleteItem result)))

/-- A socket completes its connection. -/
def connectStatus (st : SocketStatus) : SocketStatus :=
  match st with
  | .connecting => .connected
  | other => other

/-- A connected socket loses its transport. -/
def dropStatus (st : SocketStatus) : SocketStatus :=
  match st with
  | .connected => .connecting
  | other => other

/-- A status change of the current socket (`none`) or of an earlier one. -/
def socketChange (f : SocketStatus → SocketStatus) (orphan : Option Nat) (s : State) : State :=
  match orphan with
  | none => { s with socket := s.socket.map f }
  | some i => { s with orphans := s.orphans.modify f i }

/-- One event. -/
def step (env : Env) (e : Event) (c : Config) : Config :=
  let s := c.state
  match e with
  | .edit inputs imageOptions =>
    { c with state :=
        { s with dom := { s.dom with inputs := inputs, scheduleImageOptions := imageOptions } } }
  | .loginClick => issue c.pending .login (handleLogin s)
  | .logoutClick => { c with state := handleLogout s }
  | .addManualTextClick => issue c.pending .addManualText (addManualText s)
  | .generateAiTextsClick =>
    match generateAiTexts s with
    | (s1, none) => { c with state := s1 }
    | (s1, some (request, count)) =>
      { state := s1, pending := c.pending ++ [(request, .generateAiTexts count)] }
  | .filesChosen => issue c.pending .uploadSelectedImages (uploadSelectedImages s)
  | .addSingleGroupClick => issue c.pending .addSingleGroup (addSingleGroup env s)
  | .importBulkGroupsClick => issue c.pending .importBulkGroups (importBulkGroups s)
  | .addPageClick => issue c.pending .addPage (addPage env s)
  | .getContentSuggestionClick => issue c.pending .getContentSuggestion (getContentSuggestion s)
  | .schedulePostClick => issue c.pending .schedulePost (schedulePost env s)
  | .startGroupPublishingClick => issue c.pending .startGroupPublishing (startGroupPublishing s)
  -- the listener is `() => GroupPublishingManager.stopGroupPublishing`: it
  -- evaluates the function and does not call it
  | .stopGroupPublishingClick => c
  | .refreshClick => issue c.pending (.sync .direct) (loadInitialData s)
  | .deleteClick type id confirmed => issue c.pending (.deleteItem type id) (deleteItem type id confirmed s)
  | .editTextClick shown => { c with state := showTextEditModal shown s }
  | .imageClick => { c with state := showImageModal s }
  | .closeModalClick => { c with state := closeModal s }
  | .saveTextClick id => issue c.pending (.saveTextUpdate id) (saveTextUpdate id s)
  | .tabClick tab =>
    { c with state :=
        { s with appState := { s.appState with ui := { s.appState.ui with currentTab := tab } } } }
  | .clearLogClick => { c with state := clearLogs s }
  | .notificationHidden => { c with state := { s with dom := { s.dom with notification := none } } }
  | .socketConnect orphan => { c with state := socketChange connectStatus orphan s }
  | .socketDrop orphan => { c with state := socketChange dropStatus orphan s }
  | .connectError => { c with state := onConnectError s }
  | .logMessage data type => { c with state := onLogMessage data type s }
  | .publishingStatus isPublishing => { c with state := onPublishingStatus isPublishing s }
  | .settle index out =>
    match c.pending.get? index with
    | none => c
    | some (_, .sync _) => c
    | some (_, k) =>
      match resume env k out s with
      | (s1, none) => { state := s1, pending := c.pending.eraseIdx index }
      | (s1, some next) => { state := s1, pending := c.pending.eraseIdx index ++ [next] }
  | .settleSync index out =>
    match c.pending.get? index with
    | some (_, .sync caller) =>
      { state := afterSync caller (loadInitialDataResume env out s),
        pending := c.pending.eraseIdx index }
    | _ => c

/-- The page once the `DOMContentLoaded` handler has run up to its `await`,
for what the browser holds in storage and in the document. -/
def pageLoad (env : Env) (stored : Option String) (dom : Dom) : Config :=
  issue [] (.sync .direct) (domContentLoaded env (initialState stored dom))

/-- A login reply that names the client, by a truthy `clientName`, names it
by a string, as the login endpoint does (§6). -/
def loginReplyNamed (out : FetchOutcome JVal) : Prop :=
  ∀ r data, out = .reply r → r.json = .ok data →
    ∀ name, data.getProp "clientName" = .ok name → name.truthy = true → ∃ t, name = .str t

/-- The events the backend can cause: every event, a login reply being one
that names the client by a string. -/
def Event.Admissible (c : Config) (e : Event) : Prop :=
  ∀ index out request, e = .settle index out → c.pending.get? index = some (request, .login) →
    loginReplyNamed out

/-- The pages reachable from a page load while the login endpoint keeps to
its contract: every event is admissible, so a login reply that names the
client names it by a string. Every other event and reply is arbitrary. -/
inductive Reachable (env : Env) : Config → Prop where
  | load (stored : Option String) (dom : Dom) : Reachable env (pageLoad env stored dom)
  | next (e : Event) (c : Config) : Reachable env c → e.Admissible c → Reachable env (step env e c)

/-! ## Rendered values -/

/-- The pieces of `cs.split(re)` for a regular expression that matches one
character, those satisfying `sep`. -/
def splitBy (sep : Char → Bool) : List Char → List (List Char)
  | [] => [[]]
  | c :: cs =>
    if sep c then [] :: splitBy sep cs
    else
      match splitBy sep cs with
      | [] => [[c]]
      | piece :: pieces => (c :: piece) :: pieces

/-- The character class `[\\/]`: a backslash or a slash. -/
def isPathSeparator (c : Char) : Bool := c = '\\' || c = '/'

/-- The method `pieces.pop()` on the result of a `split`: its last piece. -/
def pop (pieces : List (List Char)) : List Char := pieces.getLast?.getD []

/-- The expression `path.split(/[\\/]/).pop()`. -/
def fileName (path : String) : String := String.mk (pop (splitBy isPathSeparator path.data))

/-- The image URL of `updateImagesTable` and `updateScheduledPostsTable`:
`${API_URL}/uploads/client_${clientState.id}/${path.split(/[\\/]/).pop()}`. -/
def imageUrl (cs : ClientState) (path : String) : String :=
  API_URL ++ "/uploads/client_" ++ cs.id.toStr ++ "/" ++ fileName path

/-- The expression `list?.length || 0` of `updateStats`. -/
def counter (list : JVal) : JVal :=
  match list with
  | .undefined => .num 0
  | .null => .num 0
  | v =>
    match v.length with
    | .ok n => n.or (.num 0)
    | .error _ => .num 0

/-- What `updateStats` writes: the four totals of the dashboard and the five
labels of the tabs. -/
structure Stats where
  totalTexts : JVal
  totalImages : JVal
  totalGroups : JVal
  totalScheduled : JVal
  textsCount : String
  imagesCount : String
  groupsCount : String
  pagesCount : String
  scheduledCount : String
  deriving DecidableEq, Repr

/-- The function `DataManager.updateStats()`. -/
def updateStats (data : Obj) : Stats :=
  { totalTexts := counter (data.get "texts")
    totalImages := counter (data.get "images")
    totalGroups := counter (data.get "groups")
    totalScheduled := counter (data.get "scheduled_posts")
    textsCount := (counter (data.get "texts")).toStr ++ " textos"
    imagesCount := (counter (data.get "images")).toStr ++ " imágenes"
    groupsCount := (counter (data.get "groups")).toStr ++ " grupos"
    pagesCount := (counter (data.get "pages")).toStr ++ " páginas"
    scheduledCount := (counter (data.get "scheduled_posts")).toStr ++ " programadas" }

/-- The expression `path.split('\\').pop().split('/').pop()` of
`updateSelects`: the file name shown in the image select of the scheduler. -/
def selectFileName (path : String) : String :=
  String.mk (pop (splitChars '/' (pop (splitChars '\\' path.data))))

/-- The method `s.replace(/c/g, '\\c')` for a character `c`, a backtick or a
dollar sign in `updateTextsTable`: a backslash is put before every `c`. -/
def escapeChar (c : Char) : List Char → List Char
  | [] => []
  | x :: xs => if x = c then '\\' :: x :: escapeChar c xs else x :: escapeChar c xs

/-- The constant `escapedContent` of `updateTextsTable`, which is
  text.content.replace(/`/g, '\\`').replace(/\$/g, '\\$')
with the backtick written `'\x60'` below. -/
def escapedContent (content : String) : String :=
  String.mk (escapeChar '$' (escapeChar '\x60' content.data))

/-- The start of the script `updateTextsTable` writes into the `onclick`
attribute of the edit button, up to and including the opening backtick of the
second argument. -/
def editCallStart (id : JVal) : String :=
  "UIManager.showTextEditModal(" ++ id.toStr ++ ", `"

/-- The script `updateTextsTable` writes between the double quotes of the
`onclick` attribute of the edit button. -/
def editOnclick (id : JVal) (content : String) : String :=
  editCallStart id ++ escapedContent content ++ "`)"

/-- The value the HTML tokenizer reads for a double-quoted attribute from the
text that follows the opening quote: the characters before the next double
quote, written `'\x22'`. Character references are not decoded here. -/
def attributeValue (cs : List Char) : List Char := cs.takeWhile (fun c => c != '\x22')

/-- How the script engine leaves a template literal. -/
inductive TemplateEnd where
  /-- The closing backtick: the string the literal stands for and the source
  after the backtick. -/
  | closed (value rest : List Char)
  /-- A substitution starts at a dollar sign with an opening brace: the string
  so far and the source of the expression. -/
  | substitution (value rest : List Char)
  /-- The source ends inside the literal, a `SyntaxError`. -/
  | unterminated
  /-- A backslash before a digit, `x` or `u`: the character of that number, or
  a `SyntaxError`; the scan stops there. -/
  | numericEscape
  deriving DecidableEq, Repr

/-- One more character in front of the string of a literal. -/
def TemplateEnd.push (c : Char) : TemplateEnd → TemplateEnd
  | .closed value rest => .closed (c :: value) rest
  | .substitution value rest => .substitution (c :: value) rest
  | .unterminated => .unterminated
  | .numericEscape => .numericEscape

/-- The line terminators of the language: LF, CR, LS and PS. -/
def isLineTerminator (c : Char) : Bool :=
  c.toNat = 10 || c.toNat = 13 || c.toNat = 0x2028 || c.toNat = 0x2029

/-- The character an escape `\c` stands for, `c` being neither a line
terminator nor a digit, `x` or `u`. -/
def escapeValue (c : Char) : Char :=
  if c = 'b' then Char.ofNat 8
  else if c = 't' then Char.ofNat 9
  else if c = 'n' then Char.ofNat 10
  else if c = 'v' then Char.ofNat 11
  else if c = 'f' then Char.ofNat 12
  else if c = 'r' then Char.ofNat 13
  else c

/-- The script engine reads a template literal from the source after its
opening backtick: an unescaped backtick closes it, an unescaped dollar sign
with an opening brace (`'\x7b'`) after it starts a substitution, a backslash
escapes the character after it (a line terminator after it is a line
continuation), and CR and CR LF stand for LF. -/
def scanTemplate : List Char → TemplateEnd
  | [] => .unterminated
  | [c] => if c = '\x60' then .closed [] [] else .unterminated
  | c :: d :: after =>
    if c = '\x60' then .closed [] (d :: after)
    else if c = '$' then
      if d = '\x7b' then .substitution [] after else (scanTemplate (d :: after)).push c
    else if c = '\\' then
      if d = '\r' then
        match after with
        | [] => .unterminated
        | e :: others => if e = '\n' then scanTemplate others else scanTemplate (e :: others)
      else if isLineTerminator d then scanTemplate after
      else if d.isDigit || d = 'x' || d = 'u' then .numericEscape
      else (scanTemplate after).push (escapeValue d)
    else if c = '\r' then
      if d = '\n' then (scanTemplate after).push '\n' else (scanTemplate (d :: after)).push '\n'
    else (scanTemplate (d :: after)).push c

/-- The second argument of the edit call as the browser reads it back from the
markup: the attribute value ends at the first double quote after `onclick="`,
and the template literal in it starts after the opening backtick of the
call. -/
def contentArgument (id : JVal) (content : String) : TemplateEnd :=
  scanTemplate
    ((attributeValue ((editOnclick id content).data ++ ['\x22'])).drop (editCallStart id).length)

/-! ## Sample values -/

/-- Form controls with nothing filled in. -/
def Inputs.blank : Inputs :=
  { email := "", password := "", manualTextInput := "", aiTopicInput := "", aiCountInput := "",
    imageTagsInput := "", fileUploadFiles := [], groupUrlInput := "", groupTagsSingleInput := "",
    bulkGroupsInput := "", bulkTagsInput := "", pageNameInput := "", pageUrlInput := "",
    schedulePageSelect := "", scheduleDatetime := "", scheduleTextContent := "",
    scheduleImageSelect := "", groupTagsInput := "", contentTagsInput := "" }

/-- A document in which nothing is filled in or shown yet. -/
def Dom.blank : Dom :=
  { loginContainerDisplay := "", appContainerDisplay := "", loginErrorText := .str "",
    loginErrorDisplay := "none", loginButtonDisabled := false, userName := .str "",
    userAvatar := "", startBtnDisplay := "inline-flex", stopBtnDisplay := "none",
    startBtnDisabled := false, notification := none, loading := false, statusDot := "status-dot",
    statusText := "", logPanel := [], modalDisplay := "none", textEditTextarea := none,
    scheduleImageOptions := [""], inputs := Inputs.blank }

/-- A browser for the examples: URLs are the strings with an http scheme,
dates the sixteen-character values of a `datetime-local` control. -/
def Env.sample : Env :=
  { isValidUrl := fun u => u.startsWith "http://" || u.startsWith "https://"
    toISOString := fun d => if d.length = 16 then some (d ++ ":00.000Z") else none
    toUpperCase := String.toUpper
    coercedGreater := fun _ _ => false }

/-- A logged-in page: a session, a connected socket, one text. -/
def State.sample : State :=
  { socket := some .connected
    orphans := []
    clientState := { id := .num 7, name := .str "Ana", token := .str "t0k" }
    appState :=
      { data := [("texts", .arr [.obj [("id", .num 1), ("content", .str "hola")]]),
          ("images", .arr []), ("groups", .arr []), ("pages", .arr []),
          ("scheduled_posts", .arr []), ("publication_log", .arr [])]
        ui := { currentTab := "dashboard", isGroupPublishing := .bool false } }
    jwtToken := some "t0k"
    dom := { Dom.blank with loginContainerDisplay := "none", appContainerDisplay := "grid" } }

/-! ## Properties used by the theorems -/

/-- The list `list` of the dataset is `C` and every other list is as in
`before`. -/
def ReplacesList (list : String) (C : JVal) (before after : State) : Prop :=
  after.appState.data.get list = C
    ∧ ∀ other, other ≠ list → after.appState.data.get other = before.appState.data.get other

/-- A handler refused its input: it issued no request, left the dataset as it
was and shows a warning notification. -/
def Refused (s : State) (r : State × Option Request) : Prop :=
  r.2 = none ∧ r.1.appState.data = s.appState.data
    ∧ ∃ n, r.1.dom.notification = some n ∧ n.type = "warning"

/-- The publishing flag `appState.ui.isGroupPublishing`. -/
def flag (s : State) : JVal := s.appState.ui.isGroupPublishing

/-- What the token invariant and the publishing flag depend on: the token,
the `display` of the login and of the app container, and the flag. -/
def session (s : State) : JVal × String × String × JVal :=
  (s.clientState.token, s.dom.loginContainerDisplay, s.dom.appContainerDisplay, flag s)

/-- A step that leaves the session as it is or ends it: the token and the two
containers are unchanged, or the token is `null` and the login view shown; the
publishing flag is unchanged either way. -/
def Frame (s t : State) : Prop :=
  session t = session s ∨ session t = (.null, "flex", "none", flag s)

/-- The token invariant in the form the handlers maintain: no token and the
login view, or a truthy token and the app view. -/
def TokenInvariant (s : State) : Prop :=
  (s.clientState.token = .null ∧ s.dom.loginContainerDisplay = "flex"
      ∧ s.dom.appContainerDisplay = "none")
    ∨ (s.clientState.token.truthy = true ∧ s.dom.loginContainerDisplay = "none"
      ∧ s.dom.appContainerDisplay = "grid")

/-- The events in order, from a page. -/
def run (env : Env) (events : List Event) (c : Config) : Config :=
  events.foldl (fun c e => step env e c) c

/-- The authenticated view: the app container shown, the login container not. -/
def authenticatedView (s : State) : Prop :=
  s.dom.appContainerDisplay ≠ "none" ∧ s.dom.loginContainerDisplay = "none"

/-- The login view: the login container shown, the app container not. -/
def loginView (s : State) : Prop :=
  s.dom.loginContainerDisplay ≠ "none" ∧ s.dom.appContainerDisplay = "none"

/-- A sync reply with one text. -/
def samplePayload : Obj :=
  [("texts", .arr [.obj [("id", .num 5), ("content", .str "hola")]]), ("images", .arr []),
    ("groups", .arr []), ("pages", .arr []), ("scheduled_posts", .arr []),
    ("publication_log", .arr [])]

/-- A session resumed from a stored token whose socket is still connecting
when the user, having asked for a delete, logs out; the socket then completes
its connection while the delete call is in flight. -/
def logoutWhileConnecting : Config :=
  run Env.sample
    [.settleSync 0 (.reply ⟨200, none, .ok samplePayload⟩),
      .deleteClick "texts" (.num 5) true,
      .logoutClick,
      .socketConnect none]
    (pageLoad Env.sample (some "t0k") Dom.blank)

/-- A handler discarded a failed call: the dataset is what it was and the
error notification carries the handler's words and the error's message. -/
def Discarded (words : String) (e : JsError) (before after : State) : Prop :=
  after.appState.data = before.appState.data
    ∧ after.dom.notification = some ⟨"Error", .str (words ++ e.message), "error"⟩

/-- The session part of the state: `clientState` and the stored token. -/
def stored (s : State) : ClientState × Option String := (s.clientState, s.jwtToken)

/-- A string, or a falsy value (an absent or `null` field among them). -/
def optText (v : JVal) : Bool :=
  match v with
  | .str _ => true
  | w => !w.truthy

/-- A string. -/
def isText (v : JVal) : Bool :=
  match v with
  | .str _ => true
  | _ => false

/-- An object whose fields `texts` hold strings and whose fields `optional`
hold strings or nothing. -/
def isRecord (texts optional : List String) (v : JVal) : Bool :=
  match v with
  | .obj kvs =>
    texts.all (fun k => isText (Obj.get kvs k)) && optional.all (fun k => optText (Obj.get kvs k))
  | _ => false

/-- A list of the dataset: absent, `null`, or an array of rows. -/
def isList (row : JVal → Bool) (v : JVal) : Bool :=
  match v with
  | .undefined => true
  | .null => true
  | .arr xs => xs.all row
  | _ => false

/-- The shape §3 and §6 give the reply of `GET /api/data/initial`, with the
field names the script reads: each list absent or an array of records (a text
has a `content`, an image a `path`; tags, URLs, the text of a post and its
image path are strings when present), and `client_info` absent or a record
whose `name`, when present, is a string. -/
def wellFormedDataset (D : Obj) : Bool :=
  isList (isRecord ["content"] ["ai_tags"]) (D.get "texts")
    && isList (isRecord ["path"] ["manual_tags"]) (D.get "images")
    && isList (isRecord [] ["url", "tags"]) (D.get "groups")
    && isList (isRecord [] ["page_url"]) (D.get "pages")
    && isList (isRecord [] ["text_content", "image_path"]) (D.get "scheduled_posts")
    && isList (isRecord [] ["target_url"]) (D.get "publication_log")
    && (match D.get "client_info" with
        | .undefined => true
        | .null => true
        | .obj kvs => optText (Obj.get kvs "name")
        | _ => false)

/-- The test `data.client_info && data.client_info.name`: the reply names the
client. -/
def echoesIdentity (D : Obj) : Bool :=
  (D.get "client_info").truthy
    && (match (D.get "client_info").getProp "name" with
        | .ok name => name.truthy
        | .error _ => false)

/-- The list `key` of the dataset has `n` entries: it is an array of that
length, or it is missing (absent or `null`) and `n` is `0`. -/
def HasEntries (data : Obj) (key : String) (n : Nat) : Prop :=
  (∃ xs, data.get key = .arr xs ∧ xs.length = n)
    ∨ (n = 0 ∧ (data.get key = .undefined ∨ data.get key = .null))

/-- The dataset of Scenario A: one group, every other list empty. -/
def scenarioA : Obj :=
  [("texts", .arr []), ("images", .arr []),
    ("groups", .arr [.obj [("id", .num 1), ("url", .str "https://g"), ("tags", .str "x")]]),
    ("pages", .arr []), ("scheduled_posts", .arr []), ("publication_log", .arr [])]

/-- The number of sockets, the current one and the earlier ones, on which
`disconnect()` was not called. -/
def liveSockets (s : State) : Nat :=
  ((s.socket.toList ++ s.orphans).filter (fun st => st != .disconnected)).length

/-- A 2xx login reply. -/
def sampleLoginReply : FetchOutcome JVal :=
  .reply ⟨200, none,
    .ok (.obj [("access_token", .str "t1"), ("clientId", .num 7), ("clientName", .str "Ana")])⟩

/-- A session resumed from a stored token whose sync is answered 401 while the
socket is still connecting; the user then logs in again. -/
def reloginWhileConnecting : Config :=
  run Env.sample
    [.settleSync 0 (.reply ⟨401, none, .ok [("msg", .str "Token has expired")]⟩),
      .edit { Inputs.blank with email := "ana@example.com", password := "secreto" } [""],
      .loginClick,
      .settle 0 sampleLoginReply]
    (pageLoad Env.sample (some "t0k") Dom.blank)

/-- A text is being added when the user logs out; the reply arrives
afterwards. -/
def logoutBeforeReply : Config :=
  run Env.sample
    [.settleSync 0 (.reply ⟨200, none, .ok samplePayload⟩),
      .socketConnect none,
      .edit { Inputs.blank with manualTextInput := "nuevo" } [""],
      .addManualTextClick,
      .refreshClick,
      .logoutClick]
    (pageLoad Env.sample (some "t0k") Dom.blank)

/-- The pieces of a split, each trimmed, the empty ones removed. -/
def nonEmptyTrimmed (pieces : List (List Char)) : List (List Char) :=
  (pieces.map trimChars).filter (fun piece => piece ≠ [])

/-- The list the claim on `importBulkGroups` names: the newline-separated
lines of the input as typed, each trimmed, the empty ones removed, in their
order. -/
def trimmedLines (input : String) : List String :=
  (nonEmptyTrimmed (splitChars '\n' input.data)).map String.mk

/-- Whether a string begins or ends with white space. -/
def whitespacePadded (u : String) : Bool :=
  (u.data.head?.map isJsWhitespace).getD false || (u.data.getLast?.map isJsWhitespace).getD false

/-- A page whose bulk-import controls hold two addresses between blank lines
and padding. -/
def bulkSample : State :=
  { State.sample with dom := { State.sample.dom with inputs := { State.sample.dom.inputs with
      bulkGroupsInput := "\n  https://g/1 \n\n\thttps://g/2\n \n", bulkTagsInput := " ventas " } } }

/-- A page with both tag controls of group publishing filled in. -/
def publishingSample : Config :=
  { state := { State.sample with dom := { State.sample.dom with
      inputs := { State.sample.dom.inputs with
        groupTagsInput := " ventas ", contentTagsInput := "ofertas" } } },
    pending := [] }

/-- A sync reply with status 200 whose one text has no content. -/
def textWithoutContent : Obj := [("texts", .arr [.obj [("id", .num 1), ("content", .null)]])]

/-- The login form is filled in on a page loaded without a stored token, and
the login is answered 200 with the given body. -/
def loginAnswered (body : JVal) : Config :=
  run Env.sample
    [.edit { Inputs.blank with email := "ana@example.com", password := "secreto" } [""],
      .loginClick,
      .settle 0 (.reply ⟨200, none, .ok body⟩)]
    (pageLoad Env.sample none Dom.blank)

/-- The two sockets of `reloginWhileConnecting` complete their connection and
the sync of the new session is answered 401. -/
def authFailureWithTwoSockets : Config :=
  run Env.sample
    [.socketConnect none, .socketConnect (some 0),
      .settleSync 0 (.reply ⟨401, none, .ok [("msg", .str "Token has expired")]⟩)]
    reloginWhileConnecting

/-! ## Lemmas on objects and on `apiRequest` -/

theorem Obj.get_set_same (o : Obj) (k : String) (v : JVal) : (o.set k v).get k = v := by
  induction o with
  | nil => simp [Obj.set, Obj.get]
  | cons kv rest ih =>
    obtain ⟨k1, w⟩ := kv
    by_cases h : k1 = k
    · simp [Obj.set, Obj.get, h]
    · simp [Obj.set, Obj.get, h, ih]

theorem Obj.get_set_other (o : Obj) (k l : String) (v : JVal) (h : l ≠ k) :
    (o.set k v).get l = o.get l := by
  induction o with
  | nil => simp [Obj.set, Obj.get, Ne.symm h]
  | cons kv rest ih =>
    obtain ⟨k1, w⟩ := kv
    by_cases h1 : k1 = k
    · subst h1
      simp [Obj.set, Obj.get, Ne.symm h]
    · by_cases h2 : k1 = l
      · subst h2
        simp [Obj.set, Obj.get, h1]
      · simp [Obj.set, Obj.get, h1, h2, ih]

/-- A successful `apiRequest` leaves the state as it was. -/
theorem apiRequestResume_ok (endpoint : String) (out : FetchOutcome JVal) (s s1 : State)
    (C : JVal) (h : apiRequestResume endpoint out s = (s1, .ok C)) : s1 = s := by
  unfold apiRequestResume at h
  repeat' split at h
  all_goals first
    | (simp at h; done)
    | (simp at h; exact h.1.symm)

theorem apiRequestResume_eq_of_ok (endpoint : String) (out : FetchOutcome JVal) (s : State)
    (C : JVal) (h : (apiRequestResume endpoint out s).2 = .ok C) :
    apiRequestResume endpoint out s = (s, .ok C) := by
  rcases hr : apiRequestResume endpoint out s with ⟨s1, res⟩
  rw [hr] at h
  simp only at h
  subst h
  rw [apiRequestResume_ok _ _ _ _ _ hr]

theorem replacesList_setList (list : String) (C : JVal) (s : State) :
    ReplacesList list C s (setList list C s) :=
  ⟨Obj.get_set_same _ _ _, fun _ h => Obj.get_set_other _ _ _ _ h⟩

/-! ## API client: request, success and failure (C3, C4, C5) -/

/-- C3, as amended: for a reply that is not 2xx `apiRequest` never returns a
value; it raises, after the session-expired handling when the status is 401
or 422.  When the body parses and `msg` can be read, the error is an `Error`
whose message is the string of `msg` if `msg` is truthy and the generic
message with the endpoint otherwise; when reading `msg` raises (a `null`
body) or the body does not parse, that error is the one raised. -/
theorem apiRequest_failure (endpoint : String) (r : Response JVal) (s : State)
    (h : r.ok = false) :
    (∃ e, (apiRequestResume endpoint (.reply r) s).2 = .error e)
    ∧ (apiRequestResume endpoint (.reply r) s).1
        = (if r.status = 401 ∨ r.status = 422 then sessionExpired s else s)
    ∧ (∀ errorData msg, r.json = .ok errorData → errorData.getProp "msg" = .ok msg →
        (apiRequestResume endpoint (.reply r) s).2
          = .error (.error (if msg.truthy then msg.toStr
              else "Error en la petición a " ++ endpoint)))
    ∧ (∀ errorData e, r.json = .ok errorData → errorData.getProp "msg" = .error e →
        (apiRequestResume endpoint (.reply r) s).2 = .error e)
    ∧ (∀ m, r.json = .error m →
        (apiRequestResume endpoint (.reply r) s).2 = .error ⟨"SyntaxError", m⟩) := by
  refine ⟨?_, ?_, ?_, ?_, ?_⟩
  · simp only [apiRequestResume, h]
    cases hj : r.json with
    | error m => exact ⟨_, rfl⟩
    | ok d =>
      cases hm : d.getProp "msg" with
      | error e => simp [hm]
      | ok msg => simp [hm]
  · simp only [apiRequestResume, h]
    cases hj : r.json with
    | error m => simp
    | ok d => cases hm : d.getProp "msg" <;> simp [hm]
  · intro d msg hj hm
    simp only [apiRequestResume, h, hj, hm]
    cases ht : msg.truthy <;> simp [JVal.or, ht, JVal.toStr]
  · intro d e hj hm
    simp [apiRequestResume, h, hj, hm]
  · intro m hj
    simp [apiRequestResume, h, hj]

/-- Witness of `apiRequest_failure`: a 500 reply with a `msg`. -/
theorem apiRequest_failure_witness :
    (apiRequestResume "/api/texts"
        (.reply ⟨500, none, .ok (.obj [("msg", .str "Texto duplicado")])⟩) State.sample).2
      = .error (.error "Texto duplicado") :=
  (apiRequest_failure "/api/texts" ⟨500, none, .ok (.obj [("msg", .str "Texto duplicado")])⟩
    State.sample (by decide)).2.2.1 _ _ rfl rfl

/-- C3 fails as stated: a 500 reply whose body is an HTML page carries no
`msg`, yet the error raised is the parser's and not the generic one. -/
theorem apiRequest_unparsed_error_body :
    (apiRequestResume "/api/texts"
        (.reply ⟨500, none, .error "Unexpected token < in JSON at position 0"⟩)
        State.sample).2
      = .error ⟨"SyntaxError", "Unexpected token < in JSON at position 0"⟩
    ∧ (apiRequestResume "/api/texts"
        (.reply ⟨500, none, .error "Unexpected token < in JSON at position 0"⟩)
        State.sample).2
      ≠ .error (.error "Error en la petición a /api/texts") := by
  decide

/-- C4: for a 2xx reply with status 204 or `content-length` `"0"`,
`apiRequest` returns the success sentinel `{success: true}` whatever parsing
the body would give; for every other 2xx reply it returns what
`response.json()` gives, the parsed body, and raises the parse error when
there is none. -/
theorem apiRequest_success (endpoint : String) (r : Response JVal) (s : State)
    (h : r.ok = true) :
    (r.status = 204 ∨ r.contentLength = some "0" →
        apiRequestResume endpoint (.reply r) s = (s, .ok (.obj [("success", .bool true)])))
    ∧ (¬ (r.status = 204 ∨ r.contentLength = some "0") →
        (∀ v, r.json = .ok v → apiRequestResume endpoint (.reply r) s = (s, .ok v))
        ∧ (∀ m, r.json = .error m →
            apiRequestResume endpoint (.reply r) s = (s, .error ⟨"SyntaxError", m⟩))) := by
  refine ⟨fun h1 => ?_, fun h1 => ⟨fun v hv => ?_, fun m hm => ?_⟩⟩
  · simp [apiRequestResume, h, h1, successSentinel]
  · simp [apiRequestResume, h, h1, hv]
  · simp [apiRequestResume, h, h1, hm]

/-- Witness of `apiRequest_success`: a 204 reply without a body, and a 200
reply with a body. -/
theorem apiRequest_success_witness :
    apiRequestResume "/api/publishing/stop"
        (.reply ⟨204, none, .error "Unexpected end of JSON input"⟩) State.sample
      = (State.sample, .ok (.obj [("success", .bool true)]))
    ∧ apiRequestResume "/api/publishing/stop"
        (.reply ⟨200, some "12", .ok (.obj [("msg", .str "ok")])⟩) State.sample
      = (State.sample, .ok (.obj [("msg", .str "ok")])) :=
  ⟨(apiRequest_success "/api/publishing/stop" ⟨204, none, .error "Unexpected end of JSON input"⟩
      State.sample (by decide)).1 (Or.inl rfl),
    ((apiRequest_success "/api/publishing/stop" ⟨200, some "12", .ok (.obj [("msg", .str "ok")])⟩
      State.sample (by decide)).2 (by decide)).1 _ rfl⟩

/-- C5: every request of `apiRequest` carries `Authorization: Bearer <token>`.
The calls of the script pass a `FormData`, an object literal or no body, which
is `null`: a `FormData` is sent as it is, without a `Content-Type` header; an
object is sent as its JSON text with `Content-Type: application/json`; without
a body none is sent. The same holds of every other truthy body; the guard is
`if (body)`, so a falsy body, which no call passes, is not sent either. -/
theorem apiRequest_request (cs : ClientState) (endpoint method : String) (fd : FormData)
    (kvs : Obj) (v : JVal) :
    (apiRequestConfig cs endpoint method (.formData fd)
        = { url := API_URL ++ endpoint, method := method,
            headers := [("Authorization", "Bearer " ++ cs.token.toStr)],
            body := some (.multipart fd) })
    ∧ (apiRequestConfig cs endpoint method (.value (.obj kvs))
        = { url := API_URL ++ endpoint, method := method,
            headers := [("Authorization", "Bearer " ++ cs.token.toStr),
              ("Content-Type", "application/json")],
            body := some (.json (.obj kvs)) })
    ∧ (apiRequestConfig cs endpoint method (.value .null)
        = { url := API_URL ++ endpoint, method := method,
            headers := [("Authorization", "Bearer " ++ cs.token.toStr)], body := none })
    ∧ (apiRequestConfig cs endpoint method (.formData fd)).headers.lookup "Content-Type" = none
    ∧ (apiRequestConfig cs endpoint method (.value v)).headers.lookup "Authorization"
        = some ("Bearer " ++ cs.token.toStr)
    ∧ (apiRequestConfig cs endpoint method (.value v)).body
        = (if v.truthy then some (.json v) else none)
    ∧ (apiRequestConfig cs endpoint method (.value v)).headers.lookup "Content-Type"
        = (if v.truthy then some "application/json" else none) := by
  refine ⟨rfl, rfl, rfl, rfl, ?_, ?_, ?_⟩ <;>
    cases h : v.truthy <;> simp [apiRequestConfig, h, List.lookup]

/-- Outside the calls of the script: the body `0` is not `null` and no
`FormData`, yet the request would have no body and no `Content-Type` header. -/
theorem apiRequest_falsy_body_dropped :
    JVal.num 0 ≠ JVal.null
    ∧ (apiRequestConfig ⟨.num 7, .str "Ana", .str "t0k"⟩ "/api/texts" "POST"
        (.value (.num 0))).body = none
    ∧ (apiRequestConfig ⟨.num 7, .str "Ana", .str "t0k"⟩ "/api/texts" "POST"
        (.value (.num 0))).headers = [("Authorization", "Bearer t0k")] := by
  decide

/-! ## List replacement by the mutating handlers (C1) -/

theorem addManualTextResume_replaces (env : Env) (out : FetchOutcome JVal) (s : State) (C : JVal)
    (h : (apiRequestResume "/api/texts" out s).2 = .ok C) :
    ReplacesList "texts" C s (addManualTextResume env out s) := by
  unfold addManualTextResume
  rw [apiRequestResume_eq_of_ok _ _ _ _ h]
  simp only
  split <;> exact replacesList_setList _ _ _

theorem generateAiTextsResume_replaces (env : Env) (count : JVal) (out : FetchOutcome JVal)
    (s : State) (C : JVal) (h : (apiRequestResume "/api/texts/generate-ai" out s).2 = .ok C) :
    ReplacesList "texts" C s (generateAiTextsResume env count out s) := by
  unfold generateAiTextsResume
  rw [apiRequestResume_eq_of_ok _ _ _ _ h]
  simp only
  split <;> exact replacesList_setList _ _ _

theorem saveTextUpdateResume_replaces (env : Env) (id : JVal) (out : FetchOutcome JVal)
    (s : State) (C : JVal) (h : (apiRequestResume ("/api/texts/" ++ id.toStr) out s).2 = .ok C) :
    ReplacesList "texts" C s (saveTextUpdateResume env id out s) := by
  unfold saveTextUpdateResume
  rw [apiRequestResume_eq_of_ok _ _ _ _ h]
  simp only
  split <;> exact replacesList_setList _ _ _

theorem uploadSelectedImagesResume_replaces (out : FetchOutcome JVal)
    (s : State) (C : JVal) (h : (apiRequestResume "/api/images/upload" out s).2 = .ok C) :
    ReplacesList "images" C s (uploadSelectedImagesResume out s) := by
  unfold uploadSelectedImagesResume
  rw [apiRequestResume_eq_of_ok _ _ _ _ h]
  simp only
  split <;> exact replacesList_setList _ _ _

theorem addSingleGroupResume_replaces (env : Env) (out : FetchOutcome JVal) (s : State) (C : JVal)
    (h : (apiRequestResume "/api/groups" out s).2 = .ok C) :
    ReplacesList "groups" C s (addSingleGroupResume env out s) := by
  unfold addSingleGroupResume
  rw [apiRequestResume_eq_of_ok _ _ _ _ h]
  simp only
  split <;> exact replacesList_setList _ _ _

theorem importBulkGroupsResume_replaces (env : Env) (out : FetchOutcome JVal) (s : State)
    (C : JVal) (h : (apiRequestResume "/api/groups/bulk" out s).2 = .ok C) :
    ReplacesList "groups" C s (importBulkGroupsResume env out s) := by
  unfold importBulkGroupsResume
  rw [apiRequestResume_eq_of_ok _ _ _ _ h]
  simp only
  split <;> exact replacesList_setList _ _ _

theorem addPageResume_replaces (env : Env) (out : FetchOutcome JVal) (s : State) (C : JVal)
    (h : (apiRequestResume "/api/pages" out s).2 = .ok C) :
    ReplacesList "pages" C s (addPageResume env out s) := by
  unfold addPageResume
  rw [apiRequestResume_eq_of_ok _ _ _ _ h]
  simp only
  split <;> exact replacesList_setList _ _ _

theorem schedulePostResume_replaces (env : Env) (out : FetchOutcome JVal) (s : State) (C : JVal)
    (h : (apiRequestResume "/api/scheduled_posts" out s).2 = .ok C) :
    ReplacesList "scheduled_posts" C s (schedulePostResume env out s) := by
  unfold schedulePostResume
  rw [apiRequestResume_eq_of_ok _ _ _ _ h]
  simp only
  split <;> exact replacesList_setList _ _ _

/-- The part of a handler before its `fetch` leaves the dataset as it is. -/
theorem starts_keep_data (env : Env) (id : JVal) (s : State) :
    (addManualText s).1.appState.data = s.appState.data
    ∧ (generateAiTexts s).1.appState.data = s.appState.data
    ∧ (saveTextUpdate id s).1.appState.data = s.appState.data
    ∧ (uploadSelectedImages s).1.appState.data = s.appState.data
    ∧ (addSingleGroup env s).1.appState.data = s.appState.data
    ∧ (importBulkGroups s).1.appState.data = s.appState.data
    ∧ (addPage env s).1.appState.data = s.appState.data
    ∧ (schedulePost env s).1.appState.data = s.appState.data := by
  refine ⟨?_, ?_, ?_, ?_, ?_, ?_, ?_, ?_⟩
  · simp only [addManualText]; split <;> rfl
  · simp only [generateAiTexts]; split <;> rfl
  · simp only [saveTextUpdate]; split
    · rfl
    · split <;> rfl
  · simp only [uploadSelectedImages]; split <;> rfl
  · simp only [addSingleGroup]; split <;> rfl
  · simp only [importBulkGroups]; split <;> rfl
  · simp only [addPage]; split <;> rfl
  · simp only [schedulePost]; split
    · rfl
    · split <;> rfl

/-- C1: for each mutating handler and every value `C` its `apiRequest`
returns, once the handler has run the list it targets is exactly `C` and every
other list of `appState.data` is what it was when the reply arrived; the part
of the handler before the request leaves the whole dataset as it was. -/
theorem mutating_handlers_replace_list (env : Env) (id count : JVal)
    (out : FetchOutcome JVal) (s : State) (C : JVal) :
    ((apiRequestResume "/api/texts" out s).2 = .ok C →
        ReplacesList "texts" C s (addManualTextResume env out s))
    ∧ ((apiRequestResume "/api/texts/generate-ai" out s).2 = .ok C →
        ReplacesList "texts" C s (generateAiTextsResume env count out s))
    ∧ ((apiRequestResume ("/api/texts/" ++ id.toStr) out s).2 = .ok C →
        ReplacesList "texts" C s (saveTextUpdateResume env id out s))
    ∧ ((apiRequestResume "/api/images/upload" out s).2 = .ok C →
        ReplacesList "images" C s (uploadSelectedImagesResume out s))
    ∧ ((apiRequestResume "/api/groups" out s).2 = .ok C →
        ReplacesList "groups" C s (addSingleGroupResume env out s))
    ∧ ((apiRequestResume "/api/groups/bulk" out s).2 = .ok C →
        ReplacesList "groups" C s (importBulkGroupsResume env out s))
    ∧ ((apiRequestResume "/api/pages" out s).2 = .ok C →
        ReplacesList "pages" C s (addPageResume env out s))
    ∧ ((apiRequestResume "/api/scheduled_posts" out s).2 = .ok C →
        ReplacesList "scheduled_posts" C s (schedulePostResume env out s))
    ∧ (addManualText s).1.appState.data = s.appState.data
    ∧ (generateAiTexts s).1.appState.data = s.appState.data
    ∧ (saveTextUpdate id s).1.appState.data = s.appState.data
    ∧ (uploadSelectedImages s).1.appState.data = s.appState.data
    ∧ (addSingleGroup env s).1.appState.data = s.appState.data
    ∧ (importBulkGroups s).1.appState.data = s.appState.data
    ∧ (addPage env s).1.appState.data = s.appState.data
    ∧ (schedulePost env s).1.appState.data = s.appState.data :=
  ⟨addManualTextResume_replaces env out s C, generateAiTextsResume_replaces env count out s C,
    saveTextUpdateResume_replaces env id out s C, uploadSelectedImagesResume_replaces out s C,
    addSingleGroupResume_replaces env out s C, importBulkGroupsResume_replaces env out s C,
    addPageResume_replaces env out s C, schedulePostResume_replaces env out s C,
    starts_keep_data env id s⟩

/-- Witness of `mutating_handlers_replace_list`: the reply to adding a text
replaces the one text of the sample page. -/
theorem mutating_handlers_replace_list_witness :
    ReplacesList "texts" (.arr [.obj [("id", .num 2), ("content", .str "nuevo")]]) State.sample
      (addManualTextResume Env.sample
        (.reply ⟨200, none, .ok (.arr [.obj [("id", .num 2), ("content", .str "nuevo")]])⟩)
        State.sample) :=
  (mutating_handlers_replace_list Env.sample (.num 1) (.num 5)
    (.reply ⟨200, none, .ok (.arr [.obj [("id", .num 2), ("content", .str "nuevo")]])⟩)
    State.sample (.arr [.obj [("id", .num 2), ("content", .str "nuevo")]])).1 rfl

/-! ## Validation before the request (C6) -/

/-- C6: `addManualText` with a text that is empty after trimming,
`addSingleGroup` with a URL that is empty after trimming or that `new URL`
rejects, and `schedulePost` without a page, without a date or with a text
that is empty after trimming each issue no request, leave `appState.data` as
it is and show a warning notification. -/
theorem validation_short_circuits (env : Env) (s : State) :
    (jsTrim s.dom.inputs.manualTextInput = "" → Refused s (addManualText s))
    ∧ (jsTrim s.dom.inputs.groupUrlInput = ""
          ∨ env.isValidUrl (jsTrim s.dom.inputs.groupUrlInput) = false →
        Refused s (addSingleGroup env s))
    ∧ (s.dom.inputs.schedulePageSelect = "" ∨ s.dom.inputs.scheduleDatetime = ""
          ∨ jsTrim s.dom.inputs.scheduleTextContent = "" →
        Refused s (schedulePost env s)) := by
  refine ⟨fun h => ?_, fun h => ?_, fun h => ?_⟩
  · simp only [addManualText, h, if_true]
    exact ⟨rfl, rfl, _, rfl, rfl⟩
  · simp only [addSingleGroup, h, if_true]
    exact ⟨rfl, rfl, _, rfl, rfl⟩
  · simp only [schedulePost, h, if_true]
    exact ⟨rfl, rfl, _, rfl, rfl⟩

/-- Witness of `validation_short_circuits`: a manual text of blanks and a
line break is refused. -/
theorem validation_short_circuits_witness :
    Refused { State.sample with dom := { State.sample.dom with
        inputs := { Inputs.blank with manualTextInput := "  \n " } } }
      (addManualText { State.sample with dom := { State.sample.dom with
        inputs := { Inputs.blank with manualTextInput := "  \n " } } }) :=
  (validation_short_circuits Env.sample _).1 (by decide)

/-! ## What the handlers leave of the session and of the publishing flag -/

theorem Frame.same {s t : State} (h : session t = session s) : Frame s t := Or.inl h

theorem Frame.refl (s : State) : Frame s s := Or.inl rfl

theorem Frame.trans {s t u : State} (h1 : Frame s t) (h2 : Frame t u) : Frame s u := by
  unfold Frame at *
  have hf : flag t = flag s := by
    rcases h1 with h | h <;> simpa [session] using congrArg (fun p => p.2.2.2) h
  rcases h2 with h | h
  · rw [h]; exact h1
  · right; rw [h, hf]

theorem Frame.flag_eq {s t : State} (h : Frame s t) : flag t = flag s := by
  rcases h with h | h <;> simpa [session] using congrArg (fun p => p.2.2.2) h

theorem frame_showLogin (s : State) : Frame s (showLogin s) := Or.inr rfl

theorem frame_disconnectIfConnected (s : State) : Frame s (disconnectIfConnected s) := by
  unfold disconnectIfConnected; split <;> exact Frame.same rfl

theorem session_disconnectIfConnected (s : State) :
    session (disconnectIfConnected s) = session s := by
  unfold disconnectIfConnected; split <;> rfl

theorem frame_handleLogout (s : State) : Frame s (handleLogout s) := by
  right
  show session (showLogin (disconnectIfConnected s)) = _
  have := session_disconnectIfConnected s
  simp only [session, flag, Prod.mk.injEq] at this ⊢
  exact ⟨rfl, rfl, rfl, this.2.2.2⟩

theorem frame_sessionExpired (s : State) : Frame s (sessionExpired s) :=
  Frame.trans (Frame.same rfl) (frame_handleLogout _)

theorem frame_updateStatus (b : Bool) (s : State) : Frame s (updateStatus b s) := by
  unfold updateStatus; split <;> exact Frame.same rfl

theorem frame_apiRequestResume (endpoint : String) (out : FetchOutcome JVal) (s : State) :
    Frame s (apiRequestResume endpoint out s).1 := by
  unfold apiRequestResume
  repeat' split
  all_goals first
    | exact Frame.refl _
    | exact frame_sessionExpired _

theorem frame_addManualTextResume (env : Env) (out : FetchOutcome JVal) (s : State) :
    Frame s (addManualTextResume env out s) := by
  have hf := frame_apiRequestResume "/api/texts" out s
  unfold addManualTextResume
  generalize apiRequestResume "/api/texts" out s = r at hf ⊢
  obtain ⟨s1, res⟩ := r
  refine Frame.trans hf ?_
  cases res with
  | error e => exact Frame.same rfl
  | ok v => simp only; split <;> exact Frame.same rfl

theorem frame_generateAiTextsResume (env : Env) (count : JVal) (out : FetchOutcome JVal) (s : State) :
    Frame s (generateAiTextsResume env count out s) := by
  have hf := frame_apiRequestResume "/api/texts/generate-ai" out s
  unfold generateAiTextsResume
  generalize apiRequestResume "/api/texts/generate-ai" out s = r at hf ⊢
  obtain ⟨s1, res⟩ := r
  refine Frame.trans hf ?_
  cases res with
  | error e => exact Frame.same rfl
  | ok v => simp only; split <;> exact Frame.same rfl

theorem frame_uploadSelectedImagesResume (out : FetchOutcome JVal) (s : State) :
    Frame s (uploadSelectedImagesResume out s) := by
  have hf := frame_apiRequestResume "/api/images/upload" out s
  unfold uploadSelectedImagesResume
  generalize apiRequestResume "/api/images/upload" out s = r at hf ⊢
  obtain ⟨s1, res⟩ := r
  refine Frame.trans hf ?_
  cases res with
  | error e => exact Frame.same rfl
  | ok v => simp only; split <;> exact Frame.same rfl

theorem frame_addSingleGroupResume (env : Env) (out : FetchOutcome JVal) (s : State) :
    Frame s (addSingleGroupResume env out s) := by
  have hf := frame_apiRequestResume "/api/groups" out s
  unfold addSingleGroupResume
  generalize apiRequestResume "/api/groups" out s = r at hf ⊢
  obtain ⟨s1, res⟩ := r
  refine Frame.trans hf ?_
  cases res with
  | error e => exact Frame.same rfl
  | ok v => simp only; split <;> exact Frame.same rfl

theorem frame_importBulkGroupsResume (env : Env) (out : FetchOutcome JVal) (s : State) :
    Frame s (importBulkGroupsResume env out s) := by
  have hf := frame_apiRequestResume "/api/groups/bulk" out s
  unfold importBulkGroupsResume
  generalize apiRequestResume "/api/groups/bulk" out s = r at hf ⊢
  obtain ⟨s1, res⟩ := r
  refine Frame.trans hf ?_
  cases res with
  | error e => exact Frame.same rfl
  | ok v => simp only; split <;> exact Frame.same rfl

theorem frame_addPageResume (env : Env) (out : FetchOutcome JVal) (s : State) :
    Frame s (addPageResume env out s) := by
  have hf := frame_apiRequestResume "/api/pages" out s
  unfold addPageResume
  generalize apiRequestResume "/api/pages" out s = r at hf ⊢
  obtain ⟨s1, res⟩ := r
  refine Frame.trans hf ?_
  cases res with
  | error e => exact Frame.same rfl
  | ok v => simp only; split <;> exact Frame.same rfl

theorem frame_schedulePostResume (env : Env) (out : FetchOutcome JVal) (s : State) :
    Frame s (schedulePostResume env out s) := by
  have hf := frame_apiRequestResume "/api/scheduled_posts" out s
  unfold schedulePostResume
  generalize apiRequestResume "/api/scheduled_posts" out s = r at hf ⊢
  obtain ⟨s1, res⟩ := r
  refine Frame.trans hf ?_
  cases res with
  | error e => exact Frame.same rfl
  | ok v => simp only; split <;> exact Frame.same rfl

theorem frame_saveTextUpdateResume (env : Env) (id : JVal) (out : FetchOutcome JVal) (s : State) :
    Frame s (saveTextUpdateResume env id out s) := by
  have hf := frame_apiRequestResume ("/api/texts/" ++ id.toStr) out s
  unfold saveTextUpdateResume
  generalize apiRequestResume ("/api/texts/" ++ id.toStr) out s = r at hf ⊢
  obtain ⟨s1, res⟩ := r
  refine Frame.trans hf ?_
  cases res with
  | error e => exact Frame.same rfl
  | ok v => simp only; split <;> exact Frame.same rfl

theorem frame_publishingResume (endpoint words : String) (out : FetchOutcome JVal) (s : State) :
    Frame s (publishingResume endpoint words out s) := by
  have hf := frame_apiRequestResume endpoint out s
  unfold publishingResume
  generalize apiRequestResume endpoint out s = r at hf ⊢
  obtain ⟨s1, res⟩ := r
  refine Frame.trans hf ?_
  cases res with
  | error e => exact Frame.same rfl
  | ok v => simp only; split <;> exact Frame.same rfl

theorem frame_applySuggestion (suggestion : JVal) (s : State) :
    Frame s (applySuggestion suggestion s).1 := by
  unfold applySuggestion
  repeat' split
  all_goals exact Frame.same rfl

theorem frame_getContentSuggestionResume (out : FetchOutcome JVal) (s : State) :
    Frame s (getContentSuggestionResume out s) := by
  have hf := frame_apiRequestResume "/api/content/suggestion" out s
  unfold getContentSuggestionResume
  generalize apiRequestResume "/api/content/suggestion" out s = r at hf ⊢
  obtain ⟨s1, res⟩ := r
  refine Frame.trans hf ?_
  cases res with
  | error e => exact Frame.same rfl
  | ok v => 
    simp only
    have ha := frame_applySuggestion v s1
    generalize applySuggestion v s1 = r at ha ⊢
    obtain ⟨s2, res2⟩ := r
    refine Frame.trans ha ?_
    cases res2 <;> exact Frame.same rfl

theorem frame_loadInitialData (s : State) : Frame s (loadInitialData s).1 := by
  unfold loadInitialData
  split
  · exact frame_showLogin s
  · exact Frame.same rfl

theorem frame_deleteItemAfterSync (result : JVal) (s : State) :
    Frame s (deleteItemAfterSync result s) := by
  unfold deleteItemAfterSync
  split <;> exact Frame.same rfl

theorem frame_deleteItemResume (type : String) (id : JVal) (out : FetchOutcome JVal) (s : State) :
    Frame s (deleteItemResume type id out s).1 := by
  have hf := frame_apiRequestResume (deleteEndpoint type id) out s
  unfold deleteItemResume
  generalize apiRequestResume (deleteEndpoint type id) out s = r at hf ⊢
  obtain ⟨s1, res⟩ := r
  refine Frame.trans hf ?_
  cases res with
  | error e => exact Frame.same rfl
  | ok v =>
    simp only
    have hl := frame_loadInitialData s1
    generalize loadInitialData s1 = r at hl ⊢
    obtain ⟨s2, req⟩ := r
    cases req with
    | none => exact Frame.trans hl (frame_deleteItemAfterSync _ _)
    | some request => exact hl

theorem frame_refreshIdentity (env : Env) (data : Obj) (s : State) :
    Frame s (refreshIdentity env data s).1 := by
  simp only [refreshIdentity]
  repeat' split
  all_goals exact Frame.same rfl

theorem frame_loadInitialDataCatch (s : State) : Frame s (loadInitialDataCatch s) :=
  Frame.trans (Frame.trans (Frame.same rfl) (frame_updateStatus false _)) (frame_handleLogout _)

theorem frame_loadInitialDataTry (env : Env) (out : FetchOutcome Obj) (s : State) :
    Frame s (loadInitialDataTry env out s).1 := by
  unfold loadInitialDataTry
  split
  · exact Frame.refl _
  · split
    · split
      · exact Frame.refl _
      · simp only
        rename_i data _
        have hr := frame_refreshIdentity env data
          { s with appState := { s.appState with data := data } }
        generalize refreshIdentity env data
          { s with appState := { s.appState with data := data } } = r at hr ⊢
        obtain ⟨s2, res⟩ := r
        have hs : Frame s s2 := Frame.trans (Frame.same rfl) hr
        cases res with
        | error e => exact hs
        | ok u =>
          simp only
          split
          · exact hs
          · exact Frame.trans hs
              (Frame.trans (frame_updateStatus true s2) (Frame.same rfl))
    · split
      · exact frame_sessionExpired s
      · split <;> exact Frame.refl _

theorem frame_loadInitialDataResume (env : Env) (out : FetchOutcome Obj) (s : State) :
    Frame s (loadInitialDataResume env out s) := by
  have ht := frame_loadInitialDataTry env out s
  unfold loadInitialDataResume
  generalize loadInitialDataTry env out s = r at ht ⊢
  obtain ⟨s1, res⟩ := r
  cases res with
  | ok u => exact Frame.trans ht (Frame.same rfl)
  | error e =>
    exact Frame.trans ht (Frame.trans (frame_loadInitialDataCatch s1) (Frame.same rfl))

theorem frame_afterSync (caller : SyncCaller) (s : State) : Frame s (afterSync caller s) := by
  cases caller with
  | direct => exact Frame.refl _
  | login => exact Frame.same rfl
  | deleteItem result => exact frame_deleteItemAfterSync result s

/-- The part of every handler before its `fetch`, `handleLogin` included,
frames the session. -/
theorem frame_starts (env : Env) (type : String) (id : JVal) (confirmed : Bool) (s : State) :
    Frame s (handleLogin s).1 ∧ Frame s (addManualText s).1 ∧ Frame s (generateAiTexts s).1
    ∧ Frame s (uploadSelectedImages s).1 ∧ Frame s (addSingleGroup env s).1
    ∧ Frame s (importBulkGroups s).1 ∧ Frame s (addPage env s).1
    ∧ Frame s (getContentSuggestion s).1 ∧ Frame s (schedulePost env s).1
    ∧ Frame s (startGroupPublishing s).1 ∧ Frame s (stopGroupPublishing s).1
    ∧ Frame s (saveTextUpdate id s).1 ∧ Frame s (deleteItem type id confirmed s).1 := by
  refine ⟨?_, ?_, ?_, ?_, ?_, ?_, ?_, ?_, ?_, ?_, ?_, ?_, ?_⟩
  · simp only [handleLogin]; split <;> exact Frame.same rfl
  · simp only [addManualText]; split <;> exact Frame.same rfl
  · simp only [generateAiTexts]; split <;> exact Frame.same rfl
  · simp only [uploadSelectedImages]; split <;> exact Frame.same rfl
  · simp only [addSingleGroup]; split <;> exact Frame.same rfl
  · simp only [importBulkGroups]; split <;> exact Frame.same rfl
  · simp only [addPage]; split <;> exact Frame.same rfl
  · simp only [getContentSuggestion]; split <;> exact Frame.same rfl
  · simp only [schedulePost]; split
    · exact Frame.same rfl
    · split <;> exact Frame.same rfl
  · simp only [startGroupPublishing]; split <;> exact Frame.same rfl
  · exact Frame.refl _
  · simp only [saveTextUpdate]; split
    · exact Frame.same rfl
    · split <;> exact Frame.same rfl
  · simp only [deleteItem]; split <;> exact Frame.same rfl

theorem issue_state (pending : List (Request × Pending)) (k : Pending)
    (r : State × Option Request) : (issue pending k r).state = r.1 := by
  unfold issue; split <;> rfl

theorem frame_resume (env : Env) (k : Pending) (out : FetchOutcome JVal) (s : State)
    (hk : k ≠ .login) : Frame s (resume env k out s).1 := by
  cases k with
  | login => exact absurd rfl hk
  | sync caller => exact Frame.refl _
  | addManualText => exact frame_addManualTextResume env out s
  | generateAiTexts count => exact frame_generateAiTextsResume env count out s
  | uploadSelectedImages => exact frame_uploadSelectedImagesResume out s
  | addSingleGroup => exact frame_addSingleGroupResume env out s
  | importBulkGroups => exact frame_importBulkGroupsResume env out s
  | addPage => exact frame_addPageResume env out s
  | getContentSuggestion => exact frame_getContentSuggestionResume out s
  | schedulePost => exact frame_schedulePostResume env out s
  | startGroupPublishing => exact frame_publishingResume _ _ out s
  | stopGroupPublishing => exact frame_publishingResume _ _ out s
  | saveTextUpdate id => exact frame_saveTextUpdateResume env id out s
  | deleteItem type id =>
    have h := frame_deleteItemResume type id out s
    simp only [resume]
    generalize deleteItemResume type id out s = r at h ⊢
    obtain ⟨s1, next⟩ := r
    cases next with
    | none => exact h
    | some p => exact h

theorem frame_socketChange (f : SocketStatus → SocketStatus) (orphan : Option Nat) (s : State) :
    Frame s (socketChange f orphan s) := by
  cases orphan <;> exact Frame.same rfl

/-- Every event but a `publishing_status` push and the settling of a login
frames the session. -/
theorem frame_step (env : Env) (e : Event) (c : Config)
    (h1 : ∀ v, e ≠ .publishingStatus v)
    (h2 : ∀ index out request, e = .settle index out →
      c.pending.get? index ≠ some (request, .login)) :
    Frame c.state (step env e c).state := by
  have hs := frame_starts env
  cases e with
  | edit inputs imageOptions => exact Frame.same rfl
  | loginClick => simp only [step, issue_state]; exact (hs "" .null false c.state).1
  | logoutClick => exact frame_handleLogout _
  | addManualTextClick => simp only [step, issue_state]; exact (hs "" .null false c.state).2.1
  | generateAiTextsClick =>
    have h := (hs "" .null false c.state).2.2.1
    simp only [step]
    generalize generateAiTexts c.state = r at h ⊢
    obtain ⟨s1, next⟩ := r
    cases next with
    | none => exact h
    | some p => exact h
  | filesChosen => simp only [step, issue_state]; exact (hs "" .null false c.state).2.2.2.1
  | addSingleGroupClick =>
    simp only [step, issue_state]; exact (hs "" .null false c.state).2.2.2.2.1
  | importBulkGroupsClick =>
    simp only [step, issue_state]; exact (hs "" .null false c.state).2.2.2.2.2.1
  | addPageClick =>
    simp only [step, issue_state]; exact (hs "" .null false c.state).2.2.2.2.2.2.1
  | getContentSuggestionClick =>
    simp only [step, issue_state]; exact (hs "" .null false c.state).2.2.2.2.2.2.2.1
  | schedulePostClick =>
    simp only [step, issue_state]; exact (hs "" .null false c.state).2.2.2.2.2.2.2.2.1
  | startGroupPublishingClick =>
    simp only [step, issue_state]; exact (hs "" .null false c.state).2.2.2.2.2.2.2.2.2.1
  | stopGroupPublishingClick => exact Frame.refl _
  | refreshClick => simp only [step, issue_state]; exact frame_loadInitialData _
  | deleteClick type id confirmed =>
    simp only [step, issue_state]
    exact (hs type id confirmed c.state).2.2.2.2.2.2.2.2.2.2.2.2
  | editTextClick shown => exact Frame.same rfl
  | imageClick => exact Frame.same rfl
  | closeModalClick => exact Frame.same rfl
  | saveTextClick id =>
    simp only [step, issue_state]
    exact (hs "" id false c.state).2.2.2.2.2.2.2.2.2.2.2.1
  | tabClick tab => exact Frame.same rfl
  | clearLogClick => exact Frame.same rfl
  | notificationHidden => exact Frame.same rfl
  | socketConnect orphan => exact frame_socketChange _ _ _
  | socketDrop orphan => exact frame_socketChange _ _ _
  | connectError => exact Frame.same rfl
  | logMessage data type => exact Frame.same rfl
  | publishingStatus v => exact absurd rfl (h1 v)
  | settle index out =>
    simp only [step]
    cases hp : c.pending.get? index with
    | none => exact Frame.refl _
    | some p =>
      obtain ⟨request, k⟩ := p
      have hk : k ≠ .login := by
        intro hk
        subst hk
        exact h2 index out request rfl hp
      have hr := frame_resume env k out c.state hk
      cases k with
      | login => exact absurd rfl hk
      | sync caller => exact Frame.refl _
      | _ =>
        simp only
        generalize resume env _ out c.state = r at hr ⊢
        obtain ⟨s1, next⟩ := r
        cases next <;> exact hr
  | settleSync index out =>
    simp only [step]
    cases hp : c.pending.get? index with
    | none => exact Frame.refl _
    | some p =>
      obtain ⟨request, k⟩ := p
      cases k with
      | sync caller =>
        exact Frame.trans (frame_loadInitialDataResume env out c.state) (frame_afterSync _ _)
      | _ => exact Frame.refl _

/-! ## The publishing flag and its buttons (C7, C8) -/

theorem flag_showApp (env : Env) (s : State) : flag (showApp env s).1 = flag s := by
  simp only [showApp]
  repeat' split
  all_goals rfl

theorem flag_handleLoginResume (env : Env) (out : FetchOutcome JVal) (s : State) :
    flag (handleLoginResume env out s).1 = flag s := by
  unfold handleLoginResume
  split
  · rfl
  · split
    · rfl
    · split
      · split
        · rename_i accessToken clientId clientName _ _ _
          simp only
          have ha := flag_showApp env
            { s with
              clientState := { token := accessToken, id := clientId, name := clientName }
              jwtToken := some accessToken.toStr }
          generalize showApp env
            { s with
              clientState := { token := accessToken, id := clientId, name := clientName }
              jwtToken := some accessToken.toStr } = r at ha ⊢
          obtain ⟨s2, res⟩ := r
          cases res with
          | error e => exact ha
          | ok u =>
            simp only
            have hl := (frame_loadInitialData s2).flag_eq
            generalize loadInitialData s2 = r at hl ⊢
            obtain ⟨s3, req⟩ := r
            cases req with
            | none => exact hl.trans ha
            | some request => exact hl.trans ha
        · rfl
      · split <;> rfl

/-- C7: whatever the outcome of the request, `startGroupPublishing` and
`stopGroupPublishing` leave `appState.ui.isGroupPublishing` as it is, before
and after their `fetch`; the handler of a `publishing_status` event sets it to
the event's `isPublishing`; and no other event of the page changes it. -/
theorem publishing_flag_written_by_push_only (env : Env) (e : Event) (c : Config)
    (out : FetchOutcome JVal) (s : State) (v : JVal) :
    flag (startGroupPublishing s).1 = flag s
    ∧ flag (startGroupPublishingResume out s) = flag s
    ∧ flag (stopGroupPublishing s).1 = flag s
    ∧ flag (stopGroupPublishingResume out s) = flag s
    ∧ flag (onPublishingStatus v s) = v
    ∧ ((∀ w, e ≠ .publishingStatus w) → flag (step env e c).state = flag c.state) := by
  refine ⟨(frame_starts env "" .null false s).2.2.2.2.2.2.2.2.2.1.flag_eq,
    (frame_publishingResume _ _ out s).flag_eq, rfl,
    (frame_publishingResume _ _ out s).flag_eq, ?_, fun h1 => ?_⟩
  · simp only [onPublishingStatus, updatePublishingUI]
    split <;> rfl
  · by_cases h2 : ∃ index out request, e = .settle index out
        ∧ c.pending.get? index = some (request, .login)
    · obtain ⟨index, out, request, rfl, hp⟩ := h2
      have hl := flag_handleLoginResume env out c.state
      simp only [step, hp, resume]
      generalize handleLoginResume env out c.state = r at hl ⊢
      obtain ⟨s1, req⟩ := r
      cases req <;> exact hl
    · exact (frame_step env e c h1
        (fun index out request he hp => h2 ⟨index, out, request, he, hp⟩)).flag_eq

/-- Witness of `publishing_flag_written_by_push_only`: a click on the logout
button is no `publishing_status` event and leaves the flag of the sample page
`false`. -/
theorem publishing_flag_written_by_push_only_witness :
    flag (step Env.sample (.logoutClick) ⟨State.sample, []⟩).state = .bool false :=
  (publishing_flag_written_by_push_only Env.sample .logoutClick ⟨State.sample, []⟩
    (.failed "Failed to fetch") State.sample (.bool true)).2.2.2.2.2 (fun _ h => nomatch h)

/-- C8: after a `publishing_status` event with `isPublishing = b`, whatever
the buttons showed before and whatever requests are in flight, the start
button is visible iff `b` is false, the stop button iff `b` is true, exactly
one of the two is visible, and the start button is disabled iff `b` is true;
with `b` true only the stop button is visible.  The requests in flight are not
touched. -/
theorem publishing_status_buttons (env : Env) (b : Bool) (c : Config) :
    ((step env (.publishingStatus (.bool b)) c).state.dom.startBtnDisplay ≠ "none" ↔ b = false)
    ∧ ((step env (.publishingStatus (.bool b)) c).state.dom.stopBtnDisplay ≠ "none" ↔ b = true)
    ∧ ((step env (.publishingStatus (.bool b)) c).state.dom.startBtnDisplay ≠ "none"
        ↔ ¬ (step env (.publishingStatus (.bool b)) c).state.dom.stopBtnDisplay ≠ "none")
    ∧ ((step env (.publishingStatus (.bool b)) c).state.dom.startBtnDisabled = true ↔ b = true)
    ∧ (step env (.publishingStatus (.bool true)) c).state.dom.startBtnDisplay = "none"
    ∧ (step env (.publishingStatus (.bool true)) c).state.dom.stopBtnDisplay = "inline-flex"
    ∧ (step env (.publishingStatus (.bool b)) c).pending = c.pending := by
  cases b <;> simp [step, onPublishingStatus, updatePublishingUI, JVal.truthy]

/-! ## The token invariant (C9) -/

theorem tokenInvariant_of_frame {s t : State} (h : Frame s t) (hs : TokenInvariant s) :
    TokenInvariant t := by
  rcases h with h | h
  · simp only [session, Prod.mk.injEq] at h
    unfold TokenInvariant
    rw [h.1, h.2.1, h.2.2.1]
    exact hs
  · simp only [session, Prod.mk.injEq] at h
    exact Or.inl ⟨h.1, h.2.1, h.2.2.1⟩

theorem tokenInvariant_loadInitialData (s : State)
    (h : s.dom.loginContainerDisplay = "none" ∧ s.dom.appContainerDisplay = "grid") :
    TokenInvariant (loadInitialData s).1 := by
  unfold loadInitialData
  cases ht : s.clientState.token.truthy
  · exact Or.inl ⟨rfl, rfl, rfl⟩
  · exact Or.inr ⟨ht, h.1, h.2⟩

theorem showApp_view (env : Env) (s : State) :
    (showApp env s).1.dom.loginContainerDisplay = "none"
    ∧ (showApp env s).1.dom.appContainerDisplay = "grid"
    ∧ (showApp env s).1.clientState = s.clientState := by
  simp only [showApp]
  repeat' split
  all_goals exact ⟨rfl, rfl, rfl⟩

theorem showApp_ok (env : Env) (s : State)
    (h : s.clientState.name.truthy = true → ∃ t, s.clientState.name = .str t) :
    (showApp env s).2 = .ok () := by
  simp only [showApp]
  split
  · rename_i ht
    obtain ⟨t, hn⟩ := h ht
    simp [hn, strMethod]
  · rfl

theorem tokenInvariant_handleLoginResume (env : Env) (out : FetchOutcome JVal) (s : State)
    (hn : loginReplyNamed out) (hs : TokenInvariant s) :
    TokenInvariant (handleLoginResume env out s).1 := by
  unfold handleLoginResume
  split
  · exact tokenInvariant_of_frame (Frame.same rfl) hs
  · rename_i r
    split
    · exact tokenInvariant_of_frame (Frame.same rfl) hs
    · rename_i data hj
      split
      · split
        · rename_i accessToken clientId clientName _ _ hc
          simp only
          have hv := showApp_view env
            { s with
              clientState := { token := accessToken, id := clientId, name := clientName }
              jwtToken := some accessToken.toStr }
          have ho := showApp_ok env
            { s with
              clientState := { token := accessToken, id := clientId, name := clientName }
              jwtToken := some accessToken.toStr } (hn r data rfl hj clientName hc)
          generalize showApp env
            { s with
              clientState := { token := accessToken, id := clientId, name := clientName }
              jwtToken := some accessToken.toStr } = p at hv ho ⊢
          obtain ⟨s2, res⟩ := p
          simp only at ho
          subst ho
          simp only
          have hl := tokenInvariant_loadInitialData s2 ⟨hv.1, hv.2.1⟩
          generalize loadInitialData s2 = q at hl ⊢
          obtain ⟨s3, req⟩ := q
          cases req with
          | none => exact tokenInvariant_of_frame (Frame.same rfl) hl
          | some request => exact hl
        · exact tokenInvariant_of_frame (Frame.same rfl) hs
      · split <;> exact tokenInvariant_of_frame (Frame.same rfl) hs

theorem tokenInvariant_domContentLoaded (env : Env) (s : State)
    (hname : s.clientState.name = .null) : TokenInvariant (domContentLoaded env s).1 := by
  unfold domContentLoaded
  split
  · exact Or.inl ⟨rfl, rfl, rfl⟩
  · rename_i token _
    split
    · exact Or.inl ⟨rfl, rfl, rfl⟩
    · have hv := showApp_view env
        { s with clientState := { s.clientState with token := .str token } }
      have ho := showApp_ok env
        { s with clientState := { s.clientState with token := .str token } }
        (by simp [hname, JVal.truthy])
      generalize showApp env
        { s with clientState := { s.clientState with token := .str token } } = p at hv ho ⊢
      obtain ⟨s1, res⟩ := p
      simp only at ho
      subst ho
      exact tokenInvariant_loadInitialData s1 ⟨hv.1, hv.2.1⟩

theorem tokenInvariant_pageLoad (env : Env) (stored : Option String) (dom : Dom) :
    TokenInvariant (pageLoad env stored dom).state := by
  simp only [pageLoad, issue_state]
  exact tokenInvariant_domContentLoaded env _ rfl

theorem tokenInvariant_step (env : Env) (e : Event) (c : Config) (ha : e.Admissible c)
    (hs : TokenInvariant c.state) : TokenInvariant (step env e c).state := by
  by_cases h1 : ∃ v, e = .publishingStatus v
  · obtain ⟨v, rfl⟩ := h1
    simp only [step, onPublishingStatus, updatePublishingUI]
    split <;> exact hs
  · by_cases h2 : ∃ index out request, e = .settle index out
        ∧ c.pending.get? index = some (request, .login)
    · obtain ⟨index, out, request, rfl, hp⟩ := h2
      have hn := ha index out request rfl hp
      have hl := tokenInvariant_handleLoginResume env out c.state hn hs
      simp only [step, hp, resume]
      generalize handleLoginResume env out c.state = r at hl ⊢
      obtain ⟨s1, req⟩ := r
      cases req <;> exact hl
    · refine tokenInvariant_of_frame (frame_step env e c ?_ ?_) hs
      · intro v hv; exact h1 ⟨v, hv⟩
      · intro index out request he hp; exact h2 ⟨index, out, request, he, hp⟩

theorem tokenInvariant_reachable (env : Env) (c : Config) (h : Reachable env c) :
    TokenInvariant c.state := by
  induction h with
  | load stored dom => exact tokenInvariant_pageLoad env stored dom
  | next e c _ ha ih => exact tokenInvariant_step env e c ha ih

/-- C9 fails as stated: a login answered 200 with a body that names the client
by a number and carries no token leaves the page in the authenticated view
without a token, `showApp` having switched the containers before `substring`
raised; so does a body whose `access_token` is `null`. -/
theorem token_invariant_fails_on_unnamed_login :
    (loginAnswered (.obj [("clientName", .num 5)])).state.clientState.token = .undefined
    ∧ (loginAnswered (.obj [("clientName", .num 5)])).state.dom.appContainerDisplay = "grid"
    ∧ (loginAnswered (.obj [("clientName", .num 5)])).state.dom.loginContainerDisplay = "none"
    ∧ (loginAnswered
        (.obj [("access_token", .null), ("clientName", .num 5)])).state.clientState.token = .null
    ∧ (loginAnswered
        (.obj [("access_token", .null), ("clientName", .num 5)])).state.dom.appContainerDisplay
          = "grid"
    ∧ (loginAnswered
        (.obj [("access_token", .null), ("clientName", .num 5)])).state.dom.loginContainerDisplay
          = "none"
    ∧ authenticatedView
        (loginAnswered (.obj [("access_token", .null), ("clientName", .num 5)])).state
    ∧ ¬ ((loginAnswered
          (.obj [("access_token", .null), ("clientName", .num 5)])).state.clientState.token ≠ .null
        ↔ authenticatedView
          (loginAnswered (.obj [("access_token", .null), ("clientName", .num 5)])).state) := by
  have hview : authenticatedView
      (loginAnswered (.obj [("access_token", .null), ("clientName", .num 5)])).state :=
    ⟨by decide, by decide⟩
  refine ⟨by decide, by decide, by decide, by decide, by decide, by decide, hview, fun h => ?_⟩
  exact h.mpr hview (by decide)

/-- C9, as amended: in every page reachable from a page load while each
login reply that names the client names it by a string, `clientState.token`
is non-null iff the authenticated view is shown and `null` iff the login view
is shown, and a token that is not `null` is truthy; `handleLogout` and
`showLogin` clear the token and show the login view together. -/
theorem token_invariant (env : Env) (c : Config) (h : Reachable env c) (s : State) :
    (c.state.clientState.token ≠ .null ↔ authenticatedView c.state)
    ∧ (c.state.clientState.token = .null ↔ loginView c.state)
    ∧ (c.state.clientState.token.truthy = true ↔ authenticatedView c.state)
    ∧ (handleLogout s).clientState.token = .null ∧ loginView (handleLogout s)
    ∧ (showLogin s).clientState.token = .null ∧ loginView (showLogin s) := by
  have hlv : ("flex" : String) ≠ "none" := by decide
  have hgv : ("grid" : String) ≠ "none" := by decide
  refine ⟨?_, ?_, ?_, rfl, ⟨hlv, rfl⟩, rfl, ⟨hlv, rfl⟩⟩
  · rcases tokenInvariant_reachable env c h with ⟨ht, hl, ha⟩ | ⟨ht, hl, ha⟩
    · simp [authenticatedView, ht, hl, ha]
    · have hne : c.state.clientState.token ≠ .null := by
        intro h0; rw [h0] at ht; exact absurd ht (by decide)
      simp [authenticatedView, hne, hl, ha]
  · rcases tokenInvariant_reachable env c h with ⟨ht, hl, ha⟩ | ⟨ht, hl, ha⟩
    · simp [loginView, ht, hl, ha]
    · have hne : c.state.clientState.token ≠ .null := by
        intro h0; rw [h0] at ht; exact absurd ht (by decide)
      simp [loginView, hne, hl, ha]
  · rcases tokenInvariant_reachable env c h with ⟨ht, hl, ha⟩ | ⟨ht, hl, ha⟩
    · simp [authenticatedView, ht, hl, ha, JVal.truthy]
    · simp [authenticatedView, ht, hl, ha]

/-- Witness of `token_invariant`: the page loaded with a stored token shows
the authenticated view. -/
theorem token_invariant_witness :
    authenticatedView (pageLoad Env.sample (some "t0k") Dom.blank).state :=
  (token_invariant Env.sample _ (Reachable.load (some "t0k") Dom.blank) State.sample).1.1
    (by decide)

/-! ## Auth failure and the sync without a token (C2, C10) -/

theorem sessionExpired_idem (s : State) : sessionExpired (sessionExpired s) = sessionExpired s := by
  obtain ⟨socket, orphans, cs, as, jwt, dom⟩ := s
  cases socket with
  | none => rfl
  | some st => cases st <;> rfl

theorem sessionExpired_showLoading (b : Bool) (s : State) :
    sessionExpired (showLoading b s) = showLoading b (sessionExpired s) := by
  obtain ⟨socket, orphans, cs, as, jwt, dom⟩ := s
  cases socket with
  | none => rfl
  | some st => cases st <;> rfl

theorem status_not_ok {β : Type} (r : Response β) (h : r.status = 401 ∨ r.status = 422) :
    r.ok = false := by
  rcases h with h | h <;> simp [Response.ok, h]

/-- What the handling of a 401 or 422 reply does reach, for `apiRequest` on
any endpoint and for the sync: `clientState` all `null`, the stored token
removed and the login view shown; the current socket is disconnected when it
was connected and left as it is otherwise, one still connecting included.
Handling the same reply a second time changes nothing. -/
theorem auth_failure_converges (env : Env) (endpoint : String) (r : Response JVal)
    (q : Response Obj) (s : State)
    (hr : r.status = 401 ∨ r.status = 422) (hq : q.status = 401 ∨ q.status = 422) :
    (apiRequestResume endpoint (.reply r) s).1 = sessionExpired s
    ∧ loadInitialDataResume env (.reply q) s = showLoading false (sessionExpired s)
    ∧ (sessionExpired s).clientState = { id := .null, name := .null, token := .null }
    ∧ (sessionExpired s).jwtToken = none
    ∧ loginView (sessionExpired s)
    ∧ (sessionExpired s).socket ≠ some .connected
    ∧ (s.socket = some .connected → (sessionExpired s).socket = some .disconnected)
    ∧ (s.socket ≠ some .connected → (sessionExpired s).socket = s.socket)
    ∧ sessionExpired (sessionExpired s) = sessionExpired s
    ∧ (apiRequestResume endpoint (.reply r) (sessionExpired s)).1 = sessionExpired s
    ∧ loadInitialDataResume env (.reply q) (showLoading false (sessionExpired s))
        = showLoading false (sessionExpired s) := by
  have h1 : ∀ t, (apiRequestResume endpoint (.reply r) t).1 = sessionExpired t := by
    intro t
    simp only [apiRequestResume, status_not_ok r hr, hr]
    cases hj : r.json with
    | error m => simp
    | ok d => cases hm : d.getProp "msg" <;> simp [hm]
  have h2 : ∀ t, loadInitialDataResume env (.reply q) t = showLoading false (sessionExpired t) := by
    intro t
    simp [loadInitialDataResume, loadInitialDataTry, status_not_ok q hq, hq]
  refine ⟨h1 s, h2 s, rfl, rfl, ⟨?_, rfl⟩, ?_, ?_, ?_, sessionExpired_idem s, ?_, ?_⟩
  · show ("flex" : String) ≠ "none"
    decide
  · show (disconnectIfConnected _).socket ≠ _
    unfold disconnectIfConnected
    split
    · simp
    · rename_i h; exact h
  · intro h
    show (disconnectIfConnected _).socket = _
    unfold disconnectIfConnected
    split
    · rfl
    · rename_i hne; exact absurd h hne
  · intro h
    show (disconnectIfConnected _).socket = _
    unfold disconnectIfConnected
    split
    · rename_i h'; exact absurd h' h
    · rfl
  · rw [h1, sessionExpired_idem]
  · rw [h2, sessionExpired_showLoading, sessionExpired_idem]
    rfl

/-- Witness of `auth_failure_converges`: a 422 reply on the sample page
disconnects its connected socket. -/
theorem auth_failure_converges_witness :
    (apiRequestResume "/api/texts/9" (.reply ⟨422, none, .ok (.obj [("msg", .str "Bad token")])⟩)
        State.sample).1.socket = some .disconnected :=
  ((auth_failure_converges Env.sample "/api/texts/9"
      ⟨422, none, .ok (.obj [("msg", .str "Bad token")])⟩ ⟨401, none, .ok []⟩ State.sample
      (Or.inr rfl) (Or.inl rfl)).1 ▸
    (auth_failure_converges Env.sample "/api/texts/9"
      ⟨422, none, .ok (.obj [("msg", .str "Bad token")])⟩ ⟨401, none, .ok []⟩ State.sample
      (Or.inr rfl) (Or.inl rfl)).2.2.2.2.2.2.1 rfl)

/-- C2, the code at a failing input: a session resumed from a stored token
opens its socket and starts the sync; when the sync is answered 401 before the
socket has connected, the session is cleared and the login view shown, but the
socket is not closed: it is still connecting and connects afterwards. On a
page with two connected sockets, the earlier one left behind by
`connectWebSocket`, a 401 disconnects the current socket only. -/
theorem auth_failure_leaves_connecting_socket :
    (pageLoad Env.sample (some "t0k") Dom.blank).state.socket = some .connecting
    ∧ (step Env.sample (.settleSync 0 (.reply ⟨401, none, .ok []⟩))
        (pageLoad Env.sample (some "t0k") Dom.blank)).state.socket = some .connecting
    ∧ (step Env.sample (.settleSync 0 (.reply ⟨401, none, .ok []⟩))
        (pageLoad Env.sample (some "t0k") Dom.blank)).state.clientState
          = { id := .null, name := .null, token := .null }
    ∧ (step Env.sample (.settleSync 0 (.reply ⟨401, none, .ok []⟩))
        (pageLoad Env.sample (some "t0k") Dom.blank)).state.jwtToken = none
    ∧ (step Env.sample (.settleSync 0 (.reply ⟨401, none, .ok []⟩))
        (pageLoad Env.sample (some "t0k") Dom.blank)).state.dom.loginContainerDisplay = "flex"
    ∧ (run Env.sample [.settleSync 0 (.reply ⟨401, none, .ok []⟩), .socketConnect none]
        (pageLoad Env.sample (some "t0k") Dom.blank)).state.socket = some .connected
    ∧ authFailureWithTwoSockets.state.clientState.token = .null
    ∧ authFailureWithTwoSockets.state.socket = some .disconnected
    ∧ authFailureWithTwoSockets.state.orphans = [.connected] := by
  decide

/-- Without a token `loadInitialData` issues no request, leaves the dataset as
it is, clears the session and the stored token and shows the login view; the
socket is left as it is. -/
theorem loadInitialData_without_token (s : State) (h : s.clientState.token.truthy = false) :
    (loadInitialData s).2 = none
    ∧ (loadInitialData s).1.appState = s.appState
    ∧ (loadInitialData s).1.clientState = { id := .null, name := .null, token := .null }
    ∧ (loadInitialData s).1.jwtToken = none
    ∧ loginView (loadInitialData s).1
    ∧ (loadInitialData s).1.socket = s.socket
    ∧ (loadInitialData s).1.orphans = s.orphans := by
  have hlv : ("flex" : String) ≠ "none" := by decide
  simp only [loadInitialData, h]
  exact ⟨rfl, rfl, rfl, rfl, ⟨hlv, rfl⟩, rfl, rfl⟩

theorem reachable_run (env : Env) (events : List Event) (c : Config)
    (hs : ∀ e ∈ events, ∀ index out, e ≠ .settle index out) (h : Reachable env c) :
    Reachable env (run env events c) := by
  induction events generalizing c with
  | nil => exact h
  | cons e rest ih =>
    refine ih (step env e c) (fun e1 h1 => hs e1 (List.mem_cons_of_mem _ h1)) ?_
    exact Reachable.next e c h
      (fun index out _ he _ => absurd he (hs e (List.mem_cons_self _ _) index out))

/-- C10, the code at a failing input: the page `logoutWhileConnecting` is
reachable, has no token and its socket is connected; `loadInitialData` sends no request
and leaves the socket connected, where `handleLogout` would disconnect it; so
does the delete continuation that calls it. -/
theorem loadInitialData_without_token_keeps_socket :
    Reachable Env.sample logoutWhileConnecting
    ∧ logoutWhileConnecting.state.clientState.token = .null
    ∧ logoutWhileConnecting.state.socket = some .connected
    ∧ (loadInitialData logoutWhileConnecting.state).2 = none
    ∧ (loadInitialData logoutWhileConnecting.state).1.socket = some .connected
    ∧ (handleLogout logoutWhileConnecting.state).socket = some .disconnected
    ∧ (step Env.sample (.settle 0 (.reply ⟨200, none, .ok (.obj [("msg", .str "ok")])⟩))
        logoutWhileConnecting).state.socket = some .connected := by
  refine ⟨reachable_run _ _ _ ?_ (Reachable.load _ _), ?_⟩
  · intro e he index out
    simp only [List.mem_cons, List.mem_singleton, List.not_mem_nil, or_false] at he
    rcases he with rfl | rfl | rfl | rfl <;> exact fun h => nomatch h
  · decide

/-! ## Sync failure (C12) -/

theorem disconnectIfConnected_dom (s : State) : (disconnectIfConnected s).dom = s.dom := by
  unfold disconnectIfConnected; split <;> rfl

theorem disconnectIfConnected_appState (s : State) :
    (disconnectIfConnected s).appState = s.appState := by
  unfold disconnectIfConnected; split <;> rfl

theorem disconnectIfConnected_socket (s : State) :
    (disconnectIfConnected s).socket
      = if s.socket = some .connected then some .disconnected else s.socket := by
  unfold disconnectIfConnected
  split
  · rename_i h; simp [h]
  · rename_i h
    have : s.socket ≠ some .connected := fun h' => h h'
    simp [this]

theorem handleLogout_appState (s : State) : (handleLogout s).appState = s.appState :=
  disconnectIfConnected_appState s

theorem sessionExpired_appState (s : State) : (sessionExpired s).appState = s.appState :=
  disconnectIfConnected_appState _

/-- Whatever the outcome, `apiRequest` leaves `appState` as it is. -/
theorem apiRequestResume_appState (endpoint : String) (out : FetchOutcome JVal) (s : State) :
    (apiRequestResume endpoint out s).1.appState = s.appState := by
  unfold apiRequestResume
  repeat' split
  all_goals first
    | rfl
    | exact sessionExpired_appState _

theorem loadInitialDataCatch_eq (s : State) :
    (loadInitialDataCatch s).dom.statusText = "Desconectado"
    ∧ (loadInitialDataCatch s).dom.statusDot = "status-dot inactive"
    ∧ (loadInitialDataCatch s).dom.notification
        = some ⟨"Error de Conexión",
            .str "No se pudieron cargar los datos. Revisa tu conexión.", "error"⟩
    ∧ (loadInitialDataCatch s).clientState = { id := .null, name := .null, token := .null }
    ∧ (loadInitialDataCatch s).jwtToken = none
    ∧ (loadInitialDataCatch s).dom.loginContainerDisplay = "flex"
    ∧ (loadInitialDataCatch s).dom.appContainerDisplay = "none"
    ∧ (loadInitialDataCatch s).appState = s.appState := by
  refine ⟨?_, ?_, ?_, rfl, rfl, rfl, rfl, ?_⟩
  · show (showLogin (disconnectIfConnected _)).dom.statusText = _
    simp [showLogin, disconnectIfConnected_dom, updateStatus]
  · show (showLogin (disconnectIfConnected _)).dom.statusDot = _
    simp [showLogin, disconnectIfConnected_dom, updateStatus]
  · show (showLogin (disconnectIfConnected _)).dom.notification = _
    simp [showLogin, disconnectIfConnected_dom, updateStatus, showNotification]
  · rw [loadInitialDataCatch, handleLogout_appState]
    rfl

/-- What a sync that fails otherwise than by a 401 or 422 leaves. -/
theorem sync_failure_state (env : Env) (out : FetchOutcome Obj) (s : State)
    (h : (∃ m, out = .failed m)
      ∨ (∃ r, out = .reply r ∧ r.ok = false ∧ r.status ≠ 401 ∧ r.status ≠ 422)) :
    (loadInitialDataResume env out s).dom.statusText = "Desconectado"
    ∧ (loadInitialDataResume env out s).dom.statusDot = "status-dot inactive"
    ∧ (loadInitialDataResume env out s).dom.notification
        = some ⟨"Error de Conexión",
            .str "No se pudieron cargar los datos. Revisa tu conexión.", "error"⟩
    ∧ (loadInitialDataResume env out s).clientState
        = { id := .null, name := .null, token := .null }
    ∧ (loadInitialDataResume env out s).jwtToken = none
    ∧ loginView (loadInitialDataResume env out s)
    ∧ (loadInitialDataResume env out s).appState = s.appState
    ∧ (loadInitialDataResume env out s).dom.loading = false := by
  have hr : loadInitialDataResume env out s = showLoading false (loadInitialDataCatch s) := by
    rcases h with ⟨m, rfl⟩ | ⟨r, rfl, hok, h1, h2⟩
    · rfl
    · simp only [loadInitialDataResume, loadInitialDataTry, hok]
      cases hj : r.json <;> simp [h1, h2]
  obtain ⟨c1, c2, c3, c4, c5, c6, c7, c8⟩ := loadInitialDataCatch_eq s
  have hflex : ("flex" : String) ≠ "none" := by decide
  rw [hr]
  refine ⟨c1, c2, c3, c4, c5, ⟨?_, c7⟩, c8, rfl⟩
  show (loadInitialDataCatch s).dom.loginContainerDisplay ≠ "none"
  rw [c6]
  exact hflex

/-- C12: when the sync fails otherwise than by a 401 or 422, because the fetch
itself fails or because the status is outside 2xx, `loadInitialData` shows
the connection as disconnected, shows the connection-error notification,
clears the session and the stored token, shows the login view, hides the
loading overlay and leaves `appState` as it was. -/
theorem sync_failure_forces_logout (env : Env) (out : FetchOutcome Obj) (s : State)
    (h : (∃ m, out = .failed m)
      ∨ (∃ r, out = .reply r ∧ r.ok = false ∧ r.status ≠ 401 ∧ r.status ≠ 422)) :
    (loadInitialDataResume env out s).dom.statusText = "Desconectado"
    ∧ (loadInitialDataResume env out s).dom.statusDot = "status-dot inactive"
    ∧ (loadInitialDataResume env out s).dom.notification
        = some ⟨"Error de Conexión",
            .str "No se pudieron cargar los datos. Revisa tu conexión.", "error"⟩
    ∧ (loadInitialDataResume env out s).clientState
        = { id := .null, name := .null, token := .null }
    ∧ (loadInitialDataResume env out s).jwtToken = none
    ∧ loginView (loadInitialDataResume env out s)
    ∧ (loadInitialDataResume env out s).appState = s.appState
    ∧ (loadInitialDataResume env out s).dom.loading = false :=
  sync_failure_state env out s h

/-- Witness of `sync_failure_forces_logout`: a 500 reply to the sync of the
sample page. -/
theorem sync_failure_forces_logout_witness :
    (loadInitialDataResume Env.sample (.reply ⟨500, none, .ok [("msg", .str "boom")]⟩)
      State.sample).dom.statusText = "Desconectado" :=
  (sync_failure_forces_logout Env.sample (.reply ⟨500, none, .ok [("msg", .str "boom")]⟩)
    State.sample (Or.inr ⟨_, rfl, by decide, by decide, by decide⟩)).1

/-! ## Failed calls are discarded (C14) -/

theorem apiRequestResume_eq_of_error (endpoint : String) (out : FetchOutcome JVal) (s : State)
    (e : JsError) (h : (apiRequestResume endpoint out s).2 = .error e) :
    apiRequestResume endpoint out s = ((apiRequestResume endpoint out s).1, .error e) := by
  rw [← h]

theorem discarded_catchFinally (words : String) (e : JsError) (s t : State)
    (h : t.appState = s.appState) : Discarded words e s (catchFinally words e t) :=
  ⟨congrArg AppState.data h, rfl⟩

theorem addManualTextResume_discards (env : Env) (out : FetchOutcome JVal) (s : State)
    (e : JsError) (h : (apiRequestResume "/api/texts" out s).2 = .error e) :
    Discarded "No se pudo añadir el texto: " e s (addManualTextResume env out s) := by
  unfold addManualTextResume
  rw [apiRequestResume_eq_of_error _ _ _ _ h]
  exact discarded_catchFinally _ _ _ _ (apiRequestResume_appState _ _ _)

theorem generateAiTextsResume_discards (env : Env) (count : JVal) (out : FetchOutcome JVal)
    (s : State) (e : JsError) (h : (apiRequestResume "/api/texts/generate-ai" out s).2 = .error e) :
    Discarded "No se pudieron generar los textos: " e s
      (generateAiTextsResume env count out s) := by
  unfold generateAiTextsResume
  rw [apiRequestResume_eq_of_error _ _ _ _ h]
  exact discarded_catchFinally _ _ _ _ (apiRequestResume_appState _ _ _)

theorem saveTextUpdateResume_discards (env : Env) (id : JVal) (out : FetchOutcome JVal)
    (s : State) (e : JsError)
    (h : (apiRequestResume ("/api/texts/" ++ id.toStr) out s).2 = .error e) :
    Discarded "No se pudo guardar el texto: " e s (saveTextUpdateResume env id out s) := by
  unfold saveTextUpdateResume
  rw [apiRequestResume_eq_of_error _ _ _ _ h]
  exact discarded_catchFinally _ _ _ _ (apiRequestResume_appState _ _ _)

theorem uploadSelectedImagesResume_discards (out : FetchOutcome JVal) (s : State) (e : JsError)
    (h : (apiRequestResume "/api/images/upload" out s).2 = .error e) :
    Discarded "No se pudieron subir las imágenes: " e s (uploadSelectedImagesResume out s) := by
  unfold uploadSelectedImagesResume
  rw [apiRequestResume_eq_of_error _ _ _ _ h]
  exact ⟨congrArg AppState.data (apiRequestResume_appState _ _ _), rfl⟩

theorem addSingleGroupResume_discards (env : Env) (out : FetchOutcome JVal) (s : State)
    (e : JsError) (h : (apiRequestResume "/api/groups" out s).2 = .error e) :
    Discarded "No se pudo añadir: " e s (addSingleGroupResume env out s) := by
  unfold addSingleGroupResume
  rw [apiRequestResume_eq_of_error _ _ _ _ h]
  exact discarded_catchFinally _ _ _ _ (apiRequestResume_appState _ _ _)

theorem importBulkGroupsResume_discards (env : Env) (out : FetchOutcome JVal) (s : State)
    (e : JsError) (h : (apiRequestResume "/api/groups/bulk" out s).2 = .error e) :
    Discarded "Error al importar: " e s (importBulkGroupsResume env out s) := by
  unfold importBulkGroupsResume
  rw [apiRequestResume_eq_of_error _ _ _ _ h]
  exact discarded_catchFinally _ _ _ _ (apiRequestResume_appState _ _ _)

theorem addPageResume_discards (env : Env) (out : FetchOutcome JVal) (s : State)
    (e : JsError) (h : (apiRequestResume "/api/pages" out s).2 = .error e) :
    Discarded "No se pudo añadir: " e s (addPageResume env out s) := by
  unfold addPageResume
  rw [apiRequestResume_eq_of_error _ _ _ _ h]
  exact discarded_catchFinally _ _ _ _ (apiRequestResume_appState _ _ _)

theorem schedulePostResume_discards (env : Env) (out : FetchOutcome JVal) (s : State)
    (e : JsError) (h : (apiRequestResume "/api/scheduled_posts" out s).2 = .error e) :
    Discarded "No se pudo programar: " e s (schedulePostResume env out s) := by
  unfold schedulePostResume
  rw [apiRequestResume_eq_of_error _ _ _ _ h]
  exact discarded_catchFinally _ _ _ _ (apiRequestResume_appState _ _ _)

theorem deleteItemResume_discards (type : String) (id : JVal) (out : FetchOutcome JVal)
    (s : State) (e : JsError)
    (h : (apiRequestResume (deleteEndpoint type id) out s).2 = .error e) :
    Discarded "No se pudo eliminar el elemento: " e s (deleteItemResume type id out s).1
    ∧ (deleteItemResume type id out s).2 = none := by
  unfold deleteItemResume
  rw [apiRequestResume_eq_of_error _ _ _ _ h]
  exact ⟨discarded_catchFinally _ _ _ _ (apiRequestResume_appState _ _ _), rfl⟩

theorem publishingResume_discards (endpoint words : String) (out : FetchOutcome JVal)
    (s : State) (e : JsError) (h : (apiRequestResume endpoint out s).2 = .error e) :
    Discarded words e s (publishingResume endpoint words out s) := by
  unfold publishingResume
  rw [apiRequestResume_eq_of_error _ _ _ _ h]
  exact ⟨congrArg AppState.data (apiRequestResume_appState _ _ _), rfl⟩

/-- A reply outside 2xx makes `apiRequest` raise, after the session-expired
handling when the status is 401 or 422. -/
theorem apiRequest_failure_state (endpoint : String) (r : Response JVal) (s : State)
    (h : r.ok = false) :
    (∃ e, (apiRequestResume endpoint (.reply r) s).2 = .error e)
    ∧ (apiRequestResume endpoint (.reply r) s).1
        = (if r.status = 401 ∨ r.status = 422 then sessionExpired s else s) := by
  refine ⟨?_, ?_⟩
  · simp only [apiRequestResume, h]
    cases hj : r.json with
    | error m => exact ⟨_, rfl⟩
    | ok d =>
      cases hm : d.getProp "msg" with
      | error e => simp [hm]
      | ok msg => simp [hm]
  · simp only [apiRequestResume, h]
    cases hj : r.json with
    | error m => simp
    | ok d => cases hm : d.getProp "msg" <;> simp [hm]

/-- C14: when the `apiRequest` call of a mutating handler raises the error
`e`, whatever the failure (a status outside 2xx, 401 and 422 included, or a
fetch that fails), `appState.data` is what it was and the notification shown
is the error notification with the handler's words followed by `e`'s message;
so for the eight list handlers, for `deleteItem` and for the start and stop of
group publishing.  After a 422 on `PUT /api/texts/9` the session is cleared
and the login view shown as well. -/
theorem failed_call_discarded (env : Env) (id count : JVal) (type : String)
    (out : FetchOutcome JVal) (s : State) (e : JsError) (r : Response JVal) :
    ((apiRequestResume "/api/texts" out s).2 = .error e →
        Discarded "No se pudo añadir el texto: " e s (addManualTextResume env out s))
    ∧ ((apiRequestResume "/api/texts/generate-ai" out s).2 = .error e →
        Discarded "No se pudieron generar los textos: " e s
          (generateAiTextsResume env count out s))
    ∧ ((apiRequestResume ("/api/texts/" ++ id.toStr) out s).2 = .error e →
        Discarded "No se pudo guardar el texto: " e s (saveTextUpdateResume env id out s))
    ∧ ((apiRequestResume "/api/images/upload" out s).2 = .error e →
        Discarded "No se pudieron subir las imágenes: " e s (uploadSelectedImagesResume out s))
    ∧ ((apiRequestResume "/api/groups" out s).2 = .error e →
        Discarded "No se pudo añadir: " e s (addSingleGroupResume env out s))
    ∧ ((apiRequestResume "/api/groups/bulk" out s).2 = .error e →
        Discarded "Error al importar: " e s (importBulkGroupsResume env out s))
    ∧ ((apiRequestResume "/api/pages" out s).2 = .error e →
        Discarded "No se pudo añadir: " e s (addPageResume env out s))
    ∧ ((apiRequestResume "/api/scheduled_posts" out s).2 = .error e →
        Discarded "No se pudo programar: " e s (schedulePostResume env out s))
    ∧ ((apiRequestResume (deleteEndpoint type id) out s).2 = .error e →
        Discarded "No se pudo eliminar el elemento: " e s (deleteItemResume type id out s).1)
    ∧ ((apiRequestResume "/api/publishing/start" out s).2 = .error e →
        Discarded "No se pudo iniciar la publicación: " e s (startGroupPublishingResume out s))
    ∧ ((apiRequestResume "/api/publishing/stop" out s).2 = .error e →
        Discarded "No se pudo detener la publicación: " e s (stopGroupPublishingResume out s))
    ∧ (r.status = 422 →
        (saveTextUpdateResume env (.num 9) (.reply r) s).appState.data = s.appState.data
        ∧ (saveTextUpdateResume env (.num 9) (.reply r) s).clientState
            = { id := .null, name := .null, token := .null }
        ∧ (saveTextUpdateResume env (.num 9) (.reply r) s).jwtToken = none
        ∧ loginView (saveTextUpdateResume env (.num 9) (.reply r) s)
        ∧ ∃ n, (saveTextUpdateResume env (.num 9) (.reply r) s).dom.notification = some n
            ∧ n.title = "Error" ∧ n.type = "error") := by
  refine ⟨addManualTextResume_discards env out s e, generateAiTextsResume_discards env count out s e,
    saveTextUpdateResume_discards env id out s e, uploadSelectedImagesResume_discards out s e,
    addSingleGroupResume_discards env out s e, importBulkGroupsResume_discards env out s e,
    addPageResume_discards env out s e, schedulePostResume_discards env out s e,
    fun h => (deleteItemResume_discards type id out s e h).1,
    publishingResume_discards _ _ out s e, publishingResume_discards _ _ out s e, fun h422 => ?_⟩
  have hok : r.ok = false := status_not_ok r (Or.inr h422)
  have hf := apiRequest_failure_state ("/api/texts/" ++ (JVal.num 9).toStr) r s hok
  obtain ⟨⟨e1, he1⟩, hs1⟩ := hf
  simp only [h422, or_true, if_true] at hs1
  have hd := saveTextUpdateResume_discards env (.num 9) (.reply r) s e1 he1
  have hrw : saveTextUpdateResume env (.num 9) (.reply r) s
      = catchFinally "No se pudo guardar el texto: " e1 (sessionExpired s) := by
    unfold saveTextUpdateResume
    rw [apiRequestResume_eq_of_error _ _ _ _ he1, hs1]
  refine ⟨hd.1, ?_, ?_, ?_, _, hd.2, rfl, rfl⟩
  · rw [hrw]; rfl
  · rw [hrw]; rfl
  · rw [hrw]; exact ⟨by show ("flex" : String) ≠ "none"; decide, rfl⟩

/-- Witness of `failed_call_discarded`: a fetch that fails while a text is
being added to the sample page. -/
theorem failed_call_discarded_witness :
    Discarded "No se pudo añadir el texto: " (.typeError "Failed to fetch") State.sample
      (addManualTextResume Env.sample (.failed "Failed to fetch") State.sample) :=
  (failed_call_discarded Env.sample (.num 9) (.num 5) "texts" (.failed "Failed to fetch")
    State.sample (.typeError "Failed to fetch") ⟨422, none, .ok .null⟩).1 rfl

/-! ## Delete and logout (C13, C15) -/

/-- C13 fails as stated: the user confirms a delete and logs out while the
call is in flight; the call succeeds, `loadInitialData` finds no token, and no
sync request follows. -/
theorem deleteItem_without_token_sends_no_sync :
    logoutWhileConnecting.pending
      = [({ url := "https://34.55.41.159.sslip.io/api/items/texts/5", method := "DELETE",
            headers := [("Authorization", "Bearer t0k")], body := none },
          .deleteItem "texts" (.num 5))]
    ∧ (apiRequestResume (deleteEndpoint "texts" (.num 5))
        (.reply ⟨200, none, .ok (.obj [("msg", .str "ok")])⟩) logoutWhileConnecting.state).2
        = .ok (.obj [("msg", .str "ok")])
    ∧ (step Env.sample (.settle 0 (.reply ⟨200, none, .ok (.obj [("msg", .str "ok")])⟩))
        logoutWhileConnecting).pending = []
    ∧ (step Env.sample (.settle 0 (.reply ⟨200, none, .ok (.obj [("msg", .str "ok")])⟩))
        logoutWhileConnecting).state.dom.loginContainerDisplay = "flex" := by
  decide

/-- C13, as amended: for every type and id, without the user's confirmation
`deleteItem` does nothing, and with it the handler issues the one DELETE call
on `/api/items/{type}/{id}`. When the call fails, no sync request follows and
`appState.data` is unchanged. When it succeeds, `loadInitialData` runs once on
the unchanged state: with a token it issues exactly one request, the GET of
`/api/data/initial`, and leaves every list as it is until the reply, and on
the page the delete request in flight is replaced by that one sync; without a
token, the user having logged out in between, it issues no request and shows
the login view. When the fetch of that sync fails, the session is cleared and
the login view shown. -/
theorem deleteItem_resyncs (env : Env) (type : String) (id : JVal) (out : FetchOutcome JVal)
    (s : State) (C : JVal) (e : JsError) (m : String) (c : Config) (index : Nat)
    (request : Request) :
    deleteItem type id false s = (s, none)
    ∧ deleteItem type id true s
        = (showLoading true s,
            some { url := API_URL ++ ("/api/items/" ++ type ++ "/" ++ id.toStr),
                   method := "DELETE",
                   headers := [("Authorization", "Bearer " ++ s.clientState.token.toStr)],
                   body := none })
    ∧ ((apiRequestResume (deleteEndpoint type id) out s).2 = .error e →
        (deleteItemResume type id out s).2 = none
        ∧ (deleteItemResume type id out s).1.appState.data = s.appState.data)
    ∧ ((apiRequestResume (deleteEndpoint type id) out s).2 = .ok C →
        s.clientState.token.truthy = true →
        deleteItemResume type id out s
            = (showLoading true s,
                some ({ url := API_URL ++ "/api/data/initial", method := "GET",
                        headers := [("Authorization", "Bearer " ++ s.clientState.token.toStr)],
                        body := none }, C))
        ∧ (deleteItemResume type id out s).1.appState.data = s.appState.data)
    ∧ ((apiRequestResume (deleteEndpoint type id) out s).2 = .ok C →
        s.clientState.token.truthy = false →
        deleteItemResume type id out s = (deleteItemAfterSync C (showLogin s), none)
        ∧ (deleteItemResume type id out s).1.appState.data = s.appState.data
        ∧ loginView (deleteItemResume type id out s).1)
    ∧ ((apiRequestResume (deleteEndpoint type id) out c.state).2 = .ok C →
        c.state.clientState.token.truthy = true →
        c.pending.get? index = some (request, .deleteItem type id) →
        (step env (.settle index out) c).pending
          = c.pending.eraseIdx index
              ++ [({ url := API_URL ++ "/api/data/initial", method := "GET",
                     headers :=
                       [("Authorization", "Bearer " ++ c.state.clientState.token.toStr)],
                     body := none }, .sync (.deleteItem C))])
    ∧ (afterSync (.deleteItem C) (loadInitialDataResume env (.failed m) s)).clientState
        = { id := .null, name := .null, token := .null }
    ∧ (afterSync (.deleteItem C) (loadInitialDataResume env (.failed m) s)).jwtToken = none
    ∧ loginView (afterSync (.deleteItem C) (loadInitialDataResume env (.failed m) s))
    ∧ (afterSync (.deleteItem C) (loadInitialDataResume env (.failed m) s)).appState
        = s.appState := by
  have hsucc : ∀ t : State, (apiRequestResume (deleteEndpoint type id) out t).2 = .ok C →
      deleteItemResume type id out t
        = (match loadInitialData t with
            | (s1, none) => (deleteItemAfterSync C s1, none)
            | (s1, some sync) => (s1, some (sync, C))) := by
    intro t h
    unfold deleteItemResume
    rw [apiRequestResume_eq_of_ok _ _ _ _ h]
  have htok : ∀ t : State, (apiRequestResume (deleteEndpoint type id) out t).2 = .ok C →
      t.clientState.token.truthy = true →
      deleteItemResume type id out t
        = (showLoading true t,
            some ({ url := API_URL ++ "/api/data/initial", method := "GET",
                    headers := [("Authorization", "Bearer " ++ t.clientState.token.toStr)],
                    body := none }, C)) := by
    intro t h ht
    rw [hsucc t h]
    simp [loadInitialData, ht]
    rfl
  have hnotok : ∀ t : State, (apiRequestResume (deleteEndpoint type id) out t).2 = .ok C →
      t.clientState.token.truthy = false →
      deleteItemResume type id out t = (deleteItemAfterSync C (showLogin t), none) := by
    intro t h ht
    rw [hsucc t h]
    simp [loadInitialData, ht]
  have hafter : ∀ t : State, (deleteItemAfterSync C t).appState = t.appState
      ∧ (deleteItemAfterSync C t).dom.loginContainerDisplay = t.dom.loginContainerDisplay
      ∧ (deleteItemAfterSync C t).dom.appContainerDisplay = t.dom.appContainerDisplay := by
    intro t
    simp only [deleteItemAfterSync]
    cases C.getProp "msg" <;> exact ⟨rfl, rfl, rfl⟩
  have hfail : ∀ t : State, t = loadInitialDataResume env (.failed m) s →
      (afterSync (.deleteItem C) t).clientState = { id := .null, name := .null, token := .null }
      ∧ (afterSync (.deleteItem C) t).jwtToken = none
      ∧ loginView (afterSync (.deleteItem C) t)
      ∧ (afterSync (.deleteItem C) t).appState = s.appState := by
    intro t ht
    obtain ⟨_, _, _, c4, c5, c6, c7, _⟩ :=
      sync_failure_state env (.failed m) s (Or.inl ⟨m, rfl⟩)
    rw [← ht] at c4 c5 c6 c7
    simp only [afterSync, deleteItemAfterSync]
    cases C.getProp "msg" <;> exact ⟨c4, c5, c6, c7⟩
  refine ⟨rfl, ?_, fun h => ?_, fun h ht => ⟨htok s h ht, ?_⟩, fun h ht => ⟨hnotok s h ht, ?_, ?_⟩,
    fun h ht hp => ?_,
    (hfail _ rfl).1, (hfail _ rfl).2.1, (hfail _ rfl).2.2.1, (hfail _ rfl).2.2.2⟩
  · rfl
  · exact ⟨(deleteItemResume_discards type id out s e h).2,
      (deleteItemResume_discards type id out s e h).1.1⟩
  · rw [htok s h ht]; rfl
  · rw [hnotok s h ht]
    show ((deleteItemAfterSync C (showLogin s)).appState).data = _
    rw [(hafter (showLogin s)).1]
    rfl
  · rw [hnotok s h ht]
    have hlv : ("flex" : String) ≠ "none" := by decide
    refine ⟨?_, ?_⟩
    · show (deleteItemAfterSync C (showLogin s)).dom.loginContainerDisplay ≠ _
      rw [(hafter (showLogin s)).2.1]
      exact hlv
    · show (deleteItemAfterSync C (showLogin s)).dom.appContainerDisplay = _
      rw [(hafter (showLogin s)).2.2]
      rfl
  · simp only [step, hp, resume, htok c.state h ht]

/-- Witness of `deleteItem_resyncs`: the delete call of `deleteItem('texts', 5)`
on the sample page is answered `{msg: "ok"}`, and the sync follows. -/
theorem deleteItem_resyncs_witness :
    deleteItemResume "texts" (.num 5) (.reply ⟨200, none, .ok (.obj [("msg", .str "ok")])⟩)
        State.sample
      = (showLoading true State.sample,
          some ({ url := "https://34.55.41.159.sslip.io/api/data/initial", method := "GET",
                  headers := [("Authorization", "Bearer t0k")], body := none },
            .obj [("msg", .str "ok")])) :=
  ((deleteItem_resyncs Env.sample "texts" (.num 5)
      (.reply ⟨200, none, .ok (.obj [("msg", .str "ok")])⟩) State.sample
      (.obj [("msg", .str "ok")]) (.error "") "" ⟨State.sample, []⟩ 0
      (initialDataRequest State.sample.clientState)).2.2.2.1 rfl rfl).1

/-- C15, as amended: `handleLogout` clears the session, removes the stored
token, disconnects the socket when it is connected and otherwise leaves it,
shows the login view and resets the log panel; `appState`, the dataset
included, is left as it was. -/
theorem handleLogout_effects (s : State) :
    (handleLogout s).clientState = { id := .null, name := .null, token := .null }
    ∧ (handleLogout s).jwtToken = none
    ∧ (handleLogout s).socket
        = (if s.socket = some .connected then some .disconnected else s.socket)
    ∧ (handleLogout s).socket ≠ some .connected
    ∧ loginView (handleLogout s)
    ∧ (handleLogout s).dom.logPanel
        = [("log-info", .str "Sesión cerrada. Inicia sesión para continuar.")]
    ∧ (handleLogout s).appState = s.appState := by
  have hs := disconnectIfConnected_socket s
  refine ⟨rfl, rfl, hs, ?_, ⟨by show ("flex" : String) ≠ "none"; decide, rfl⟩, rfl,
    handleLogout_appState s⟩
  show (disconnectIfConnected s).socket ≠ _
  rw [hs]
  split
  · simp
  · assumption

/-- C15 fails as stated: after `handleLogout` on the sample page the dataset
still holds the text of the user who logged out. -/
theorem handleLogout_keeps_dataset :
    (handleLogout State.sample).clientState.token = .null
    ∧ (handleLogout State.sample).appState.data.get "texts"
        = .arr [.obj [("id", .num 1), ("content", .str "hola")]] := by
  decide

/-! ## Sync success on a well-formed payload (C11) -/

theorem truncateText_optText (env : Env) (v : JVal) (n : Int) (h : optText v = true) :
    ∃ r, truncateText env v n = .ok r := by
  unfold truncateText
  cases v with
  | str s =>
    by_cases hs : s = ""
    · simp [JVal.truthy, hs]
    · simp only [JVal.truthy, bne_iff_ne, ne_eq, hs, not_false_eq_true, decide_True,
        Bool.not_true, Bool.false_eq_true, if_false, JVal.length, strMethod]
      by_cases hg : gtNumber env (JVal.num ↑(codeUnits s).length) n = true
      · exact ⟨.units ((codeUnits s).take n.toNat ++ codeUnits "..."), by simp [hg, hs]⟩
      · exact ⟨.value (.str s), by simp [hg, hs]⟩
  | undefined => exact ⟨_, rfl⟩
  | null => exact ⟨_, rfl⟩
  | nan => exact ⟨_, rfl⟩
  | bool b => cases b <;> simp_all [optText, JVal.truthy]
  | num k =>
    have : k = 0 := by simpa [optText, JVal.truthy] using h
    subst this
    exact ⟨_, rfl⟩
  | arr xs => simp [optText, JVal.truthy] at h
  | obj kvs => simp [optText, JVal.truthy] at h

theorem tagsCell_optText (v : JVal) (h : optText v = true) : tagsCell v = .ok () := by
  unfold tagsCell
  cases v with
  | str s =>
    by_cases hs : s = ""
    · simp [JVal.or, JVal.truthy, hs, strMethod]
    · simp [JVal.or, JVal.truthy, hs, strMethod]
  | undefined => rfl
  | null => rfl
  | nan => rfl
  | bool b =>
    cases b
    · rfl
    · simp [optText, JVal.truthy] at h
  | num k =>
    have : k = 0 := by simpa [optText, JVal.truthy] using h
    subst this
    rfl
  | arr xs => simp [optText, JVal.truthy] at h
  | obj kvs => simp [optText, JVal.truthy] at h

theorem forEachRow_ok (row : JVal → Except JsError Unit) (xs : List JVal)
    (h : ∀ x ∈ xs, row x = .ok ()) : forEachRow row xs = .ok () := by
  induction xs with
  | nil => rfl
  | cons x rest ih =>
    simp only [forEachRow, h x (List.mem_cons_self _ _)]
    exact ih (fun y hy => h y (List.mem_cons_of_mem _ hy))

theorem renderTable_ok (rowOk : JVal → Bool) (row : JVal → Except JsError Unit) (v : JVal)
    (h : isList rowOk v = true) (hrow : ∀ x, rowOk x = true → row x = .ok ()) :
    renderTable v row = .ok () := by
  unfold renderTable
  cases v with
  | arr xs =>
    simp only [JVal.truthy, Bool.not_true, Bool.false_eq_true, if_false, JVal.length, arrMethod]
    split
    · rfl
    · exact forEachRow_ok row xs
        (fun x hx => hrow x (List.all_eq_true.mp (by simpa [isList] using h) x hx))
  | undefined => rfl
  | null => rfl
  | _ => simp [isList] at h

theorem selectOptions_ok (rowOk : JVal → Bool) (row : JVal → Except JsError Unit) (v : JVal)
    (h : isList rowOk v = true) (hrow : ∀ x, rowOk x = true → row x = .ok ()) :
    selectOptions v row = .ok () := by
  unfold selectOptions
  cases v with
  | arr xs =>
    simp only [JVal.truthy, if_true, arrMethod]
    exact forEachRow_ok row xs
      (fun x hx => hrow x (List.all_eq_true.mp (by simpa [isList] using h) x hx))
  | undefined => rfl
  | null => rfl
  | _ => simp [isList] at h

theorem isRecord_obj {texts optional : List String} {v : JVal}
    (h : isRecord texts optional v = true) :
    ∃ kvs, v = .obj kvs ∧ (∀ k ∈ texts, isText (Obj.get kvs k) = true)
      ∧ (∀ k ∈ optional, optText (Obj.get kvs k) = true) := by
  cases v with
  | obj kvs =>
    simp only [isRecord, Bool.and_eq_true, List.all_eq_true] at h
    exact ⟨kvs, rfl, h.1, h.2⟩
  | _ => simp [isRecord] at h

theorem isText_str {v : JVal} (h : isText v = true) : ∃ s, v = .str s := by
  cases v with
  | str s => exact ⟨s, rfl⟩
  | _ => simp [isText] at h

theorem optText_of_isText {v : JVal} (h : isText v = true) : optText v = true := by
  obtain ⟨s, rfl⟩ := isText_str h
  rfl

theorem textRow_ok (env : Env) (v : JVal) (h : isRecord ["content"] ["ai_tags"] v = true) :
    textRow env v = .ok () := by
  obtain ⟨kvs, rfl, ht, ho⟩ := isRecord_obj h
  obtain ⟨c, hc⟩ := isText_str (ht "content" (by simp))
  obtain ⟨r, hr⟩ := truncateText_optText env (.str c) 100 rfl
  have htags := tagsCell_optText _ (ho "ai_tags" (by simp))
  simp [textRow, JVal.getProp, hc, strMethod, hr, htags, bind, Except.bind]

theorem imageRow_ok (v : JVal) (h : isRecord ["path"] ["manual_tags"] v = true) :
    imageRow v = .ok () := by
  obtain ⟨kvs, rfl, ht, ho⟩ := isRecord_obj h
  obtain ⟨c, hc⟩ := isText_str (ht "path" (by simp))
  have htags := tagsCell_optText _ (ho "manual_tags" (by simp))
  simp [imageRow, JVal.getProp, hc, strMethod, htags, bind, Except.bind]

theorem groupRow_ok (env : Env) (v : JVal) (h : isRecord [] ["url", "tags"] v = true) :
    groupRow env v = .ok () := by
  obtain ⟨kvs, rfl, _, ho⟩ := isRecord_obj h
  obtain ⟨r, hr⟩ := truncateText_optText env _ 100 (ho "url" (by simp))
  have htags := tagsCell_optText _ (ho "tags" (by simp))
  simp [groupRow, JVal.getProp, hr, htags, bind, Except.bind]

theorem pageRow_ok (env : Env) (v : JVal) (h : isRecord [] ["page_url"] v = true) :
    pageRow env v = .ok () := by
  obtain ⟨kvs, rfl, _, ho⟩ := isRecord_obj h
  obtain ⟨r, hr⟩ := truncateText_optText env _ 100 (ho "page_url" (by simp))
  simp [pageRow, JVal.getProp, hr, bind, Except.bind]
  rfl

theorem scheduledPostRow_ok (env : Env) (v : JVal)
    (h : isRecord [] ["text_content", "image_path"] v = true) :
    scheduledPostRow env v = .ok () := by
  obtain ⟨kvs, rfl, _, ho⟩ := isRecord_obj h
  obtain ⟨r, hr⟩ := truncateText_optText env _ 100 (ho "text_content" (by simp))
  have hp := ho "image_path" (by simp)
  simp only [scheduledPostRow, JVal.getProp, hr, bind, Except.bind]
  cases hv : Obj.get kvs "image_path" with
  | str s => by_cases hs : s = "" <;> simp [JVal.truthy, hs, strMethod, pure, Except.pure]
  | undefined => rfl
  | null => rfl
  | nan => rfl
  | bool b =>
    cases b
    · rfl
    · simp [hv, optText, JVal.truthy] at hp
  | num k =>
    have : k = 0 := by simpa [hv, optText, JVal.truthy] using hp
    subst this
    rfl
  | arr xs => simp [hv, optText, JVal.truthy] at hp
  | obj o => simp [hv, optText, JVal.truthy] at hp

theorem historyRow_ok (env : Env) (v : JVal) (h : isRecord [] ["target_url"] v = true) :
    historyRow env v = .ok () := by
  obtain ⟨kvs, rfl, _, ho⟩ := isRecord_obj h
  obtain ⟨r, hr⟩ := truncateText_optText env _ 40 (ho "target_url" (by simp))
  simp [historyRow, JVal.getProp, hr, bind, Except.bind]
  rfl

theorem isList_weaken (p q : JVal → Bool) (v : JVal) (hpq : ∀ x, p x = true → q x = true)
    (h : isList p v = true) : isList q v = true := by
  cases v with
  | arr xs =>
    simp only [isList, List.all_eq_true] at h ⊢
    exact fun x hx => hpq x (h x hx)
  | undefined => rfl
  | null => rfl
  | _ => simp [isList] at h

/-- A payload of the shape `wellFormedDataset` draws without an error. -/
theorem updateUI_ok (env : Env) (D : Obj) (h : wellFormedDataset D = true) :
    updateUI env D = .ok () := by
  simp only [wellFormedDataset, Bool.and_eq_true] at h
  obtain ⟨⟨⟨⟨⟨⟨h1, h2⟩, h3⟩, h4⟩, h5⟩, h6⟩, _⟩ := h
  have e1 : updateTextsTable env D = .ok () := renderTable_ok _ _ _ h1 (textRow_ok env)
  have e2 : updateImagesTable D = .ok () := renderTable_ok _ _ _ h2 imageRow_ok
  have e3 : updateGroupsTable env D = .ok () := renderTable_ok _ _ _ h3 (groupRow_ok env)
  have e4 : updatePagesTable env D = .ok () := renderTable_ok _ _ _ h4 (pageRow_ok env)
  have e5 : updateScheduledPostsTable env D = .ok () :=
    renderTable_ok _ _ _ h5 (scheduledPostRow_ok env)
  have e6 : updateHistoryTable env D = .ok () := renderTable_ok _ _ _ h6 (historyRow_ok env)
  have e7 : updateSelects D = .ok () := by
    have s1 := selectOptions_ok (isRecord [] ["page_url"]) (fun page => do
        let _ ← page.getProp "id"
        pure ()) _ h4 (fun x hx => by
          obtain ⟨kvs, rfl, _, _⟩ := isRecord_obj hx
          rfl)
    have s2 := selectOptions_ok (isRecord ["path"] ["manual_tags"]) (fun image => do
        let path ← image.getProp "path"
        let _ ← strMethod path "split"
        pure ()) _ h2 (fun x hx => by
          obtain ⟨kvs, rfl, ht, _⟩ := isRecord_obj hx
          obtain ⟨c, hc⟩ := isText_str (ht "path" (by simp))
          simp [JVal.getProp, hc, strMethod, bind, Except.bind]
          rfl)
    unfold updateSelects
    rw [s1]
    exact s2
  simp only [updateUI, e1, e2, e3, e4, e5, e6, e7, bind, Except.bind]

theorem refreshIdentity_wellFormed (env : Env) (D : Obj) (s : State)
    (h : wellFormedDataset D = true) :
    (refreshIdentity env D s).2 = .ok ()
    ∧ (refreshIdentity env D s).1.appState = s.appState
    ∧ (echoesIdentity D = false → (refreshIdentity env D s).1.clientState = s.clientState)
    ∧ (echoesIdentity D = true → ∃ kvs, D.get "client_info" = .obj kvs
        ∧ (refreshIdentity env D s).1.clientState
          = { s.clientState with name := Obj.get kvs "name", id := Obj.get kvs "id" }) := by
  simp only [wellFormedDataset, Bool.and_eq_true] at h
  have hc := h.2
  simp only [refreshIdentity, echoesIdentity]
  cases hinfo : D.get "client_info" with
  | obj kvs =>
    rw [hinfo] at hc
    simp only at hc
    simp only [JVal.truthy, JVal.getProp, Bool.not_true, Bool.false_eq_true, if_false,
      Bool.true_and]
    cases hname : Obj.get kvs "name" with
    | str n =>
      by_cases hn : n = ""
      · simp [JVal.truthy, hn]
      · simp [JVal.truthy, hn, strMethod, hname]
    | undefined => simp [JVal.truthy]
    | null => simp [JVal.truthy]
    | nan => simp [JVal.truthy]
    | bool b =>
      cases b
      · simp [JVal.truthy]
      · simp [hname, optText, JVal.truthy] at hc
    | num k =>
      have : k = 0 := by simpa [hname, optText, JVal.truthy] using hc
      subst this
      simp [JVal.truthy]
    | arr xs => simp [hname, optText, JVal.truthy] at hc
    | obj o => simp [hname, optText, JVal.truthy] at hc
  | undefined => simp [JVal.truthy]
  | null => simp [JVal.truthy]
  | nan => rw [hinfo] at hc; simp at hc
  | bool b => rw [hinfo] at hc; simp at hc
  | num k => rw [hinfo] at hc; simp at hc
  | str n => rw [hinfo] at hc; simp at hc
  | arr xs => rw [hinfo] at hc; simp at hc

/-- A 2xx sync reply with a parsed body replaces the whole dataset by it,
whatever follows. -/
theorem loadInitialDataResume_data (env : Env) (r : Response Obj) (D : Obj) (s : State)
    (hok : r.ok = true) (hj : r.json = .ok D) :
    (loadInitialDataResume env (.reply r) s).appState.data = D := by
  have hr := frame_refreshIdentity env D { s with appState := { s.appState with data := D } }
  have ha : ∀ t : State, (refreshIdentity env D t).1.appState = t.appState := by
    intro t
    simp only [refreshIdentity]
    repeat' split
    all_goals rfl
  have ha1 := ha { s with appState := { s.appState with data := D } }
  simp only [loadInitialDataResume, loadInitialDataTry, hok, hj, if_true]
  generalize refreshIdentity env D { s with appState := { s.appState with data := D } } = p
    at ha1 ⊢
  obtain ⟨s2, res⟩ := p
  simp only at ha1
  cases res with
  | error e =>
    simp only
    rw [show (showLoading false (loadInitialDataCatch s2)).appState
      = (loadInitialDataCatch s2).appState from rfl, (loadInitialDataCatch_eq s2).2.2.2.2.2.2.2,
      ha1]
  | ok u =>
    simp only
    cases updateUI env s2.appState.data with
    | error e =>
      simp only
      rw [show (showLoading false (loadInitialDataCatch s2)).appState
        = (loadInitialDataCatch s2).appState from rfl,
        (loadInitialDataCatch_eq s2).2.2.2.2.2.2.2, ha1]
    | ok u2 =>
      simp only
      show (updateStatus true s2).appState.data = D
      unfold updateStatus
      simp [ha1]

/-- Where the sync succeeds: with a token `loadInitialData` issues the sync
request; when the reply is 2xx with payload `D`, a dataset of the shape of §3
and §6, afterwards
the whole `appState.data` is `D`, `clientState.name` and `clientState.id` are
those of `D.client_info` when the reply names the client and `clientState` is
unchanged when it does not, and the connection is shown as connected. -/
theorem sync_success (env : Env) (s t : State) (r : Response Obj) (D : Obj)
    (hok : r.ok = true) (hj : r.json = .ok D) (hD : wellFormedDataset D = true) :
    (s.clientState.token.truthy = true →
        loadInitialData s = (showLoading true s, some (initialDataRequest s.clientState)))
    ∧ (loadInitialDataResume env (.reply r) t).appState.data = D
    ∧ (echoesIdentity D = true → ∃ kvs, D.get "client_info" = .obj kvs
        ∧ (loadInitialDataResume env (.reply r) t).clientState
          = { t.clientState with name := Obj.get kvs "name", id := Obj.get kvs "id" })
    ∧ (echoesIdentity D = false →
        (loadInitialDataResume env (.reply r) t).clientState = t.clientState)
    ∧ (loadInitialDataResume env (.reply r) t).dom.statusText = "Conectado"
    ∧ (loadInitialDataResume env (.reply r) t).dom.statusDot = "status-dot active" := by
  refine ⟨fun ht => by simp [loadInitialData, ht]; rfl,
    loadInitialDataResume_data env r D t hok hj, ?_⟩
  obtain ⟨w1, w2, w3, w4⟩ :=
    refreshIdentity_wellFormed env D { t with appState := { t.appState with data := D } } hD
  have hu := updateUI_ok env D hD
  have hres : loadInitialDataResume env (.reply r) t
      = showLoading false (showNotification "Datos Sincronizados"
          (.str "Tu información se ha cargado correctamente.") "success"
          (updateStatus true
            (refreshIdentity env D { t with appState := { t.appState with data := D } }).1)) := by
    simp only [loadInitialDataResume, loadInitialDataTry, hok, hj, if_true]
    generalize refreshIdentity env D { t with appState := { t.appState with data := D } } = p
      at w1 w2 ⊢
    obtain ⟨s2, res⟩ := p
    simp only at w1 w2
    subst w1
    simp only [w2, hu]
  rw [hres]
  refine ⟨fun he => ?_, fun he => ?_, rfl, rfl⟩
  · obtain ⟨kvs, hk, hc⟩ := w4 he
    exact ⟨kvs, hk, hc⟩
  · exact w3 he

/-- Witness of `sync_success`: the sample payload, with the client named, on
a resumed session. -/
theorem sync_success_witness :
    (loadInitialDataResume Env.sample
        (.reply ⟨200, none,
          .ok (("client_info", .obj [("id", .num 9), ("name", .str "Zed")]) :: samplePayload)⟩)
        State.sample).appState.data
      = ("client_info", .obj [("id", .num 9), ("name", .str "Zed")]) :: samplePayload :=
  (sync_success Env.sample State.sample State.sample
    ⟨200, none,
      .ok (("client_info", .obj [("id", .num 9), ("name", .str "Zed")]) :: samplePayload)⟩
    (("client_info", .obj [("id", .num 9), ("name", .str "Zed")]) :: samplePayload)
    (by decide) rfl (by decide)).2.1

/-- C11, the code at a failing input: a sync answered 200 with a dataset whose
one text has a `null` content. The dataset is replaced by the payload, but
`updateTextsTable` raises on `content.replace`, the error reaches the `catch`
block written for a network error, and the page shows the connection error,
the status disconnected and the login view, the session cleared. -/
theorem sync_render_error_forces_logout :
    (Response.ok (⟨200, none, .ok textWithoutContent⟩ : Response Obj)) = true
    ∧ State.sample.clientState.token = .str "t0k"
    ∧ (∃ e, updateUI Env.sample textWithoutContent = .error e)
    ∧ (loadInitialDataResume Env.sample (.reply ⟨200, none, .ok textWithoutContent⟩)
        State.sample).appState.data = textWithoutContent
    ∧ (loadInitialDataResume Env.sample (.reply ⟨200, none, .ok textWithoutContent⟩)
        State.sample).dom.statusText = "Desconectado"
    ∧ (loadInitialDataResume Env.sample (.reply ⟨200, none, .ok textWithoutContent⟩)
        State.sample).dom.notification
        = some ⟨"Error de Conexión",
            .str "No se pudieron cargar los datos. Revisa tu conexión.", "error"⟩
    ∧ (loadInitialDataResume Env.sample (.reply ⟨200, none, .ok textWithoutContent⟩)
        State.sample).clientState = { id := .null, name := .null, token := .null }
    ∧ (loadInitialDataResume Env.sample (.reply ⟨200, none, .ok textWithoutContent⟩)
        State.sample).jwtToken = none
    ∧ (loadInitialDataResume Env.sample (.reply ⟨200, none, .ok textWithoutContent⟩)
        State.sample).dom.loginContainerDisplay = "flex" := by
  refine ⟨by decide, by decide, ⟨_, rfl⟩, by decide, by decide, by decide, by decide, by decide,
    by decide⟩

/-! ## Login (C16) -/

theorem showApp_jwtToken (env : Env) (s : State) : (showApp env s).1.jwtToken = s.jwtToken := by
  simp only [showApp]
  repeat' split
  all_goals rfl

/-- C16 fails as stated: a login answered 200 with a body that carries no
access token leaves `clientState` all `null` and no stored token, the sync
that follows finding no token; `clientState` is not
`{token: access_token, id: clientId, name: clientName}`. -/
theorem handleLogin_without_access_token :
    (Response.ok (⟨200, none, .ok (.obj [("clientId", .num 7), ("clientName", .str "Ana")])⟩
      : Response JVal)) = true
    ∧ (handleLoginResume Env.sample
        (.reply ⟨200, none, .ok (.obj [("clientId", .num 7), ("clientName", .str "Ana")])⟩)
        (initialState none Dom.blank)).1.clientState
        = { id := .null, name := .null, token := .null }
    ∧ (handleLoginResume Env.sample
        (.reply ⟨200, none, .ok (.obj [("clientId", .num 7), ("clientName", .str "Ana")])⟩)
        (initialState none Dom.blank)).1.clientState
        ≠ { token := .undefined, id := .num 7, name := .str "Ana" }
    ∧ (handleLoginResume Env.sample
        (.reply ⟨200, none, .ok (.obj [("clientId", .num 7), ("clientName", .str "Ana")])⟩)
        (initialState none Dom.blank)).1.jwtToken = none := by
  decide

/-- C16, as amended: `handleLogin` changes the session only on success.  With
an empty email or password it sends nothing, leaves `clientState` and the
stored token as they are and shows a message.  When the fetch fails or the reply is not
2xx, `clientState` and the stored token are unchanged and a message is shown:
the server's `msg` when the body carries a truthy one.  When the reply is 2xx
and carries an access token, `clientState` becomes
`{token: access_token, id: clientId, name: clientName}` and the stored token
the string of `access_token`, the token itself when it is a string. -/
theorem handleLogin_session (env : Env) (s : State) (r : Response JVal)
    (data accessToken clientId clientName : JVal) (m : String) :
    (jsTrim s.dom.inputs.email = "" ∨ jsTrim s.dom.inputs.password = "" →
        (handleLogin s).2 = none ∧ stored (handleLogin s).1 = stored s
        ∧ (handleLogin s).1.dom.loginErrorDisplay = "block"
        ∧ (handleLogin s).1.dom.loginErrorText
            = .str "Por favor, introduce tu email y contraseña.")
    ∧ (stored (handleLoginResume env (.failed m) s).1 = stored s
        ∧ (handleLoginResume env (.failed m) s).1.dom.loginErrorDisplay = "block"
        ∧ (handleLoginResume env (.failed m) s).1.dom.loginErrorText
            = .str "No se pudo conectar con el servidor. Inténtalo más tarde.")
    ∧ (r.ok = false →
        stored (handleLoginResume env (.reply r) s).1 = stored s
        ∧ (handleLoginResume env (.reply r) s).1.dom.loginErrorDisplay = "block"
        ∧ (handleLoginResume env (.reply r) s).1.dom.loginErrorText.truthy = true
        ∧ (∀ body msg, r.json = .ok body → body.getProp "msg" = .ok msg → msg.truthy = true →
            (handleLoginResume env (.reply r) s).1.dom.loginErrorText = msg))
    ∧ (r.ok = true → r.json = .ok data → data.getProp "access_token" = .ok accessToken →
        data.getProp "clientId" = .ok clientId → data.getProp "clientName" = .ok clientName →
        accessToken.truthy = true →
        (handleLoginResume env (.reply r) s).1.clientState
            = { token := accessToken, id := clientId, name := clientName }
        ∧ (handleLoginResume env (.reply r) s).1.jwtToken = some accessToken.toStr
        ∧ (∀ token, accessToken = .str token →
            (handleLoginResume env (.reply r) s).1.jwtToken = some token)) := by
  refine ⟨fun h => ?_, ⟨rfl, rfl, rfl⟩, fun hok => ?_, fun hok hj ha hi hn ht => ?_⟩
  · simp only [handleLogin, h, if_true]
    refine ⟨?_, ?_, ?_, ?_⟩ <;> first | rfl | trivial
  · simp only [handleLoginResume, hok]
    cases hj : r.json with
    | error e => exact ⟨rfl, rfl, rfl, fun _ _ h => by simp at h⟩
    | ok body =>
      simp only [Bool.false_eq_true, if_false]
      cases hm : body.getProp "msg" with
      | error e => exact ⟨rfl, rfl, rfl, fun _ _ _ h => by simp_all⟩
      | ok msg =>
        refine ⟨rfl, rfl, ?_, fun b2 m2 hb hm2 ht => ?_⟩
        · show (msg.or _).truthy = true
          unfold JVal.or
          split
          · assumption
          · rfl
        · simp only [Except.ok.injEq] at hb
          subst hb
          rw [hm] at hm2
          simp only [Except.ok.injEq] at hm2
          subst hm2
          show msg.or _ = msg
          simp [JVal.or, ht]
  · have hv := showApp_view env
      { s with
        clientState := { token := accessToken, id := clientId, name := clientName }
        jwtToken := some accessToken.toStr }
    have hw := showApp_jwtToken env
      { s with
        clientState := { token := accessToken, id := clientId, name := clientName }
        jwtToken := some accessToken.toStr }
    have key : (handleLoginResume env (.reply r) s).1.clientState
          = { token := accessToken, id := clientId, name := clientName }
        ∧ (handleLoginResume env (.reply r) s).1.jwtToken = some accessToken.toStr := by
      simp only [handleLoginResume, hj, hok, if_true, ha, hi, hn]
      generalize showApp env
        { s with
          clientState := { token := accessToken, id := clientId, name := clientName }
          jwtToken := some accessToken.toStr } = p at hv hw ⊢
      obtain ⟨s2, res⟩ := p
      simp only at hv hw
      cases res with
      | error e => exact ⟨hv.2.2, hw⟩
      | ok u =>
        have htok : s2.clientState.token.truthy = true := by rw [hv.2.2]; exact ht
        simp only [loadInitialData, htok]
        exact ⟨hv.2.2, hw⟩
    exact ⟨key.1, key.2, fun token htk => by rw [key.2, htk]; rfl⟩

/-- Witness of `handleLogin_session`: a login answered 200 with a token, an id
and a name sets the session to them and stores the token. -/
theorem handleLogin_session_witness :
    (handleLoginResume Env.sample
        (.reply ⟨200, none,
          .ok (.obj [("access_token", .str "t1"), ("clientId", .num 7),
            ("clientName", .str "Ana")])⟩)
        (initialState none Dom.blank)).1.clientState
      = { token := .str "t1", id := .num 7, name := .str "Ana" }
    ∧ (handleLoginResume Env.sample
        (.reply ⟨200, none,
          .ok (.obj [("access_token", .str "t1"), ("clientId", .num 7),
            ("clientName", .str "Ana")])⟩)
        (initialState none Dom.blank)).1.jwtToken = some "t1" :=
  ⟨((handleLogin_session Env.sample (initialState none Dom.blank)
      ⟨200, none,
        .ok (.obj [("access_token", .str "t1"), ("clientId", .num 7),
          ("clientName", .str "Ana")])⟩
      (.obj [("access_token", .str "t1"), ("clientId", .num 7), ("clientName", .str "Ana")])
      (.str "t1") (.num 7) (.str "Ana") "").2.2.2 (by decide) rfl rfl rfl rfl rfl).1,
    ((handleLogin_session Env.sample (initialState none Dom.blank)
      ⟨200, none,
        .ok (.obj [("access_token", .str "t1"), ("clientId", .num 7),
          ("clientName", .str "Ana")])⟩
      (.obj [("access_token", .str "t1"), ("clientId", .num 7), ("clientName", .str "Ana")])
      (.str "t1") (.num 7) (.str "Ana") "").2.2.2 (by decide) rfl rfl rfl rfl rfl).2.2 "t1" rfl⟩

/-! ## File names and image URLs (C19) -/

theorem splitBy_ne_nil (sep : Char → Bool) (cs : List Char) : splitBy sep cs ≠ [] := by
  cases cs with
  | nil => simp [splitBy]
  | cons c rest =>
    simp only [splitBy]
    split
    · simp
    · split <;> simp

theorem splitBy_of_no_sep (sep : Char → Bool) (l : List Char)
    (h : ∀ x ∈ l, sep x = false) : splitBy sep l = [l] := by
  induction l with
  | nil => rfl
  | cons x xs ih =>
    simp [splitBy, h x (List.mem_cons_self _ _),
      ih (fun y hy => h y (List.mem_cons_of_mem _ hy))]

theorem two_le_length_splitBy (sep : Char → Bool) (l : List Char)
    (h : ∃ d ∈ l, sep d = true) : 2 ≤ (splitBy sep l).length := by
  induction l with
  | nil => simp at h
  | cons x xs ih =>
    simp only [splitBy]
    by_cases hsx : sep x = true
    · simp only [hsx, if_true, List.length_cons]
      have := List.length_pos.mpr (splitBy_ne_nil sep xs)
      omega
    · simp only [hsx, Bool.false_eq_true, if_false]
      obtain ⟨d, hd, hsd⟩ := h
      have hd' : d ∈ xs := by
        rcases List.mem_cons.mp hd with rfl | h
        · exact absurd hsd hsx
        · exact h
      have := ih ⟨d, hd', hsd⟩
      cases hxs : splitBy sep xs with
      | nil => simp [hxs] at this
      | cons q qs =>
        simp only [hxs, List.length_cons] at this ⊢
        omega

/-- The last piece of a split is the suffix after the last separator: it
holds no separator, and what precedes it is empty or ends in a separator. -/
theorem pop_splitBy (sep : Char → Bool) (cs : List Char) :
    ∃ before, cs = before ++ pop (splitBy sep cs)
      ∧ (∀ c ∈ pop (splitBy sep cs), sep c = false)
      ∧ (before = [] ∨ ∃ front c, before = front ++ [c] ∧ sep c = true) := by
  induction cs with
  | nil => exact ⟨[], by simp [splitBy, pop], by simp [splitBy, pop], Or.inl rfl⟩
  | cons c rest ih =>
    obtain ⟨before, h1, h2, h3⟩ := ih
    have hne := splitBy_ne_nil sep rest
    by_cases hc : sep c = true
    · have hp : pop (splitBy sep (c :: rest)) = pop (splitBy sep rest) := by
        simp only [splitBy, hc, if_true, pop]
        cases hs : splitBy sep rest with
        | nil => exact absurd hs hne
        | cons p ps => simp [List.getLast?_cons_cons]
      rw [hp]
      refine ⟨c :: before, by rw [List.cons_append, ← h1], h2, Or.inr ?_⟩
      rcases h3 with rfl | ⟨front, d, rfl, hd⟩
      · exact ⟨[], c, rfl, hc⟩
      · exact ⟨c :: front, d, rfl, hd⟩
    · have hc' : sep c = false := by simpa using hc
      cases hs : splitBy sep rest with
      | nil => exact absurd hs hne
      | cons p ps =>
        cases ps with
        | nil =>
          -- one piece: `rest` holds no separator and neither does `c :: rest`
          have hpr : pop (splitBy sep rest) = p := by simp [hs, pop]
          have hp : pop (splitBy sep (c :: rest)) = c :: p := by
            simp [splitBy, hc', hs, pop]
          rw [hpr] at h1 h2
          rw [hp]
          have hb : before = [] := by
            rcases h3 with rfl | ⟨front, d, rfl, hd⟩
            · rfl
            · exfalso
              have h2' := two_le_length_splitBy sep rest ⟨d, by rw [h1]; simp, hd⟩
              simp [hs] at h2'
          subst hb
          refine ⟨[], by simp at h1; simp [h1], ?_, Or.inl rfl⟩
          intro x hx
          rcases List.mem_cons.mp hx with rfl | hx
          · exact hc'
          · exact h2 x hx
        | cons p2 ps2 =>
          -- several pieces: the last one is that of `rest`
          have hp : pop (splitBy sep (c :: rest)) = pop (splitBy sep rest) := by
            simp [splitBy, hc', hs, pop, List.getLast?_cons_cons]
          rw [hp]
          refine ⟨c :: before, by rw [List.cons_append, ← h1], h2, Or.inr ?_⟩
          rcases h3 with rfl | ⟨front, d, rfl, hd⟩
          · exfalso
            have hnosep : ∀ x ∈ rest, sep x = false := by
              intro x hx
              rw [h1] at hx
              simpa using h2 x (by simpa using hx)
            rw [splitBy_of_no_sep sep rest hnosep] at hs
            simp at hs
          · exact ⟨c :: front, d, rfl, hd⟩

/-- C19: the URL derived for an image path is the base URL, `/uploads/client_`,
the string of `clientState.id`, `/` and the file name, where the file name is
the suffix of the path after its last slash or backslash: it holds neither
character, what precedes it in the path is empty or ends in one of them, and
it is the whole path when the path holds neither. -/
theorem imageUrl_lastSegment (cs : ClientState) (path : String) :
    imageUrl cs path = API_URL ++ "/uploads/client_" ++ cs.id.toStr ++ "/" ++ fileName path
    ∧ (∀ c ∈ (fileName path).data, c ≠ '/' ∧ c ≠ '\\')
    ∧ (∃ before, path.data = before ++ (fileName path).data
        ∧ (before = [] ∨ ∃ front c, before = front ++ [c] ∧ (c = '/' ∨ c = '\\')))
    ∧ ((∀ c ∈ path.data, c ≠ '/' ∧ c ≠ '\\') → fileName path = path)
    ∧ fileName "C:\\srv\\uploads\\client_7\\foto.png" = "foto.png"
    ∧ fileName "/srv/uploads/client_7/foto.png" = "foto.png"
    ∧ fileName "foto.png" = "foto.png"
    ∧ imageUrl ⟨.num 7, .str "Ana", .str "t0k"⟩ "/srv/uploads/client_7/foto.png"
        = "https://34.55.41.159.sslip.io/uploads/client_7/foto.png" := by
  obtain ⟨before, h1, h2, h3⟩ := pop_splitBy isPathSeparator path.data
  have hsep : ∀ c, isPathSeparator c = false ↔ (c ≠ '/' ∧ c ≠ '\\') := by
    intro c
    simp [isPathSeparator, and_comm]
  have hsep' : ∀ c, isPathSeparator c = true ↔ (c = '/' ∨ c = '\\') := by
    intro c
    simp [isPathSeparator, or_comm]
  refine ⟨rfl, fun c hc => (hsep c).mp (h2 c hc), ⟨before, h1, ?_⟩, fun hno => ?_,
    by decide, by decide, by decide, by decide⟩
  · rcases h3 with rfl | ⟨front, c, rfl, hc⟩
    · exact Or.inl rfl
    · exact Or.inr ⟨front, c, rfl, (hsep' c).mp hc⟩
  · rcases h3 with rfl | ⟨front, c, rfl, hc⟩
    · show String.mk (pop (splitBy isPathSeparator path.data)) = path
      simp only [List.nil_append] at h1
      rw [← h1]
    · exfalso
      have hm : c ∈ path.data := by rw [h1]; simp
      have := (hsep c).mpr (hno c hm)
      rw [this] at hc
      exact absurd hc (by decide)

/-! ## Counters (C20) -/

theorem counter_of_hasEntries (data : Obj) (key : String) (n : Nat)
    (h : HasEntries data key n) : counter (data.get key) = .num n := by
  rcases h with ⟨xs, hx, rfl⟩ | ⟨rfl, hx | hx⟩
  · rw [hx]
    cases xs with
    | nil => rfl
    | cons x rest =>
      simp only [counter, JVal.length, JVal.or, JVal.truthy, List.length_cons]
      have : ((rest.length : Int) + 1 != 0) = true := by
        simp only [bne_iff_ne, ne_eq]
        omega
      simp only [Nat.cast_add, Nat.cast_one, this, if_true]
  · rw [hx]; rfl
  · rw [hx]; rfl

/-- C20: every counter `updateStats` writes is the number of entries of its
list of `appState.data`, `0` when the list is empty or missing: the four
totals of the dashboard and the five labels of the tabs; for the dataset of
Scenario A the images, groups and pages counters are 0, 1 and 0. -/
theorem updateStats_counts (data : Obj) (texts images groups pages scheduled : Nat)
    (ht : HasEntries data "texts" texts) (hi : HasEntries data "images" images)
    (hg : HasEntries data "groups" groups) (hp : HasEntries data "pages" pages)
    (hs : HasEntries data "scheduled_posts" scheduled) :
    updateStats data
      = { totalTexts := .num texts
          totalImages := .num images
          totalGroups := .num groups
          totalScheduled := .num scheduled
          textsCount := toString texts ++ " textos"
          imagesCount := toString images ++ " imágenes"
          groupsCount := toString groups ++ " grupos"
          pagesCount := toString pages ++ " páginas"
          scheduledCount := toString scheduled ++ " programadas" }
    ∧ (updateStats scenarioA).totalImages = .num 0
    ∧ (updateStats scenarioA).totalGroups = .num 1
    ∧ (updateStats scenarioA).imagesCount = "0 imágenes"
    ∧ (updateStats scenarioA).groupsCount = "1 grupos"
    ∧ (updateStats scenarioA).pagesCount = "0 páginas" := by
  have hstr : ∀ n : Nat, (JVal.num n).toStr = toString n := by
    intro n
    rfl
  refine ⟨?_, by decide, by decide, by decide, by decide, by decide⟩
  simp only [updateStats, counter_of_hasEntries _ _ _ ht, counter_of_hasEntries _ _ _ hi,
    counter_of_hasEntries _ _ _ hg, counter_of_hasEntries _ _ _ hp,
    counter_of_hasEntries _ _ _ hs, hstr]

/-- Witness of `updateStats_counts`: the dataset of Scenario A has no texts,
no images, one group, no pages and no scheduled posts. -/
theorem updateStats_counts_witness :
    (updateStats scenarioA).totalGroups = .num 1 :=
  (updateStats_counts scenarioA 0 0 1 0 0 (Or.inl ⟨_, rfl, rfl⟩) (Or.inl ⟨_, rfl, rfl⟩)
    (Or.inl ⟨_, rfl, rfl⟩) (Or.inl ⟨_, rfl, rfl⟩) (Or.inl ⟨_, rfl, rfl⟩)).2.2.1

/-! ## Sockets and replies after logout (C17, C18) -/

theorem loginReplyNamed_sample : loginReplyNamed sampleLoginReply := by
  intro r data hr hj name hn _
  simp only [sampleLoginReply, FetchOutcome.reply.injEq] at hr
  subst hr
  simp only [Except.ok.injEq] at hj
  subst hj
  simp only [JVal.getProp, Obj.get, Except.ok.injEq] at hn
  exact ⟨"Ana", by rw [← hn]; decide⟩

theorem admissible_of_not_settle (c : Config) (e : Event)
    (h : ∀ index out, e ≠ .settle index out) : e.Admissible c :=
  fun index out _ he _ => absurd he (h index out)

/-- C17, the code at a failing input: on the reachable page
`reloginWhileConnecting` the socket of the resumed session was still
connecting when `connectWebSocket` ran again, so it was not disconnected: two
sockets that were never disconnected exist, and both complete their
connection. -/
theorem connectWebSocket_keeps_connecting_socket :
    Reachable Env.sample reloginWhileConnecting
    ∧ reloginWhileConnecting.state.socket = some .connecting
    ∧ reloginWhileConnecting.state.orphans = [.connecting]
    ∧ liveSockets reloginWhileConnecting.state = 2
    ∧ (run Env.sample [.socketConnect none, .socketConnect (some 0)]
        reloginWhileConnecting).state.socket = some .connected
    ∧ (run Env.sample [.socketConnect none, .socketConnect (some 0)]
        reloginWhileConnecting).state.orphans = [.connected]
    ∧ (connectWebSocket { State.sample with socket := some .connecting }).orphans
        = [.connecting]
    ∧ (connectWebSocket State.sample).orphans = [.disconnected] := by
  refine ⟨?_, by decide, by decide, by decide, by decide, by decide, by decide, by decide⟩
  have h0 : Reachable Env.sample (pageLoad Env.sample (some "t0k") Dom.blank) :=
    Reachable.load (some "t0k") Dom.blank
  have h1 := Reachable.next
    (.settleSync 0 (.reply ⟨401, none, .ok [("msg", .str "Token has expired")]⟩)) _ h0
    (admissible_of_not_settle _ _ (fun _ _ h => nomatch h))
  have h2 := Reachable.next
    (.edit { Inputs.blank with email := "ana@example.com", password := "secreto" } [""]) _ h1
    (admissible_of_not_settle _ _ (fun _ _ h => nomatch h))
  have h3 := Reachable.next .loginClick _ h2
    (admissible_of_not_settle _ _ (fun _ _ h => nomatch h))
  have h4 := Reachable.next (.settle 0 sampleLoginReply) _ h3
    (fun index out _ he _ => by
      simp only [Event.settle.injEq] at he
      rw [← he.2]
      exact loginReplyNamed_sample)
  exact h4

/-- C18 fails as stated: on the reachable page `logoutBeforeReply` the user
has logged out while an added text and a sync are in flight; the reply to the
added text then replaces the texts of the dataset, and the reply to the sync
the whole dataset, although there is no token. -/
theorem stale_reply_applied :
    Reachable Env.sample logoutBeforeReply
    ∧ logoutBeforeReply.state.clientState.token = .null
    ∧ logoutBeforeReply.state.appState.data.get "texts"
        = .arr [.obj [("id", .num 5), ("content", .str "hola")]]
    ∧ (step Env.sample
        (.settle 0 (.reply ⟨200, none, .ok (.arr [.obj [("id", .num 6), ("content", .str "nuevo")]])⟩))
        logoutBeforeReply).state.appState.data.get "texts"
        = .arr [.obj [("id", .num 6), ("content", .str "nuevo")]]
    ∧ (step Env.sample
        (.settle 0 (.reply ⟨200, none, .ok (.arr [.obj [("id", .num 6), ("content", .str "nuevo")]])⟩))
        logoutBeforeReply).state.clientState.token = .null
    ∧ (step Env.sample (.settleSync 1 (.reply ⟨200, none, .ok scenarioA⟩))
        logoutBeforeReply).state.appState.data = scenarioA
    ∧ (step Env.sample (.settleSync 1 (.reply ⟨200, none, .ok scenarioA⟩))
        logoutBeforeReply).state.dom.statusText = "Conectado" := by
  refine ⟨reachable_run _ _ _ ?_ (Reachable.load _ _), by decide, by decide, by decide,
    by decide, by decide, by decide⟩
  intro e he index out
  simp only [List.mem_cons, List.mem_singleton, List.not_mem_nil, or_false] at he
  rcases he with rfl | rfl | rfl | rfl | rfl | rfl <;> exact fun h => nomatch h

/-- C18, as amended: no continuation checks the session.  In a state without
a token the continuation of each mutating handler still replaces its list by
the value its `apiRequest` returned, leaving the other lists as they are, and
a 2xx sync reply with payload `D` still replaces the whole dataset by `D`. -/
theorem reply_applied_without_session (env : Env) (id count : JVal)
    (out : FetchOutcome JVal) (s : State) (C : JVal) (r : Response Obj) (D : Obj)
    (hs : s.clientState.token = .null) :
    ((apiRequestResume "/api/texts" out s).2 = .ok C →
        ReplacesList "texts" C s (addManualTextResume env out s))
    ∧ ((apiRequestResume "/api/texts/generate-ai" out s).2 = .ok C →
        ReplacesList "texts" C s (generateAiTextsResume env count out s))
    ∧ ((apiRequestResume ("/api/texts/" ++ id.toStr) out s).2 = .ok C →
        ReplacesList "texts" C s (saveTextUpdateResume env id out s))
    ∧ ((apiRequestResume "/api/images/upload" out s).2 = .ok C →
        ReplacesList "images" C s (uploadSelectedImagesResume out s))
    ∧ ((apiRequestResume "/api/groups" out s).2 = .ok C →
        ReplacesList "groups" C s (addSingleGroupResume env out s))
    ∧ ((apiRequestResume "/api/groups/bulk" out s).2 = .ok C →
        ReplacesList "groups" C s (importBulkGroupsResume env out s))
    ∧ ((apiRequestResume "/api/pages" out s).2 = .ok C →
        ReplacesList "pages" C s (addPageResume env out s))
    ∧ ((apiRequestResume "/api/scheduled_posts" out s).2 = .ok C →
        ReplacesList "scheduled_posts" C s (schedulePostResume env out s))
    ∧ (r.ok = true → r.json = .ok D →
        (loadInitialDataResume env (.reply r) s).appState.data = D)
    ∧ (loadInitialData s).2 = none := by
  refine ⟨addManualTextResume_replaces env out s C, generateAiTextsResume_replaces env count out s C,
    saveTextUpdateResume_replaces env id out s C, uploadSelectedImagesResume_replaces out s C,
    addSingleGroupResume_replaces env out s C, importBulkGroupsResume_replaces env out s C,
    addPageResume_replaces env out s C, schedulePostResume_replaces env out s C,
    fun hok hj => loadInitialDataResume_data env r D s hok hj, ?_⟩
  simp [loadInitialData, hs, JVal.truthy]

/-- Witness of `reply_applied_without_session`: the reply to the sync on the
page `logoutBeforeReply`. -/
theorem reply_applied_without_session_witness :
    (loadInitialDataResume Env.sample (.reply ⟨200, none, .ok scenarioA⟩)
      logoutBeforeReply.state).appState.data = scenarioA :=
  (reply_applied_without_session Env.sample .null .null (.failed "") logoutBeforeReply.state
    .null ⟨200, none, .ok scenarioA⟩ scenarioA (by decide)).2.2.2.2.2.2.2.2.1 (by decide) rfl

/-! ## The stop control of group publishing (C21) -/

/-- C21: activating the stop control of group publishing runs no handler: the
listener evaluates `GroupPublishingManager.stopGroupPublishing` and does not
call it, so the page and the requests in flight stay as they are. The handler
itself, were it called, issues one authenticated POST to
`/api/publishing/stop` without a body and shows the `msg` of a 2xx reply, and
the start control with both tag lists filled in issues one POST to
`/api/publishing/start` with `group_tags` and `content_tags`. -/
theorem stop_control_runs_no_handler (env : Env) (c : Config) :
    step env .stopGroupPublishingClick c = c
    ∧ (stopGroupPublishing c.state).2 = some
        { url := API_URL ++ "/api/publishing/stop", method := "POST",
          headers := [("Authorization", "Bearer " ++ c.state.clientState.token.toStr)],
          body := none }
    ∧ (∀ (r : Response JVal) (msg : JVal), r.ok = true → r.status ≠ 204 →
        r.contentLength ≠ some "0" → r.json = .ok (.obj [("msg", msg)]) →
        stopGroupPublishingResume (.reply r) c.state
          = showNotification "Solicitud Enviada" msg "success" c.state)
    ∧ (jsTrim c.state.dom.inputs.groupTagsInput ≠ "" →
        jsTrim c.state.dom.inputs.contentTagsInput ≠ "" →
        step env .startGroupPublishingClick c =
          { state := c.state,
            pending := c.pending ++ [(
              { url := API_URL ++ "/api/publishing/start", method := "POST",
                headers := [("Authorization", "Bearer " ++ c.state.clientState.token.toStr),
                  ("Content-Type", "application/json")],
                body := some (.json (.obj
                  [("group_tags", .str (jsTrim c.state.dom.inputs.groupTagsInput)),
                   ("content_tags", .str (jsTrim c.state.dom.inputs.contentTagsInput))])) },
              .startGroupPublishing)] })
    ∧ step Env.sample .stopGroupPublishingClick publishingSample = publishingSample
    ∧ (step Env.sample .startGroupPublishingClick publishingSample).pending.length = 1 := by
  refine ⟨rfl, ?_, ?_, ?_, rfl, by decide⟩
  · simp [stopGroupPublishing, apiRequestConfig, JVal.truthy]
  · intro r msg hok h204 h0 hjson
    have hnot : (!r.ok) = false := by rw [hok]; rfl
    simp [stopGroupPublishingResume, publishingResume, apiRequestResume, hnot, h204, h0, hjson,
      JVal.getProp, Obj.get]
  · intro hg hc
    simp [step, issue, startGroupPublishing, hg, hc, apiRequestConfig, JVal.truthy]

/-! ## The escaping of the edit button (C22) -/

theorem scanTemplate_plain (c d : Char) (after : List Char)
    (h1 : c ≠ '\x60') (h2 : c ≠ '$') (h3 : c ≠ '\\') (h4 : c ≠ '\r') :
    scanTemplate (c :: d :: after) = (scanTemplate (d :: after)).push c := by
  rw [scanTemplate.eq_def]
  simp [h1, h2, h3, h4]

theorem scanTemplate_escaped_backtick (after : List Char) :
    scanTemplate ('\\' :: '\x60' :: after) = (scanTemplate after).push '\x60' := by
  rw [scanTemplate.eq_def]
  simp [isLineTerminator, escapeValue]

theorem scanTemplate_escaped_dollar (after : List Char) :
    scanTemplate ('\\' :: '$' :: after) = (scanTemplate after).push '$' := by
  rw [scanTemplate.eq_def]
  simp [isLineTerminator, escapeValue]

theorem scanTemplate_backtick (rest : List Char) :
    scanTemplate ('\x60' :: rest) = .closed [] rest := by
  rw [scanTemplate.eq_def]
  cases rest <;> simp

/-- What the escaping achieves: a content without backslash and carriage
return is read back from its template literal. -/
theorem scanTemplate_escaped (content rest : List Char)
    (h : ∀ c ∈ content, c ≠ '\\' ∧ c ≠ '\r') :
    scanTemplate (escapeChar '$' (escapeChar '\x60' content) ++ '\x60' :: rest)
      = .closed content rest := by
  induction content with
  | nil => exact scanTemplate_backtick rest
  | cons x xs ih =>
    have ih' := ih (fun c hc => h c (List.mem_cons_of_mem _ hc))
    obtain ⟨h3, h4⟩ := h x (List.mem_cons_self _ _)
    obtain ⟨d, after, hE⟩ : ∃ d after,
        escapeChar '$' (escapeChar '\x60' xs) ++ '\x60' :: rest = d :: after := by
      cases escapeChar '$' (escapeChar '\x60' xs) with
      | nil => exact ⟨_, _, rfl⟩
      | cons a as => exact ⟨_, _, rfl⟩
    by_cases h1 : x = '\x60'
    · subst h1
      have : escapeChar '$' (escapeChar '\x60' ('\x60' :: xs))
          = '\\' :: '\x60' :: escapeChar '$' (escapeChar '\x60' xs) := by
        simp [escapeChar]
      rw [this, List.cons_append, List.cons_append, scanTemplate_escaped_backtick, ih']
      rfl
    · by_cases h2 : x = '$'
      · subst h2
        have : escapeChar '$' (escapeChar '\x60' ('$' :: xs))
            = '\\' :: '$' :: escapeChar '$' (escapeChar '\x60' xs) := by
          simp [escapeChar]
        rw [this, List.cons_append, List.cons_append, scanTemplate_escaped_dollar, ih']
        rfl
      · have : escapeChar '$' (escapeChar '\x60' (x :: xs))
            = x :: escapeChar '$' (escapeChar '\x60' xs) := by
          simp [escapeChar, h1, h2]
        rw [this, List.cons_append, hE, scanTemplate_plain x d after h1 h2 h3 h4, ← hE, ih']
        rfl

/-- C22: the escaping of `updateTextsTable` does not keep every content from
breaking the markup of the edit button. A content without backslash and
carriage return is read back from the template literal it is put in; but a
double quote in the content ends the `onclick` attribute, a backslash at the
end of the content escapes the closing backtick, a backslash before a backtick
or before a dollar sign and brace lets the backtick close the literal or the
substitution start, and a backslash before a letter changes the string. -/
theorem escapedContent_breaks_onclick :
    (∀ content rest : List Char, (∀ c ∈ content, c ≠ '\\' ∧ c ≠ '\r') →
      scanTemplate ((escapedContent (String.mk content)).data ++ '\x60' :: rest)
        = .closed content rest)
    ∧ contentArgument (.num 1) "hola `mundo` $5 $\x7bx\x7d"
        = .closed "hola `mundo` $5 $\x7bx\x7d".data [')']
    ∧ attributeValue ((editOnclick (.num 1) "Dijo \"hola\"").data ++ ['\x22'])
        = "UIManager.showTextEditModal(1, `Dijo ".data
    ∧ contentArgument (.num 1) "Dijo \"hola\"" = .unterminated
    ∧ contentArgument (.num 1) "C:\\" = .unterminated
    ∧ contentArgument (.num 1) "\\`+alert(1)+`" = .closed ['\\'] "+alert(1)+\\``)".data
    ∧ contentArgument (.num 1) "\\$\x7balert(1)\x7d" = .substitution ['\\'] "alert(1)\x7d`)".data
    ∧ contentArgument (.num 1) "C:\\temp" = .closed "C:\temp".data [')'] :=
  ⟨fun content rest h => scanTemplate_escaped content rest h,
    by decide, by decide, by decide, by decide, by decide, by decide, by decide⟩

/-! ## The two file-name derivations (C23) -/

theorem splitChars_eq_splitBy (sep : Char) (cs : List Char) :
    splitChars sep cs = splitBy (fun c => decide (c = sep)) cs := by
  induction cs with
  | nil => rfl
  | cons c rest ih =>
    simp only [splitChars, splitBy, ih, decide_eq_true_eq]

/-- Two suffixes of a list that hold no separator and come right after a
separator, or are the whole list, are the same suffix. -/
theorem suffix_after_separator_unique (sep : Char → Bool) (x t y u : List Char)
    (h : x ++ t = y ++ u)
    (ht : ∀ c ∈ t, sep c = false) (hu : ∀ c ∈ u, sep c = false)
    (hx : x = [] ∨ ∃ front c, x = front ++ [c] ∧ sep c = true)
    (hy : y = [] ∨ ∃ front c, y = front ++ [c] ∧ sep c = true) : t = u := by
  rcases List.append_eq_append_iff.mp h with ⟨a, rfl, rfl⟩ | ⟨a, rfl, rfl⟩
  · -- `y = x ++ a` and `t = a ++ u`
    cases a with
    | nil => simp
    | cons d ds =>
      exfalso
      rcases hy with hy | ⟨front, c, hy, hc⟩
      · simp at hy
      · have hmem : c ∈ d :: ds := by
          have hl : (x ++ d :: ds).getLast? = (front ++ [c]).getLast? := by rw [hy]
          rw [List.getLast?_append_of_ne_nil _ (List.cons_ne_nil d ds)] at hl
          simp only [List.getLast?_append, List.getLast?_singleton, Option.or] at hl
          exact List.mem_of_getLast?_eq_some hl
        have := ht c (List.mem_append_left _ hmem)
        rw [this] at hc
        exact absurd hc (by decide)
  · cases a with
    | nil => simp
    | cons d ds =>
      exfalso
      rcases hx with hx | ⟨front, c, hx, hc⟩
      · simp at hx
      · have hmem : c ∈ d :: ds := by
          have hl : (y ++ d :: ds).getLast? = (front ++ [c]).getLast? := by rw [hx]
          rw [List.getLast?_append_of_ne_nil _ (List.cons_ne_nil d ds)] at hl
          simp only [List.getLast?_append, List.getLast?_singleton, Option.or] at hl
          exact List.mem_of_getLast?_eq_some hl
        have := hu c (List.mem_append_left _ hmem)
        rw [this] at hc
        exact absurd hc (by decide)

/-- C23: the two file-name derivations agree. For every path string the file
name of the scheduler's image select, `path.split('\\').pop().split('/').pop()`,
equals the one of the image table and the image URL,
`path.split(/[\\/]/).pop()`, and it is the suffix of the path after its last
slash or backslash: it holds neither character and what precedes it in the
path is empty or ends in one of them. -/
theorem selectFileName_eq_fileName (path : String) :
    selectFileName path = fileName path
    ∧ (∃ before, path.data = before ++ (selectFileName path).data
        ∧ (∀ c ∈ (selectFileName path).data, c ≠ '/' ∧ c ≠ '\\')
        ∧ (before = [] ∨ ∃ front c, before = front ++ [c] ∧ (c = '/' ∨ c = '\\')))
    ∧ selectFileName "C:\\srv\\uploads/client_7\\foto.png" = "foto.png"
    ∧ selectFileName "/srv/uploads\\client_7/foto.png" = "foto.png"
    ∧ selectFileName "foto.png" = "foto.png"
    ∧ selectFileName "uploads/" = "" := by
  have hsep : ∀ c, isPathSeparator c = false ↔ (c ≠ '/' ∧ c ≠ '\\') := by
    intro c
    simp [isPathSeparator, and_comm]
  have hsep' : ∀ c, isPathSeparator c = true ↔ (c = '/' ∨ c = '\\') := by
    intro c
    simp [isPathSeparator, or_comm]
  -- the piece after the last backslash, then its piece after the last slash
  obtain ⟨b1, h1, n1, e1⟩ := pop_splitBy (fun c => decide (c = '\\')) path.data
  obtain ⟨b2, h2, n2, e2⟩ := pop_splitBy (fun c => decide (c = '/'))
    (pop (splitBy (fun c => decide (c = '\\')) path.data))
  -- the piece after the last of both
  obtain ⟨b, h, n, e⟩ := pop_splitBy isPathSeparator path.data
  have hdata : (selectFileName path).data
      = pop (splitBy (fun c => decide (c = '/'))
          (pop (splitBy (fun c => decide (c = '\\')) path.data))) := by
    simp only [selectFileName, splitChars_eq_splitBy]
  have hno : ∀ c ∈ (selectFileName path).data, isPathSeparator c = false := by
    intro c hc
    rw [hdata] at hc
    have hs : c ≠ '/' := by simpa using n2 c hc
    have hb : c ≠ '\\' := by
      have hc1 : c ∈ pop (splitBy (fun c => decide (c = '\\')) path.data) := by
        rw [h2]; exact List.mem_append_right _ hc
      simpa using n1 c hc1
    exact (hsep c).mpr ⟨hs, hb⟩
  have hcut : path.data = (b1 ++ b2) ++ (selectFileName path).data := by
    rw [hdata, List.append_assoc, ← h2, ← h1]
  have hends : b1 ++ b2 = [] ∨ ∃ front c, b1 ++ b2 = front ++ [c] ∧ isPathSeparator c = true := by
    rcases e2 with rfl | ⟨front, c, rfl, hc⟩
    · rcases e1 with rfl | ⟨front, c, rfl, hc⟩
      · exact Or.inl rfl
      · refine Or.inr ⟨front, c, by simp, (hsep' c).mpr (Or.inr ?_)⟩
        simpa using hc
    · refine Or.inr ⟨b1 ++ front, c, by simp, (hsep' c).mpr (Or.inl ?_)⟩
      simpa using hc
  have hsame : (selectFileName path).data = (fileName path).data :=
    suffix_after_separator_unique isPathSeparator (b1 ++ b2) _ b _
      (by rw [← hcut]; exact h) hno n hends e
  refine ⟨?_, ⟨b1 ++ b2, hcut, fun c hc => (hsep c).mp (hno c hc), ?_⟩,
    by decide, by decide, by decide, by decide⟩
  · show selectFileName path = fileName path
    exact String.ext hsame
  · rcases hends with h0 | ⟨front, c, hf, hc⟩
    · exact Or.inl h0
    · exact Or.inr ⟨front, c, hf, (hsep' c).mp hc⟩

/-! ## Truncated text (C24) -/

theorem utf16Units_ne_nil (c : Char) : utf16Units c ≠ [] := by
  unfold utf16Units
  split <;> simp

theorem codeUnits_eq_nil (t : String) : codeUnits t = [] ↔ t = "" := by
  constructor
  · intro h
    apply String.ext
    cases hd : t.data with
    | nil => rfl
    | cons c cs =>
      exfalso
      simp only [codeUnits, hd, codeUnitsOf, List.append_eq_nil] at h
      exact utf16Units_ne_nil c h.1
  · rintro rfl
    rfl

theorem truncateUnits_eq (units : List Nat) (n : Nat) :
    truncateUnits units n
      = (if units.length ≤ n then units else units.take n ++ codeUnits "...") := by
  unfold truncateUnits
  by_cases h0 : units = []
  · subst h0
    simp
  · by_cases hle : units.length ≤ n
    · have hgt : ¬ ((units.length : Int) > (n : Int)) := by omega
      simp [h0, hle, hgt]
    · have hgt : (units.length : Int) > (n : Int) := by omega
      simp [h0, hle, hgt]

theorem truncateText_whole (env : Env) (t : String) (n : Nat)
    (hle : (codeUnits t).length ≤ n) :
    truncateText env (.str t) n = .ok (.value (.str t)) := by
  by_cases he : t = ""
  · subst he
    rfl
  · have hgt : ¬ ((n : Int) < ((codeUnits t).length : Int)) := by omega
    simp [truncateText, JVal.truthy, he, JVal.length, gtNumber, hgt]

theorem truncateText_cut (env : Env) (t : String) (n : Nat)
    (hlt : n < (codeUnits t).length) :
    truncateText env (.str t) n = .ok (.units ((codeUnits t).take n ++ codeUnits "...")) := by
  have he : t ≠ "" := by
    rintro rfl
    exact absurd hlt (Nat.not_lt_zero n)
  have hgt : (n : Int) < ((codeUnits t).length : Int) := by omega
  simp [truncateText, JVal.truthy, he, JVal.length, gtNumber, hgt, hlt, strMethod]

/-- C24: `Utils.truncateText(t, n)` for every string `t`, a sequence of UTF-16
code units, and every non-negative integer `n`: it returns `t` unchanged when
`t.length <= n` and otherwise the first `n` units of `t` followed by `...`;
the result has at most `n + 3` units and starts with the first
`min(t.length, n)` units of `t`; the empty string yields the empty string, and
so does a missing text. The function on values returns just that on a string,
the value itself when nothing is cut. -/
theorem truncateText_string (env : Env) (t : String) (units : List Nat) (n : Nat) :
    truncateUnits units n
      = (if units.length ≤ n then units else units.take n ++ codeUnits "...")
    ∧ (truncateUnits units n).length ≤ n + 3
    ∧ (truncateUnits units n).take (min units.length n) = units.take (min units.length n)
    ∧ truncateUnits [] n = []
    ∧ (∃ r, truncateText env (.str t) n = .ok r
        ∧ r.codeUnits = some (truncateUnits (codeUnits t) n))
    ∧ ((codeUnits t).length ≤ n → truncateText env (.str t) n = .ok (.value (.str t)))
    ∧ (n < (codeUnits t).length → truncateText env (.str t) n
        = .ok (.units ((codeUnits t).take n ++ codeUnits "...")))
    ∧ truncateText env (.str "") n = .ok (.value (.str ""))
    ∧ truncateText env .undefined n = .ok (.value (.str ""))
    ∧ truncateText env .null n = .ok (.value (.str ""))
    ∧ codeUnits "..." = [46, 46, 46]
    ∧ (codeUnits (String.mk [Char.ofNat 0x1F600, Char.ofNat 0x1F600])).length = 4
    ∧ truncateText env (.str (String.mk [Char.ofNat 0x1F600, Char.ofNat 0x1F600])) 3
        = .ok (.units [0xD83D, 0xDE00, 0xD83D, 46, 46, 46]) := by
  have hdots : (codeUnits "...").length = 3 := by decide
  have hwhole := truncateText_whole env t n
  have hcut := truncateText_cut env t n
  refine ⟨truncateUnits_eq units n, ?_, ?_, by simp [truncateUnits], ?_, hwhole, hcut,
    rfl, rfl, rfl, by decide, by decide, ?_⟩
  · rw [truncateUnits_eq]
    by_cases hle : units.length ≤ n
    · simp only [hle, if_true]
      omega
    · simp only [hle, if_false, List.length_append, List.length_take, hdots]
      omega
  · rw [truncateUnits_eq]
    by_cases hle : units.length ≤ n
    · simp only [hle, if_true]
    · have hmin : min units.length n = n := by omega
      simp only [hle, if_false, hmin]
      rw [List.take_append_of_le_length]
      · simp
      · simp [List.length_take]
        omega
  · by_cases hle : (codeUnits t).length ≤ n
    · refine ⟨_, hwhole hle, ?_⟩
      rw [truncateUnits_eq, if_pos hle]
      rfl
    · have hlt : n < (codeUnits t).length := by omega
      refine ⟨_, hcut hlt, ?_⟩
      rw [truncateUnits_eq, if_neg hle]
      rfl
  · have h4 : (3 : Nat)
        < (codeUnits (String.mk [Char.ofNat 0x1F600, Char.ofNat 0x1F600])).length := by decide
    rw [show (3 : Int) = ((3 : Nat) : Int) from rfl, truncateText_cut env _ 3 h4]
    decide

/-! ## Bulk import: the list of addresses (C25) -/

theorem trimChars_eq (cs : List Char) :
    trimChars cs = (cs.dropWhile isJsWhitespace).rdropWhile isJsWhitespace := rfl

theorem trimChars_nil : trimChars [] = [] := rfl

theorem trimChars_cons_whitespace (w : Char) (cs : List Char) (hw : isJsWhitespace w = true) :
    trimChars (w :: cs) = trimChars cs := by
  simp only [trimChars, List.dropWhile_cons_of_pos hw]

theorem trimChars_concat_whitespace (w : Char) (cs : List Char) (hw : isJsWhitespace w = true) :
    trimChars (cs ++ [w]) = trimChars cs := by
  rw [trimChars_eq, trimChars_eq, List.dropWhile_append]
  by_cases he : cs.dropWhile isJsWhitespace = []
  · simp [he, hw, List.rdropWhile]
  · have : (cs.dropWhile isJsWhitespace).isEmpty = false := by
      cases h : cs.dropWhile isJsWhitespace with
      | nil => exact absurd h he
      | cons a as => rfl
    simp only [this, Bool.false_eq_true, if_false]
    exact List.rdropWhile_concat_pos _ _ _ hw

/-- A character that is not white space survives the trim. -/
theorem trimChars_ne_nil (cs : List Char) (c : Char) (hc : c ∈ cs)
    (hn : isJsWhitespace c = false) : trimChars cs ≠ [] := by
  rw [trimChars_eq]
  intro h
  rw [List.rdropWhile_eq_nil_iff] at h
  have hmem : c ∈ cs.dropWhile isJsWhitespace := by
    have hsplit := List.takeWhile_append_dropWhile isJsWhitespace cs
    rw [← hsplit] at hc
    rcases List.mem_append.mp hc with h1 | h1
    · have := List.mem_takeWhile_imp h1
      rw [hn] at this
      exact absurd this (by decide)
    · exact h1
  have := h c hmem
  rw [hn] at this
  exact absurd this (by decide)

/-- The trim of a list that is not all white space holds a character that is
not white space. -/
theorem exists_not_whitespace_of_trimChars_ne_nil (cs : List Char) (h : trimChars cs ≠ []) :
    ∃ c ∈ cs, isJsWhitespace c = false := by
  by_contra hall
  apply h
  rw [trimChars_eq]
  have hd : cs.dropWhile isJsWhitespace = [] := by
    rw [List.dropWhile_eq_nil_iff]
    intro x hx
    by_contra hx2
    exact hall ⟨x, hx, by simpa using hx2⟩
  rw [hd]
  rfl

/-- A trimmed string neither begins nor ends with white space. -/
theorem trimChars_not_padded (cs : List Char) :
    whitespacePadded (String.mk (trimChars cs)) = false := by
  have hlast : ((trimChars cs).getLast?.map isJsWhitespace).getD false = false := by
    rw [trimChars_eq]
    cases hl : ((cs.dropWhile isJsWhitespace).rdropWhile isJsWhitespace).getLast? with
    | none => rfl
    | some x =>
      have hne : (cs.dropWhile isJsWhitespace).rdropWhile isJsWhitespace ≠ [] := by
        intro h0
        rw [h0] at hl
        simp at hl
      have := List.rdropWhile_last_not isJsWhitespace _ hne
      rw [List.getLast?_eq_getLast _ hne] at hl
      cases hl
      simpa using this
  have hhead : ((trimChars cs).head?.map isJsWhitespace).getD false = false := by
    rw [trimChars_eq]
    obtain ⟨rest, hrest⟩ : (cs.dropWhile isJsWhitespace).rdropWhile isJsWhitespace
        <+: cs.dropWhile isJsWhitespace := List.rdropWhile_prefix _ _
    cases hr : (cs.dropWhile isJsWhitespace).rdropWhile isJsWhitespace with
    | nil => rfl
    | cons x xs =>
      rw [hr] at hrest
      have := List.head?_dropWhile_not isJsWhitespace cs
      rw [← hrest] at this
      simpa using this
  simp only [whitespacePadded]
  rw [hhead, hlast]
  rfl

theorem nonEmptyTrimmed_append (ps qs : List (List Char)) :
    nonEmptyTrimmed (ps ++ qs) = nonEmptyTrimmed ps ++ nonEmptyTrimmed qs := by
  simp [nonEmptyTrimmed]

theorem nonEmptyTrimmed_cons_nil (ps : List (List Char)) :
    nonEmptyTrimmed ([] :: ps) = nonEmptyTrimmed ps := by
  simp [nonEmptyTrimmed, trimChars_nil]

/-- The split of a concatenation: the last piece of the first part and the
first piece of the second are joined. -/
theorem splitChars_append (sep : Char) (xs : List Char) :
    ∃ init piece, splitChars sep xs = init ++ [piece]
      ∧ ∀ ys first others, splitChars sep ys = first :: others →
          splitChars sep (xs ++ ys) = init ++ (piece ++ first) :: others := by
  induction xs with
  | nil => exact ⟨[], [], rfl, fun ys first others h => by simpa using h⟩
  | cons c rest ih =>
    obtain ⟨init, piece, h1, h2⟩ := ih
    by_cases hc : c = sep
    · refine ⟨[] :: init, piece, by simp [splitChars, hc, h1], ?_⟩
      intro ys first others h
      simp [splitChars, hc, h2 ys first others h]
    · cases init with
      | nil =>
        refine ⟨[], c :: piece, by simp [splitChars, hc, h1], ?_⟩
        intro ys first others h
        simp [splitChars, hc, h2 ys first others h]
      | cons p ps =>
        refine ⟨(c :: p) :: ps, piece, by simp [splitChars, hc, h1], ?_⟩
        intro ys first others h
        simp [splitChars, hc, h2 ys first others h]

theorem nonEmptyTrimmed_split_cons (w : Char) (cs : List Char) (hw : isJsWhitespace w = true) :
    nonEmptyTrimmed (splitChars '\n' (w :: cs)) = nonEmptyTrimmed (splitChars '\n' cs) := by
  obtain ⟨init, piece, h1, h2⟩ := splitChars_append '\n' [w]
  by_cases hn : w = '\n'
  · simp [splitChars, hn, nonEmptyTrimmed_cons_nil]
  · cases hs : splitChars '\n' cs with
    | nil => simp [splitChars, hn, hs, nonEmptyTrimmed, trimChars_cons_whitespace w [] hw, trimChars_nil]
    | cons p ps =>
      simp [splitChars, hn, hs, nonEmptyTrimmed, trimChars_cons_whitespace w p hw]

theorem nonEmptyTrimmed_split_concat (w : Char) (cs : List Char) (hw : isJsWhitespace w = true) :
    nonEmptyTrimmed (splitChars '\n' (cs ++ [w])) = nonEmptyTrimmed (splitChars '\n' cs) := by
  obtain ⟨init, piece, h1, h2⟩ := splitChars_append '\n' cs
  by_cases hn : w = '\n'
  · have hs : splitChars '\n' [w] = [] :: [[]] := by simp [splitChars, hn]
    rw [h2 [w] [] [[]] hs, h1]
    simp [nonEmptyTrimmed, trimChars_nil, List.filter_cons]
  · have hs : splitChars '\n' [w] = [w] :: [] := by simp [splitChars, hn]
    rw [h2 [w] [w] [] hs, h1]
    simp [nonEmptyTrimmed, trimChars_concat_whitespace w piece hw]

theorem nonEmptyTrimmed_split_dropWhile (cs : List Char) :
    nonEmptyTrimmed (splitChars '\n' (cs.dropWhile isJsWhitespace))
      = nonEmptyTrimmed (splitChars '\n' cs) := by
  induction cs with
  | nil => rfl
  | cons c rest ih =>
    by_cases hc : isJsWhitespace c = true
    · rw [List.dropWhile_cons_of_pos hc, ih, nonEmptyTrimmed_split_cons c rest hc]
    · rw [List.dropWhile_cons_of_neg hc]

theorem nonEmptyTrimmed_split_rdropWhile (cs : List Char) :
    nonEmptyTrimmed (splitChars '\n' (cs.rdropWhile isJsWhitespace))
      = nonEmptyTrimmed (splitChars '\n' cs) := by
  induction cs using List.reverseRecOn with
  | nil => rfl
  | append_singleton rest c ih =>
    by_cases hc : isJsWhitespace c = true
    · rw [List.rdropWhile_concat_pos _ _ _ hc, ih, nonEmptyTrimmed_split_concat c rest hc]
    · rw [List.rdropWhile_concat_neg _ _ _ hc]

/-- Trimming the whole input first does not change its trimmed, non-empty
lines. -/
theorem nonEmptyTrimmed_split_trimChars (cs : List Char) :
    nonEmptyTrimmed (splitChars '\n' (trimChars cs)) = nonEmptyTrimmed (splitChars '\n' cs) := by
  rw [trimChars_eq, nonEmptyTrimmed_split_rdropWhile, nonEmptyTrimmed_split_dropWhile]

/-- Every character other than the separator is in a piece of the split. -/
theorem mem_splitChars (sep : Char) (cs : List Char) (c : Char) (hc : c ∈ cs) (hs : c ≠ sep) :
    ∃ piece ∈ splitChars sep cs, c ∈ piece := by
  induction cs with
  | nil => simp at hc
  | cons x rest ih =>
    by_cases hx : x = sep
    · have hc' : c ∈ rest := by
        rcases List.mem_cons.mp hc with rfl | h
        · exact absurd hx hs
        · exact h
      obtain ⟨piece, hp, hcp⟩ := ih hc'
      exact ⟨piece, by simp [splitChars, hx, hp], hcp⟩
    · cases hsp : splitChars sep rest with
      | nil =>
        rcases List.mem_cons.mp hc with rfl | h
        · exact ⟨[c], by simp [splitChars, hx, hsp], by simp⟩
        · obtain ⟨piece, hp, _⟩ := ih h
          simp [hsp] at hp
      | cons p ps =>
        rcases List.mem_cons.mp hc with rfl | h
        · exact ⟨c :: p, by simp [splitChars, hx, hsp], by simp⟩
        · obtain ⟨piece, hp, hcp⟩ := ih h
          rw [hsp] at hp
          rcases List.mem_cons.mp hp with rfl | hp
          · exact ⟨x :: piece, by simp [splitChars, hx, hsp], List.mem_cons_of_mem _ hcp⟩
          · exact ⟨piece, by simp [splitChars, hx, hsp, hp], hcp⟩

/-- An input that is not all white space has a trimmed line that is not
empty. -/
theorem nonEmptyTrimmed_split_ne_nil (cs : List Char) (h : trimChars cs ≠ []) :
    nonEmptyTrimmed (splitChars '\n' cs) ≠ [] := by
  obtain ⟨c, hc, hn⟩ := exists_not_whitespace_of_trimChars_ne_nil cs h
  have hsep : c ≠ '\n' := by
    rintro rfl
    exact absurd hn (by decide)
  obtain ⟨piece, hp, hcp⟩ := mem_splitChars '\n' cs c hc hsep
  have hmem : trimChars piece ∈ nonEmptyTrimmed (splitChars '\n' cs) := by
    simp only [nonEmptyTrimmed, List.mem_filter, List.mem_map]
    exact ⟨⟨piece, hp, rfl⟩, by simpa using trimChars_ne_nil piece c hcp hn⟩
  exact List.ne_nil_of_mem hmem

theorem filter_map_trimChars (pieces : List (List Char)) :
    (pieces.map (fun u => String.mk (trimChars u))).filter (fun u => u != "")
      = (nonEmptyTrimmed pieces).map String.mk := by
  induction pieces with
  | nil => rfl
  | cons p ps ih =>
    have hps : nonEmptyTrimmed (p :: ps) = nonEmptyTrimmed [p] ++ nonEmptyTrimmed ps :=
      nonEmptyTrimmed_append [p] ps
    rw [hps, List.map_append, ← ih, List.map_cons, List.filter_cons]
    by_cases hp : trimChars p = []
    · have h1 : (String.mk (trimChars p) != "") = false := by rw [hp]; rfl
      simp [h1, nonEmptyTrimmed, hp]
    · have h1 : (String.mk (trimChars p) != "") = true := by
        simp only [bne_iff_ne, ne_eq]
        intro h
        exact hp (congrArg String.data h)
      simp [h1, nonEmptyTrimmed, hp]

/-- The list of `importBulkGroups`, by the characters of its entries. -/
theorem bulkUrls_eq (urlsText : String) :
    bulkUrls urlsText = (nonEmptyTrimmed (splitChars '\n' urlsText.data)).map String.mk :=
  filter_map_trimChars _

/-- C25: for every bulk-import input that is non-empty after trimming,
`importBulkGroups` issues a POST to `/api/groups/bulk` whose `urls` are exactly
the newline-separated lines of the input, each trimmed, the empty ones removed,
in their order; that list is not empty and none of its entries is empty or
begins or ends with white space. For an input that is empty after trimming no
request is issued. -/
theorem importBulkGroups_urls (s : State) :
    (jsTrim s.dom.inputs.bulkGroupsInput ≠ "" →
      ∃ request, (importBulkGroups s).2 = some request
        ∧ request.url = API_URL ++ "/api/groups/bulk" ∧ request.method = "POST"
        ∧ request.body = some (.json (.obj
            [("urls", .arr ((trimmedLines s.dom.inputs.bulkGroupsInput).map JVal.str)),
             ("tags", .str (jsTrim s.dom.inputs.bulkTagsInput))]))
        ∧ trimmedLines s.dom.inputs.bulkGroupsInput ≠ []
        ∧ ∀ u ∈ trimmedLines s.dom.inputs.bulkGroupsInput, u ≠ "" ∧ whitespacePadded u = false)
    ∧ (jsTrim s.dom.inputs.bulkGroupsInput = "" → (importBulkGroups s).2 = none)
    ∧ (importBulkGroups bulkSample).2 = some
        { url := "https://34.55.41.159.sslip.io/api/groups/bulk", method := "POST",
          headers := [("Authorization", "Bearer t0k"), ("Content-Type", "application/json")],
          body := some (.json (.obj
            [("urls", .arr [.str "https://g/1", .str "https://g/2"]),
             ("tags", .str "ventas")])) } := by
  have hurls : bulkUrls (jsTrim s.dom.inputs.bulkGroupsInput)
      = trimmedLines s.dom.inputs.bulkGroupsInput := by
    rw [bulkUrls_eq]
    show (nonEmptyTrimmed (splitChars '\n' (trimChars s.dom.inputs.bulkGroupsInput.data))).map
      String.mk = _
    rw [nonEmptyTrimmed_split_trimChars]
    rfl
  refine ⟨fun hne => ?_, fun he => ?_, by decide⟩
  · refine ⟨apiRequestConfig (showLoading true s).clientState "/api/groups/bulk" "POST"
        (.value (.obj [("urls", .arr ((bulkUrls (jsTrim s.dom.inputs.bulkGroupsInput)).map
          JVal.str)), ("tags", .str (jsTrim s.dom.inputs.bulkTagsInput))])),
      by simp only [importBulkGroups, hne, if_false], ?_, ?_, ?_, ?_, ?_⟩
    · simp [apiRequestConfig, JVal.truthy]
    · simp [apiRequestConfig, JVal.truthy]
    · simp [apiRequestConfig, JVal.truthy, hurls]
    · have hc : trimChars s.dom.inputs.bulkGroupsInput.data ≠ [] := by
        intro h0
        apply hne
        show String.mk (trimChars s.dom.inputs.bulkGroupsInput.data) = ""
        rw [h0]
      intro h0
      exact nonEmptyTrimmed_split_ne_nil _ hc (List.map_eq_nil_iff.mp h0)
    · intro u hu
      simp only [trimmedLines, nonEmptyTrimmed, List.mem_map, List.mem_filter] at hu
      obtain ⟨piece, ⟨⟨line, _, rfl⟩, hp⟩, rfl⟩ := hu
      refine ⟨?_, trimChars_not_padded line⟩
      intro h0
      have : trimChars line = [] := congrArg String.data h0
      simp [this] at hp
  · simp only [importBulkGroups, he, if_true]

end Publishing
